import Mathlib

/-!
# Client-side accounting components: report viewers, dashboards, reconciliation widget

A shallow embedding of the view controllers of the repository.  Every controller method is
translated into a pure function on an explicit component state.  The services of the host
framework are external: a remote call is represented by the reply it receives (a returned value
or a thrown error), and everything a method does to the outside world (remote calls,
notifications, console output) is recorded, in order, in a list of events.
-/

set_option autoImplicit false

/-! ## JavaScript values -/

/-- JavaScript values as they occur in the component states and in the remote payloads.
Numbers are the integers plus `NaN`; this is enough for every test the controllers perform on
a number (truthiness and comparison with a literal). `date src` stands for `new Date(src)`. -/
inductive JsVal where
  | undefined
  | null
  | bool (b : Bool)
  | num (n : Int)
  | nan
  | str (s : String)
  | date (src : String)
  | arr (items : List JsVal)
  | obj (fields : List (String × JsVal))

namespace JsVal

/-- The `ToBoolean` conversion used by `if`, `!`, `||`, `&&` and `?:`. -/
def truthy : JsVal → Bool
  | undefined => false
  | null => false
  | bool b => b
  | num n => n != 0
  | nan => false
  | str s => s != ""
  | date _ => true
  | arr _ => true
  | obj _ => true

/-- The expression `a || b` for an operand `b` without side effects. -/
def or (a b : JsVal) : JsVal := if a.truthy then a else b

/-- The expression `c ? a : b` for operands without side effects. -/
def cond (c a b : JsVal) : JsVal := if c.truthy then a else b

mutual
/-- The `ToString` conversion (string concatenation, template literals, `new Error(x)`). -/
def toStr : JsVal → String
  | undefined => "undefined"
  | null => "null"
  | bool b => if b then "true" else "false"
  | num n => toString n
  | nan => "NaN"
  | str s => s
  | date src => "Date(" ++ src ++ ")"
  | arr xs => joinStr xs
  | obj _ => "[object Object]"
/-- The conversion `Array.prototype.join` applies with the separator `,`. -/
def joinStr : List JsVal → String
  | [] => ""
  | [x] => elemStr x
  | x :: y :: r => elemStr x ++ "," ++ joinStr (y :: r)
/-- An array element inside `join`: `undefined` and `null` are rendered empty. -/
def elemStr : JsVal → String
  | undefined => ""
  | null => ""
  | bool b => if b then "true" else "false"
  | num n => toString n
  | nan => "NaN"
  | str s => s
  | date src => "Date(" ++ src ++ ")"
  | arr xs => joinStr xs
  | obj _ => "[object Object]"
end

/-- Lookup of an own property in the field list of an object literal. -/
def lookup (k : String) : List (String × JsVal) → JsVal
  | [] => undefined
  | (k', v) :: rest => if k' = k then v else lookup k rest

/-- The comparison `v === "s"` with a string literal. -/
def isStr (v : JsVal) (s : String) : Bool :=
  match v with
  | str t => t == s
  | _ => false

/-- The own property `k` of an object literal (`undefined` when it has none). -/
def field (v : JsVal) (k : String) : JsVal :=
  match v with
  | obj fields => lookup k fields
  | _ => undefined

/-- The property names of an object, in insertion order. -/
def keys : JsVal → List String
  | obj fields => fields.map Prod.fst
  | _ => []

end JsVal

/-- The value caught by a `catch` clause: an error object with its `message` property. -/
structure JsError where
  message : JsVal

/-- The expression `new Error(x)`: the message is `ToString(x)`, and empty for `undefined`. -/
def JsError.new (x : JsVal) : JsError :=
  match x with
  | .undefined => ⟨.str ""⟩
  | v => ⟨.str v.toStr⟩

/-- The `TypeError` raised when a property of `undefined` or `null` is read. -/
def JsError.typeError (property : String) : JsError :=
  ⟨.str ("Cannot read properties of undefined or null, reading " ++ property)⟩

/-- The property access `v.k`: a `TypeError` on `undefined` and `null`, the own property of an
object, and `undefined` for every other value (none of the property names read by the
controllers exists on a primitive or on an array). -/
def JsVal.get (v : JsVal) (k : String) : Except JsError JsVal :=
  match v with
  | .undefined => .error (JsError.typeError k)
  | .null => .error (JsError.typeError k)
  | .obj fields => .ok (JsVal.lookup k fields)
  | _ => .ok .undefined

/-- The outcome of an awaited remote call: the promise rejects with an error or resolves. -/
inductive Reply (α : Type) where
  | threw (e : JsError)
  | returned (v : α)

/-- What a controller method does to its environment, in the order in which it happens. -/
inductive Event where
  /-- The call `this.rpc(route, params)`. -/
  | rpc (route : String) (params : JsVal)
  /-- The call `this.orm.call(model, method, args, kwargs)`; an absent `kwargs` is `undefined`. -/
  | ormCall (model method : String) (args kwargs : JsVal)
  /-- The call `this.orm.searchRead(model, domain, fields, options)`. -/
  | searchRead (model : String) (domain fields options : JsVal)
  /-- The call `this.notification.add(message, { type })`: a toast shown to the user. -/
  | notify (message type : String)
  /-- The call `console.error(label, error)`. -/
  | consoleError (label : String) (error : JsError)
  /-- The call `this.action.doAction(action)`. -/
  | doAction (action : JsVal)

namespace Event

/-- Events that are calls to the remote backend. -/
def isRemote : Event → Bool
  | rpc _ _ => true
  | ormCall _ _ _ _ => true
  | searchRead _ _ _ _ => true
  | _ => false

/-- Events that are toast notifications. -/
def isNotify : Event → Bool
  | notify _ _ => true
  | _ => false

/-- Events that are toast notifications of the given type. -/
def isNotifyOfType (t : String) : Event → Bool
  | notify _ ty => ty = t
  | _ => false

/-- Events that are `orm.call`s of the given method. -/
def isCallOf (m : String) : Event → Bool
  | ormCall _ method _ _ => method = m
  | _ => false

end Event

/-- The services `user.context` offers to the report components. -/
structure UserContext where
  allowed_company_ids : List JsVal
  company_id : JsVal

/-- The expression `xs[0]` on an array. -/
def firstOf : List JsVal → JsVal
  | [] => .undefined
  | x :: _ => x

/-- The expression `xs.length > 0 ? xs : null` on an array. -/
def nonEmptyOrNull (xs : List JsVal) : JsVal :=
  if xs.length > 0 then .arr xs else .null

/-! ## Identifiers and identifier sets -/

/-- Identifiers of report lines and records: numbers or strings, compared with `===`. -/
inductive Key where
  | num (n : Int)
  | str (s : String)
  deriving DecidableEq

/-- An identifier as a JavaScript value. -/
def Key.toJs : Key → JsVal
  | .num n => .num n
  | .str s => .str s

/-- A JavaScript `Set` of identifiers: its elements in insertion order, each once. -/
structure JsSet where
  items : List Key
  nodup : items.Nodup

namespace JsSet

/-- The expression `new Set()`. -/
def empty : JsSet := ⟨[], List.nodup_nil⟩

/-- The method `set.has(k)`. -/
def has (s : JsSet) (k : Key) : Bool := decide (k ∈ s.items)

/-- The method `set.add(k)`: a new element goes to the end of the insertion order. -/
def add (s : JsSet) (k : Key) : JsSet :=
  if h : k ∈ s.items then s
  else ⟨s.items ++ [k], List.Nodup.append s.nodup (List.nodup_singleton k)
    (by simpa [List.disjoint_singleton] using h)⟩

/-- The method `set.delete(k)`. -/
def delete (s : JsSet) (k : Key) : JsSet :=
  ⟨s.items.erase k, s.nodup.erase k⟩

/-- The method `set.clear()`. -/
def clear (_s : JsSet) : JsSet := empty

/-- The expression `Array.from(set)`. -/
def toArray (s : JsSet) : List Key := s.items

end JsSet

/-! ## Report lines -/

/-- The scalar properties of a report line read by the controllers. -/
structure LineData where
  id : Key
  level : Int
  unfoldable : Bool
  balance : Int
  is_total : Bool
  children_loaded : Bool

/-- A report line with its `children` property: `none` when the property is absent or `null`,
`some cs` when it is an array (an empty array is truthy as well). -/
inductive Line where
  | mk (data : LineData) (children : Option (List Line))

namespace Line

/-- The scalar properties of a line. -/
def data : Line → LineData
  | mk d _ => d

/-- The property `line.children`. -/
def children : Line → Option (List Line)
  | mk _ c => c

/-- The property `line.id`. -/
def id (l : Line) : Key := l.data.id

end Line

/-- The payload `result.data` of the balance-sheet and profit-and-loss endpoints. -/
structure ReportData where
  lines : Option (List Line)
  has_unposted : JsVal

/-- The expression `this.state.data?.lines || []`. -/
def linesOfData : Option ReportData → List Line
  | none => []
  | some d => d.lines.getD []

/-- The statement `lines = lines || this.state.data?.lines || []` of the tree walks; `none`
for `lines` is the default `null` (an array argument, also an empty one, is truthy). -/
def resolveLines (data : Option ReportData) : Option (List Line) → List Line
  | some ls => ls
  | none => linesOfData data

/-! ## Tree walks shared by the balance sheet and the profit-and-loss report

Both components declare `findLine(lineId, lines = null)` with the same body. -/

mutual
/-- The loop `for (const line of lines)` of `findLine`. -/
def findLineIn (lineId : Key) : List Line → Option Line
  | [] => none
  | line :: rest =>
    match findLineAt lineId line with
    | some found => some found
    | none => findLineIn lineId rest
/-- One iteration of the loop of `findLine`: the line itself, then its children. -/
def findLineAt (lineId : Key) : Line → Option Line
  | .mk d children =>
    if d.id = lineId then some (.mk d children)
    else
      match children with
      | some cs =>
        match findLineIn lineId cs with
        | some found => some found
        | none => none
      | none => none
end

mutual
/-- Specification: all lines of a forest in depth-first pre-order, that is a line, then the
lines below it (its children in their original order, each followed by its own descendants),
then its next sibling. -/
def preorder : List Line → List Line
  | [] => []
  | line :: rest => preorderAt line ++ preorder rest
/-- A line followed by the pre-order of its children. -/
def preorderAt : Line → List Line
  | .mk d children =>
    Line.mk d children ::
      (match children with
       | some cs => preorder cs
       | none => [])
end

mutual
/-- Specification: the pre-order of a forest in which every line carries the identifiers of
its proper ancestors, outermost first; `anc` are the ancestors of the roots of the forest. -/
def preorderWithAncestors (anc : List Key) : List Line → List (List Key × Line)
  | [] => []
  | line :: rest => preorderWithAncestorsAt anc line ++ preorderWithAncestors anc rest
/-- A line with its ancestors, followed by the lines below it. -/
def preorderWithAncestorsAt (anc : List Key) : Line → List (List Key × Line)
  | .mk d children =>
    (anc, Line.mk d children) ::
      (match children with
       | some cs => preorderWithAncestors (anc ++ [d.id]) cs
       | none => [])
end

/-- The first-level auto-expansion `lines.forEach(line => ...)` after a successful load. -/
def autoExpandFirstLevel (expanded : JsSet) (lines : List Line) : JsSet :=
  lines.foldl
    (fun acc line => if line.data.level = 0 ∧ line.data.unfoldable = true then acc.add line.id else acc)
    expanded

/-- The response of the balance-sheet and profit-and-loss data endpoints. -/
structure ReportResult where
  success : JsVal
  error : JsVal
  data : Option ReportData

/-! ## Balance sheet (`balance_sheet.js`) -/

namespace BalanceSheetReport

/-- The object `state.filters`. -/
structure Filters where
  date_to : JsVal
  date_from : JsVal
  journals : List JsVal
  comparison : Bool

/-- The reactive state of the component. -/
structure State where
  loading : Bool
  error : JsVal
  data : Option ReportData
  expandedLines : JsSet
  date_to : JsVal
  date_from : JsVal
  comparison : Bool
  journals : List JsVal
  allJournals : Bool
  selectedJournalsCount : Int
  showAnalytic : Bool
  onlyPosted : Bool
  hasUnposted : JsVal
  hideZeroBalances : Bool
  filters : Filters

/-- The call `this.rpc("/account/balance_sheet/data", ...)`. -/
def request (s : State) (user : UserContext) : Event :=
  .rpc "/account/balance_sheet/data" (.obj [
    ("date_to", s.date_to),
    ("date_from", s.date_from),
    ("journals", if s.allJournals then .null else .arr s.filters.journals),
    ("company_id", user.company_id.or (.bool false)),
    ("comparison", .bool s.comparison)])

/-- The `try` block of `loadBalanceSheetData` after the `await`: the new state, or the state
reached when an exception leaves the block together with that exception. -/
def applyResult (s : State) : Option ReportResult → State × Option JsError
  | none => (s, some (JsError.typeError "success"))
  | some result =>
    if result.success.truthy then
      let s1 := { s with data := result.data }
      match result.data with
      | none => (s1, some (JsError.typeError "has_unposted"))
      | some d =>
        let s2 := { s1 with hasUnposted := d.has_unposted.or (.bool false) }
        match d.lines with
        | some lines => ({ s2 with expandedLines := autoExpandFirstLevel s2.expandedLines lines }, none)
        | none => (s2, none)
    else
      ({ s with error := result.error.or (.str "Failed to load balance sheet data") }, none)

/-- The method `loadBalanceSheetData`. -/
def loadBalanceSheetData (s : State) (user : UserContext) (reply : Reply (Option ReportResult)) :
    State × List Event :=
  let s1 := { s with loading := true, error := .null }
  let call := request s1 user
  let caught (s2 : State) (e : JsError) : State × List Event :=
    ({ s2 with error := .str ("Network error: " ++ e.message.toStr), loading := false },
      [call, .consoleError "Failed to load balance sheet:" e])
  match reply with
  | .threw e => caught s1 e
  | .returned result =>
    match applyResult s1 result with
    | (s2, some e) => caught s2 e
    | (s2, none) => ({ s2 with loading := false }, [call])

/-- The method `isExpanded`. -/
def isExpanded (s : State) (lineId : Key) : Bool := s.expandedLines.has lineId

/-- The method `findLine(lineId, lines = null)`; `none` for `lines` is the default `null`. -/
def findLine (s : State) (lineId : Key) (lines : Option (List Line)) : Option Line :=
  findLineIn lineId (resolveLines s.data lines)

mutual
/-- The loop `for (const line of lines)` of `getVisibleLines`. -/
def getVisibleLinesIn (s : State) (parentExpanded : Bool) : List Line → List Line
  | [] => []
  | line :: rest => getVisibleLinesAt s parentExpanded line ++ getVisibleLinesIn s parentExpanded rest
/-- One iteration of the loop of `getVisibleLines`. -/
def getVisibleLinesAt (s : State) (parentExpanded : Bool) : Line → List Line
  | .mk d children =>
    if parentExpanded then
      Line.mk d children ::
        (match children with
         | some cs => if isExpanded s d.id then getVisibleLinesIn s true cs else []
         | none => [])
    else []
end

/-- The method `getVisibleLines(lines = null, parentExpanded = true)`; `none` for `lines` is
the default `null`. -/
def getVisibleLines (s : State) (lines : Option (List Line)) (parentExpanded : Bool) : List Line :=
  getVisibleLinesIn s parentExpanded (resolveLines s.data lines)

end BalanceSheetReport

/-! ## Profit and loss (`profit_loss.js`) -/

namespace ProfitLossReport

/-- The object `state.filters`. -/
structure Filters where
  date_from : JsVal
  date_to : JsVal
  journals : List JsVal
  comparison : Bool

/-- The reactive state of the component. -/
structure State where
  loading : Bool
  error : JsVal
  data : Option ReportData
  expandedLines : JsSet
  date_from : JsVal
  date_to : JsVal
  comparison : Bool
  comparisonMode : JsVal
  comparisonDateFrom : JsVal
  comparisonDateTo : JsVal
  periodOrder : JsVal
  dateFilter : JsVal
  journals : List JsVal
  allJournals : Bool
  selectedJournalsCount : Int
  showAnalytic : Bool
  analyticAccounts : JsVal
  analyticPlans : JsVal
  showPartners : Bool
  partners : JsVal
  onlyPosted : Bool
  hasUnposted : JsVal
  includeDraft : Bool
  includeSimulations : Bool
  hideZeroBalances : Bool
  splitHorizontally : Bool
  showBudget : Bool
  filters : Filters

/-- The call `this.rpc("/account/profit_loss/data", ...)`. -/
def request (s : State) (user : UserContext) : Event :=
  .rpc "/account/profit_loss/data" (.obj [
    ("date_from", s.date_from),
    ("date_to", s.date_to),
    ("journals", if s.allJournals then .null else .arr s.filters.journals),
    ("company_id", user.company_id.or (.bool false)),
    ("comparison", .bool s.comparison),
    ("comparison_date_from", s.comparisonDateFrom),
    ("comparison_date_to", s.comparisonDateTo),
    ("comparison_mode", s.comparisonMode),
    ("only_posted", .bool s.onlyPosted),
    ("include_draft", .bool s.includeDraft),
    ("include_simulations", .bool s.includeSimulations),
    ("hide_zero", .bool s.hideZeroBalances),
    ("analytic_accounts", s.analyticAccounts),
    ("analytic_plans", s.analyticPlans),
    ("partners", if s.showPartners then s.partners else .null)])

/-- The `try` block of `loadProfitLossData` after the `await`: the new state, or the state
reached when an exception leaves the block together with that exception. -/
def applyResult (s : State) : Option ReportResult → State × Option JsError
  | none => (s, some (JsError.typeError "success"))
  | some result =>
    if result.success.truthy then
      let s1 := { s with data := result.data }
      match result.data with
      | none => (s1, some (JsError.typeError "has_unposted"))
      | some d =>
        let s2 := { s1 with hasUnposted := d.has_unposted.or (.bool false) }
        match d.lines with
        | some lines => ({ s2 with expandedLines := autoExpandFirstLevel s2.expandedLines lines }, none)
        | none => (s2, none)
    else
      ({ s with error := result.error.or (.str "Failed to load profit and loss data") }, none)

/-- The method `loadProfitLossData`. -/
def loadProfitLossData (s : State) (user : UserContext) (reply : Reply (Option ReportResult)) :
    State × List Event :=
  let s1 := { s with loading := true, error := .null }
  let call := request s1 user
  let caught (s2 : State) (e : JsError) : State × List Event :=
    ({ s2 with error := .str ("Network error: " ++ e.message.toStr), loading := false },
      [call, .consoleError "Failed to load profit and loss:" e])
  match reply with
  | .threw e => caught s1 e
  | .returned result =>
    match applyResult s1 result with
    | (s2, some e) => caught s2 e
    | (s2, none) => ({ s2 with loading := false }, [call])

/-- The method `isExpanded`. -/
def isExpanded (s : State) (lineId : Key) : Bool := s.expandedLines.has lineId

/-- The method `findLine(lineId, lines = null)`; `none` for `lines` is the default `null`. -/
def findLine (s : State) (lineId : Key) (lines : Option (List Line)) : Option Line :=
  findLineIn lineId (resolveLines s.data lines)

mutual
/-- The loop `for (const line of lines)` of `getVisibleLines`, with the hide-zero filter. -/
def getVisibleLinesIn (s : State) (parentExpanded : Bool) : List Line → List Line
  | [] => []
  | line :: rest => getVisibleLinesAt s parentExpanded line ++ getVisibleLinesIn s parentExpanded rest
/-- One iteration of the loop of `getVisibleLines`. -/
def getVisibleLinesAt (s : State) (parentExpanded : Bool) : Line → List Line
  | .mk d children =>
    if parentExpanded then
      if s.hideZeroBalances = true ∧ d.balance = 0 ∧ d.is_total = false then []
      else
        Line.mk d children ::
          (match children with
           | some cs => if isExpanded s d.id then getVisibleLinesIn s true cs else []
           | none => [])
    else []
end

/-- The method `getVisibleLines(lines = null, parentExpanded = true)`; `none` for `lines` is
the default `null`. -/
def getVisibleLines (s : State) (lines : Option (List Line)) (parentExpanded : Bool) : List Line :=
  getVisibleLinesIn s parentExpanded (resolveLines s.data lines)

end ProfitLossReport

/-! ## The report components that call `call_kw` endpoints

Eight components share the shape of `loadReport`: reset `isLoading` and `error`, await the
remote call, throw when the payload carries an `error`, copy the payload into the state, set
`error` in the `catch` clause, and reset `isLoading` in the `finally` clause. -/

/-- The statements `const result = await this.rpc(...); if (result.error) throw new
Error(result.error);`: the payload when control continues, the exception otherwise. A `null`
or `undefined` result makes the property access throw. -/
def awaitChecked {ρ : Type} (error : ρ → JsVal) : Reply (Option ρ) → Except JsError ρ
  | .threw e => .error e
  | .returned none => .error (JsError.typeError "error")
  | .returned (some r) => if (error r).truthy then .error (JsError.new (error r)) else .ok r

/-- The expression `error.message || "Failed to load report"` of the `catch` clauses. -/
def failedMessage (e : JsError) : JsVal := e.message.or (.str "Failed to load report")

/-- The expression `filters.company_id || this.user.context.allowed_company_ids[0]`. -/
def companyOf (company_id : JsVal) (user : UserContext) : JsVal :=
  company_id.or (firstOf user.allowed_company_ids)

/-- The expression `d ? new Date(d + "-01") : null`. -/
def monthStart (d : JsVal) : JsVal :=
  if d.truthy then .date (d.toStr ++ "-01") else .null

/-- The method `split("-")` on the characters of a string. -/
def splitDash : List Char → List (List Char)
  | [] => [[]]
  | c :: cs =>
    if c = '-' then [] :: splitDash cs
    else
      match splitDash cs with
      | [] => [[c]]
      | p :: ps => (c :: p) :: ps

/-- The year-range parsing of the executive summary and the journal audit: the requested
`date_from` and `date_to`. A truthy filter that is not a string has no `split` method. -/
def yearRange (filter : JsVal) : Except JsError (JsVal × JsVal) :=
  if filter.truthy then
    match filter with
    | .str s =>
      match splitDash s.data with
      | [a, b] => .ok (.str (String.mk a ++ "-01-01"), .str (String.mk b ++ "-12-31"))
      | _ => .ok (.null, .null)
    | _ => .error ⟨.str "split is not a function"⟩
  else .ok (.null, .null)

namespace AgedReceivableReport

/-- The object `state.filters`. -/
structure Filters where
  as_of_date : JsVal
  account_type : JsVal
  partner_ids : List JsVal
  period_length : JsVal
  posted_entries : Bool
  company_id : JsVal
  based_on : JsVal

/-- The reactive state of the component. -/
structure State where
  partners : JsVal
  totals : JsVal
  periods : JsVal
  isLoading : Bool
  error : JsVal
  expandedPartners : JsSet
  currencySymbol : JsVal
  filters : Filters
  unpostedWarning : JsVal

/-- The payload of `get_aged_receivable_data`; an absent property is `undefined`. -/
structure Result where
  error : JsVal
  partners : JsVal
  totals : JsVal
  periods : JsVal
  currency_symbol : JsVal
  unposted_warning : JsVal

/-- The object literal with zero totals. -/
def zeroTotals : JsVal :=
  .obj [("invoice_date", .num 0), ("at_date", .num 0), ("period_1", .num 0), ("period_2", .num 0),
    ("period_3", .num 0), ("period_4", .num 0), ("older", .num 0), ("total", .num 0)]

/-- The keyword arguments of the request. -/
def kwargs (s : State) (user : UserContext) : JsVal :=
  .obj [
    ("as_of_date", s.filters.as_of_date),
    ("account_type", s.filters.account_type),
    ("partner_ids", nonEmptyOrNull s.filters.partner_ids),
    ("period_length", s.filters.period_length),
    ("posted_entries", .bool s.filters.posted_entries),
    ("company_id", companyOf s.filters.company_id user)]

/-- The remote call issued by `loadReport`. -/
def request (s : State) (user : UserContext) : Event :=
  .rpc "/web/dataset/call_kw/account.aged.receivable.report/get_aged_receivable_data" (.obj [
    ("model", .str "account.aged.receivable.report"),
    ("method", .str "get_aged_receivable_data"),
    ("args", .arr []),
    ("kwargs", kwargs s user)])

/-- The method `loadReport`. -/
def loadReport (s : State) (user : UserContext) (reply : Reply (Option Result)) :
    State × List Event :=
  let s1 := { s with isLoading := true, error := .null }
  let call := request s1 user
  match awaitChecked Result.error reply with
  | .ok result =>
    ({ s1 with
        partners := result.partners.or (.arr []),
        totals := result.totals.or zeroTotals,
        periods := result.periods.or (.arr []),
        currencySymbol := result.currency_symbol.or (.str "MT"),
        unpostedWarning := result.unposted_warning.or (.bool false),
        isLoading := false }, [call])
  | .error e =>
    ({ s1 with error := failedMessage e, isLoading := false },
      [call, .consoleError "Error loading aged receivable:" e])

/-- The method `onBasedOnChange` up to the reload it awaits: the filter assignment. -/
def setBasedOn (s : State) (basedOn : JsVal) : State :=
  { s with filters := { s.filters with based_on := basedOn } }

end AgedReceivableReport

namespace GeneralLedgerReport

/-- The object `state.filters`. -/
structure Filters where
  date_from : JsVal
  date_to : JsVal
  journals : JsVal
  journal_ids : List JsVal
  analytic : JsVal
  posted_entries : Bool
  company_id : JsVal

/-- The reactive state of the component. -/
structure State where
  accounts : JsVal
  totalDebit : JsVal
  totalCredit : JsVal
  totalBalance : JsVal
  isLoading : Bool
  error : JsVal
  expandedAccounts : JsSet
  currencySymbol : JsVal
  searchQuery : JsVal
  filters : Filters
  unpostedWarning : JsVal

/-- The payload of `get_general_ledger_data`; an absent property is `undefined`. -/
structure Result where
  error : JsVal
  accounts : JsVal
  total_debit : JsVal
  total_credit : JsVal
  total_balance : JsVal
  currency_symbol : JsVal
  unposted_warning : JsVal

/-- The remote call issued by `loadReport`. -/
def request (s : State) (user : UserContext) : Event :=
  .rpc "/web/dataset/call_kw/account.general.ledger.report/get_general_ledger_data" (.obj [
    ("model", .str "account.general.ledger.report"),
    ("method", .str "get_general_ledger_data"),
    ("args", .arr []),
    ("kwargs", .obj [
      ("date_from", s.filters.date_from),
      ("date_to", s.filters.date_to),
      ("journals", nonEmptyOrNull s.filters.journal_ids),
      ("analytic", s.filters.analytic),
      ("posted_entries", .bool s.filters.posted_entries),
      ("company_id", companyOf s.filters.company_id user)])])

/-- The method `loadReport`. -/
def loadReport (s : State) (user : UserContext) (reply : Reply (Option Result)) :
    State × List Event :=
  let s1 := { s with isLoading := true, error := .null }
  let call := request s1 user
  match awaitChecked Result.error reply with
  | .ok result =>
    ({ s1 with
        accounts := result.accounts.or (.arr []),
        totalDebit := result.total_debit.or (.num 0),
        totalCredit := result.total_credit.or (.num 0),
        totalBalance := result.total_balance.or (.num 0),
        currencySymbol := result.currency_symbol.or (.str "MZN"),
        unpostedWarning := result.unposted_warning.or (.bool false),
        isLoading := false }, [call])
  | .error e =>
    ({ s1 with error := failedMessage e, isLoading := false },
      [call, .consoleError "Error loading general ledger:" e])

end GeneralLedgerReport

namespace PartnerLedgerReport

/-- The object `state.filters`. -/
structure Filters where
  date_from : JsVal
  date_to : JsVal
  partner_ids : List JsVal
  account_type : JsVal
  posted_entries : Bool
  company_id : JsVal

/-- The reactive state of the component. -/
structure State where
  partners : JsVal
  totals : JsVal
  isLoading : Bool
  error : JsVal
  expandedPartners : JsSet
  currencySymbol : JsVal
  filters : Filters
  unpostedWarning : JsVal

/-- The payload of `get_partner_ledger_data`; an absent property is `undefined`. -/
structure Result where
  error : JsVal
  partners : JsVal
  totals : JsVal
  currency_symbol : JsVal
  unposted_warning : JsVal

/-- The remote call issued by `loadReport`. -/
def request (s : State) (user : UserContext) : Event :=
  .rpc "/web/dataset/call_kw/account.partner.ledger.report/get_partner_ledger_data" (.obj [
    ("model", .str "account.partner.ledger.report"),
    ("method", .str "get_partner_ledger_data"),
    ("args", .arr []),
    ("kwargs", .obj [
      ("date_from", s.filters.date_from),
      ("date_to", s.filters.date_to),
      ("partner_ids", nonEmptyOrNull s.filters.partner_ids),
      ("account_type", s.filters.account_type),
      ("posted_entries", .bool s.filters.posted_entries),
      ("company_id", companyOf s.filters.company_id user)])])

/-- The method `loadReport`. -/
def loadReport (s : State) (user : UserContext) (reply : Reply (Option Result)) :
    State × List Event :=
  let s1 := { s with isLoading := true, error := .null }
  let call := request s1 user
  match awaitChecked Result.error reply with
  | .ok result =>
    ({ s1 with
        partners := result.partners.or (.arr []),
        totals := result.totals.or (.obj [("debit", .num 0), ("credit", .num 0), ("balance", .num 0)]),
        currencySymbol := result.currency_symbol.or (.str "MT"),
        unpostedWarning := result.unposted_warning.or (.bool false),
        isLoading := false }, [call])
  | .error e =>
    ({ s1 with error := failedMessage e, isLoading := false },
      [call, .consoleError "Error loading partner ledger:" e])

end PartnerLedgerReport

namespace TrialBalanceReport

/-- The object `state.filters`. -/
structure Filters where
  date_from : JsVal
  date_to : JsVal
  journals : JsVal
  journal_ids : List JsVal
  analytic : JsVal
  posted_entries : Bool
  comparison : JsVal
  company_id : JsVal

/-- The reactive state of the component. -/
structure State where
  accounts : JsVal
  totals : JsVal
  isLoading : Bool
  error : JsVal
  currencySymbol : JsVal
  searchQuery : JsVal
  filters : Filters
  unpostedWarning : JsVal

/-- The payload of `get_trial_balance_data`; an absent property is `undefined`. -/
structure Result where
  error : JsVal
  accounts : JsVal
  totals : JsVal
  currency_symbol : JsVal
  unposted_warning : JsVal

/-- The object literal with zero totals. -/
def zeroTotals : JsVal :=
  .obj [("initial_debit", .num 0), ("initial_credit", .num 0), ("period_debit", .num 0),
    ("period_credit", .num 0), ("end_debit", .num 0), ("end_credit", .num 0)]

/-- The remote call issued by `loadReport`. -/
def request (s : State) (user : UserContext) : Event :=
  .rpc "/web/dataset/call_kw/account.trial.balance.report/get_trial_balance_data" (.obj [
    ("model", .str "account.trial.balance.report"),
    ("method", .str "get_trial_balance_data"),
    ("args", .arr []),
    ("kwargs", .obj [
      ("date_from", s.filters.date_from),
      ("date_to", monthStart s.filters.date_to),
      ("journals", nonEmptyOrNull s.filters.journal_ids),
      ("analytic", s.filters.analytic),
      ("posted_entries", .bool s.filters.posted_entries),
      ("comparison", s.filters.comparison),
      ("company_id", companyOf s.filters.company_id user)])])

/-- The method `loadReport`. -/
def loadReport (s : State) (user : UserContext) (reply : Reply (Option Result)) :
    State × List Event :=
  let s1 := { s with isLoading := true, error := .null }
  let call := request s1 user
  match awaitChecked Result.error reply with
  | .ok result =>
    ({ s1 with
        accounts := result.accounts.or (.arr []),
        totals := result.totals.or zeroTotals,
        currencySymbol := result.currency_symbol.or (.str "MZN"),
        unpostedWarning := result.unposted_warning.or (.bool false),
        isLoading := false }, [call])
  | .error e =>
    ({ s1 with error := failedMessage e, isLoading := false },
      [call, .consoleError "Error loading trial balance:" e])

end TrialBalanceReport

namespace JournalAuditReport

/-- The object `state.filters`. -/
structure Filters where
  date_from : JsVal
  date_to : JsVal
  journals : JsVal
  journal_ids : List JsVal
  posted_entries : Bool
  company_id : JsVal

/-- The reactive state of the component. -/
structure State where
  journals : JsVal
  taxSummary : JsVal
  isLoading : Bool
  error : JsVal
  expandedJournals : JsSet
  currencySymbol : JsVal
  filters : Filters
  unpostedWarning : JsVal
  taxesApplied : JsVal

/-- The payload of `get_journal_audit_data`; an absent property is `undefined`. -/
structure Result where
  error : JsVal
  journals : JsVal
  tax_summary : JsVal
  currency_symbol : JsVal
  unposted_warning : JsVal

/-- The remote call issued by `loadReport` for the parsed dates. -/
def request (s : State) (user : UserContext) (dates : JsVal × JsVal) : Event :=
  .rpc "/web/dataset/call_kw/account.journal.audit.report/get_journal_audit_data" (.obj [
    ("model", .str "account.journal.audit.report"),
    ("method", .str "get_journal_audit_data"),
    ("args", .arr []),
    ("kwargs", .obj [
      ("date_from", dates.1),
      ("date_to", dates.2),
      ("journals", nonEmptyOrNull s.filters.journal_ids),
      ("posted_entries", .bool s.filters.posted_entries),
      ("company_id", companyOf s.filters.company_id user)])])

/-- The method `loadReport`; the year range is parsed from `filters.date_from`. -/
def loadReport (s : State) (user : UserContext) (reply : Reply (Option Result)) :
    State × List Event :=
  let s1 := { s with isLoading := true, error := .null }
  let label := "Error loading journal audit:"
  match yearRange s1.filters.date_from with
  | .error e => ({ s1 with error := failedMessage e, isLoading := false }, [.consoleError label e])
  | .ok dates =>
    let call := request s1 user dates
    match awaitChecked Result.error reply with
    | .ok result =>
      ({ s1 with
          journals := result.journals.or (.arr []),
          taxSummary := result.tax_summary.or (.arr []),
          currencySymbol := result.currency_symbol.or (.str "MT"),
          unpostedWarning := result.unposted_warning.or (.bool false),
          isLoading := false }, [call])
    | .error e =>
      ({ s1 with error := failedMessage e, isLoading := false }, [call, .consoleError label e])

end JournalAuditReport

namespace ExecutiveSummaryReport

/-- The object `state.filters`. -/
structure Filters where
  date_from : JsVal
  date_to : JsVal
  comparison : JsVal
  company_id : JsVal
  posted_entries : Bool

/-- The reactive state of the component. -/
structure State where
  sections : JsVal
  isLoading : Bool
  error : JsVal
  currencySymbol : JsVal
  filters : Filters
  unpostedWarning : JsVal

/-- The payload of `get_executive_summary_data`; an absent property is `undefined`. -/
structure Result where
  error : JsVal
  sections : JsVal
  currency_symbol : JsVal

/-- The remote call issued by `loadReport` for the parsed dates. -/
def request (s : State) (user : UserContext) (dates : JsVal × JsVal) : Event :=
  .rpc "/web/dataset/call_kw/account.executive.summary.report/get_executive_summary_data" (.obj [
    ("model", .str "account.executive.summary.report"),
    ("method", .str "get_executive_summary_data"),
    ("args", .arr []),
    ("kwargs", .obj [
      ("date_from", dates.1),
      ("date_to", dates.2),
      ("comparison", s.filters.comparison),
      ("company_id", companyOf s.filters.company_id user)])])

/-- The method `loadReport`; the year range is parsed from `filters.date_to`. -/
def loadReport (s : State) (user : UserContext) (reply : Reply (Option Result)) :
    State × List Event :=
  let s1 := { s with isLoading := true, error := .null }
  let label := "Error loading executive summary:"
  match yearRange s1.filters.date_to with
  | .error e => ({ s1 with error := failedMessage e, isLoading := false }, [.consoleError label e])
  | .ok dates =>
    let call := request s1 user dates
    match awaitChecked Result.error reply with
    | .ok result =>
      ({ s1 with
          sections := result.sections.or (.arr []),
          currencySymbol := result.currency_symbol.or (.str "MZN"),
          unpostedWarning := .bool (!s1.filters.posted_entries),
          isLoading := false }, [call])
    | .error e =>
      ({ s1 with error := failedMessage e, isLoading := false }, [call, .consoleError label e])

end ExecutiveSummaryReport

namespace TaxReturnReport

/-- The object `state.filters`. -/
structure Filters where
  date_from : JsVal
  date_to : JsVal
  comparison : JsVal
  company_id : JsVal
  posted_entries : Bool
  closing_entry : Bool
  report_type : JsVal

/-- The reactive state of the component. -/
structure State where
  lines : JsVal
  totalTaxes : JsVal
  isLoading : Bool
  error : JsVal
  currencySymbol : JsVal
  filters : Filters
  showClosingEntry : Bool

/-- The payload of `get_tax_return_data`; an absent property is `undefined`. -/
structure Result where
  error : JsVal
  lines : JsVal
  total_taxes : JsVal
  currency_symbol : JsVal

/-- The remote call issued by `loadReport`. -/
def request (s : State) (user : UserContext) : Event :=
  .rpc "/web/dataset/call_kw/account.tax.return.report/get_tax_return_data" (.obj [
    ("model", .str "account.tax.return.report"),
    ("method", .str "get_tax_return_data"),
    ("args", .arr []),
    ("kwargs", .obj [
      ("date_from", s.filters.date_from),
      ("date_to", monthStart s.filters.date_to),
      ("comparison", s.filters.comparison),
      ("company_id", companyOf s.filters.company_id user)])])

/-- The method `loadReport`. -/
def loadReport (s : State) (user : UserContext) (reply : Reply (Option Result)) :
    State × List Event :=
  let s1 := { s with isLoading := true, error := .null }
  let call := request s1 user
  match awaitChecked Result.error reply with
  | .ok result =>
    ({ s1 with
        lines := result.lines.or (.arr []),
        totalTaxes := result.total_taxes.or (.num 0),
        currencySymbol := result.currency_symbol.or (.str "MZN"),
        isLoading := false }, [call])
  | .error e =>
    ({ s1 with error := failedMessage e, isLoading := false },
      [call, .consoleError "Error loading tax return report:" e])

end TaxReturnReport

namespace CashFlowReport

/-- The object `state.filters`. -/
structure Filters where
  date_from : JsVal
  date_to : JsVal
  journals : JsVal
  journal_ids : List JsVal
  company_id : JsVal
  posted_entries : Bool
  comparison : JsVal
  analytic : JsVal

/-- The reactive state of the component. -/
structure State where
  lines : JsVal
  isLoading : Bool
  error : JsVal
  expandedLines : JsSet
  filters : Filters
  unpostedWarning : JsVal

/-- The payload of `get_cash_flow_data`; an absent property is `undefined`. -/
structure Result where
  error : JsVal
  lines : JsVal

/-- The remote call issued by `loadReport`. -/
def request (s : State) (user : UserContext) : Event :=
  .rpc "/web/dataset/call_kw/account.cash.flow.report/get_cash_flow_data" (.obj [
    ("model", .str "account.cash.flow.report"),
    ("method", .str "get_cash_flow_data"),
    ("args", .arr []),
    ("kwargs", .obj [
      ("date_from", s.filters.date_from),
      ("date_to", monthStart s.filters.date_to),
      ("journals", nonEmptyOrNull s.filters.journal_ids),
      ("company_id", companyOf s.filters.company_id user)])])

/-- The callback of `this.state.lines.forEach(...)`, applied to the remaining elements: the
line with the identifier `net_increase` is expanded. Reading `id` of a `null` element throws
and keeps what was added before. -/
def autoExpand (expanded : JsSet) : List JsVal → JsSet × Option JsError
  | [] => (expanded, none)
  | line :: rest =>
    match line.get "id" with
    | .error e => (expanded, some e)
    | .ok (.str s) =>
      if s = "net_increase" then autoExpand (expanded.add (.str s)) rest
      else autoExpand expanded rest
    | .ok _ => autoExpand expanded rest

/-- The method `loadReport`. A truthy `result.lines` that is not an array has no `forEach`. -/
def loadReport (s : State) (user : UserContext) (reply : Reply (Option Result)) :
    State × List Event :=
  let s1 := { s with isLoading := true, error := .null }
  let call := request s1 user
  let label := "Error loading cash flow report:"
  match awaitChecked Result.error reply with
  | .ok result =>
    let s2 := { s1 with
      lines := result.lines.or (.arr []),
      unpostedWarning := .bool (!s1.filters.posted_entries) }
    match s2.lines with
    | .arr items =>
      match autoExpand s2.expandedLines items with
      | (expanded, none) => ({ s2 with expandedLines := expanded, isLoading := false }, [call])
      | (expanded, some e) =>
        ({ s2 with expandedLines := expanded, error := failedMessage e, isLoading := false },
          [call, .consoleError label e])
    | _ =>
      let e : JsError := ⟨.str "this.state.lines.forEach is not a function"⟩
      ({ s2 with error := failedMessage e, isLoading := false }, [call, .consoleError label e])
  | .error e =>
    ({ s1 with error := failedMessage e, isLoading := false }, [call, .consoleError label e])

end CashFlowReport

/-! ## Dashboards -/

namespace AccountEnterpriseDashboard

/-- The reactive state of the component (`account_enterprise_replica`). -/
structure State where
  dashboardData : JsVal
  kpis : JsVal
  charts : JsVal
  period : JsVal
  isLoading : Bool

/-- The method `loadDashboardData`; the notification carries the source text handed to the
translation function `_t`. -/
def loadDashboardData (s : State) (reply : Reply JsVal) : State × List Event :=
  let s1 := { s with isLoading := true }
  let call := Event.ormCall "account.enterprise.dashboard" "get_dashboard_data" (.arr [])
    (.obj [("period", s1.period)])
  let caught (s2 : State) : State × List Event :=
    ({ s2 with isLoading := false }, [call, .notify "Failed to load dashboard data" "danger"])
  match reply with
  | .threw _ => caught s1
  | .returned data =>
    let s2 := { s1 with dashboardData := data }
    match data.get "kpis" with
    | .error _ => caught s2
    | .ok kpis =>
      let s3 := { s2 with kpis := kpis.or (.obj []) }
      match data.get "charts" with
      | .error _ => caught s3
      | .ok charts => ({ s3 with charts := charts.or (.obj []), isLoading := false }, [call])

end AccountEnterpriseDashboard

namespace AccountDashboardKanbanController

/-- The reactive state of the controller (`mz_accounting_dashboard`). -/
structure State where
  dashboardData : JsVal
  isLoading : Bool
  companyId : JsVal

/-- The method `loadDashboardData`. -/
def loadDashboardData (s : State) (reply : Reply JsVal) : State × List Event :=
  let s1 := { s with isLoading := true }
  let call := Event.ormCall "account.journal" "get_journal_dashboard_datas" (.arr []) .undefined
  match reply with
  | .threw e =>
    ({ s1 with isLoading := false },
      [call, .consoleError "Error loading dashboard data:" e,
        .notify "Error loading dashboard data" "danger"])
  | .returned data => ({ s1 with dashboardData := data, isLoading := false }, [call])

end AccountDashboardKanbanController

namespace MozAccountingDashboard

/-- The reactive state of the component (`mozambique_accounting`). -/
structure State where
  metrics : JsVal
  loading : Bool
  period : JsVal
  currency : JsVal

/-- The method `loadDashboardData`: both the `try` block and the `catch` clause end with
`this.state.loading = false`. -/
def loadDashboardData (s : State) (reply : Reply JsVal) : State × List Event :=
  let call := Event.ormCall "moz.account" "get_dashboard_data" (.arr [s.period]) .undefined
  match reply with
  | .returned data => ({ s with metrics := data, loading := false }, [call])
  | .threw _ => ({ s with loading := false }, [call, .notify "Error loading dashboard data" "danger"])

end MozAccountingDashboard

/-! ## Bank reconciliation widget (`reconciliation_widget.js`) -/

/-- A record of `moz.bank.statement.line` as returned by `searchRead`, together with the
`suggestions` property the widget attaches to it (`undefined` until then). -/
structure BankLine where
  id : Key
  date : JsVal
  name : JsVal
  amount : JsVal
  partner_id : JsVal
  reconciled : JsVal
  suggestions : JsVal

/-- The backend as the widget meets it: the reply to the remote call with a given position
in the sequence of remote calls of an execution, for either kind of call. -/
structure Remote where
  call : Nat → Reply JsVal
  searchRead : Nat → Reply (List BankLine)

/-- The number of remote calls recorded in a trace. -/
def remoteCount (trace : List Event) : Nat := trace.countP Event.isRemote

namespace BankReconciliationWidget

/-- The object `state.filters`. -/
structure Filters where
  dateFrom : JsVal
  dateTo : JsVal
  amountMin : JsVal
  amountMax : JsVal
  partner : JsVal
  showReconciled : JsVal

/-- The reactive state of the widget. -/
structure State where
  bankLines : List BankLine
  suggestions : JsVal
  selectedLines : JsSet
  filters : Filters
  loading : Bool
  currentPage : Int
  totalPages : Int

/-- The filters created by `setup` (and restored by `clearFilters`). -/
def defaultFilters : Filters :=
  { dateFrom := .null, dateTo := .null, amountMin := .null, amountMax := .null,
    partner := .null, showReconciled := .bool false }

/-- The state created by `setup`. -/
def initialState : State :=
  { bankLines := [], suggestions := .arr [], selectedLines := JsSet.empty,
    filters := defaultFilters, loading := false, currentPage := 1, totalPages := 1 }

/-- A domain leaf `[field, operator, value]`. -/
def leaf (field operator : String) (value : JsVal) : JsVal :=
  .arr [.str field, .str operator, value]

/-- The method `_buildDomain`: `domain` starts empty and each `if` pushes one leaf. -/
def _buildDomain (s : State) : List JsVal :=
  let domain : List JsVal := []
  let domain :=
    if !s.filters.showReconciled.truthy then domain ++ [leaf "reconciled" "=" (.bool false)]
    else domain
  let domain :=
    if s.filters.dateFrom.truthy then domain ++ [leaf "date" ">=" s.filters.dateFrom] else domain
  let domain :=
    if s.filters.dateTo.truthy then domain ++ [leaf "date" "<=" s.filters.dateTo] else domain
  let domain :=
    if s.filters.partner.truthy then domain ++ [leaf "partner_id" "=" s.filters.partner]
    else domain
  domain

/-- The lines of a list whose `reconciled` field is falsy. -/
def pending (lines : List BankLine) : List BankLine :=
  lines.filter (fun l => !l.reconciled.truthy)

/-- The call `orm.call("moz.bank.reconciliation", "get_reconciliation_suggestions", [line.id])`. -/
def suggestionCall (line : BankLine) : Event :=
  .ormCall "moz.bank.reconciliation" "get_reconciliation_suggestions" (.arr [line.id.toJs])
    .undefined

/-- The loop of `loadSuggestions` over the remaining lines: the lines after the loop, the
trace, and the exception that ended the loop, if any. -/
def loadSuggestionsFrom (remote : Remote) (trace : List Event) :
    List BankLine → List BankLine × List Event × Option JsError
  | [] => ([], trace, none)
  | line :: rest =>
    if line.reconciled.truthy then
      match loadSuggestionsFrom remote trace rest with
      | (rest', trace', thrown) => (line :: rest', trace', thrown)
    else
      match remote.call (remoteCount trace) with
      | .threw e => (line :: rest, trace ++ [suggestionCall line], some e)
      | .returned suggestions =>
        match loadSuggestionsFrom remote (trace ++ [suggestionCall line]) rest with
        | (rest', trace', thrown) =>
          ({ line with suggestions := suggestions } :: rest', trace', thrown)

/-- The method `loadSuggestions`: the state, the trace and the exception it throws, if any. -/
def loadSuggestions (remote : Remote) (s : State) (trace : List Event) :
    State × List Event × Option JsError :=
  match loadSuggestionsFrom remote trace s.bankLines with
  | (lines, trace', thrown) => ({ s with bankLines := lines }, trace', thrown)

/-- The call `orm.searchRead(...)` of `loadBankLines`. -/
def searchCall (s : State) : Event :=
  .searchRead "moz.bank.statement.line" (.arr (_buildDomain s))
    (.arr [.str "date", .str "name", .str "amount", .str "partner_id", .str "reconciled"])
    (.obj [("limit", .num 50), ("offset", .num ((s.currentPage - 1) * 50))])

/-- The method `loadBankLines`, continuing the given trace. -/
def loadBankLines (remote : Remote) (s : State) (trace : List Event) : State × List Event :=
  let s1 := { s with loading := true }
  let trace1 := trace ++ [searchCall s1]
  let failure := Event.notify "Error loading bank lines" "danger"
  match remote.searchRead (remoteCount trace) with
  | .threw _ => ({ s1 with loading := false }, trace1 ++ [failure])
  | .returned lines =>
    match loadSuggestions remote { s1 with bankLines := lines } trace1 with
    | (s2, trace2, none) => ({ s2 with loading := false }, trace2)
    | (s2, trace2, some _) => ({ s2 with loading := false }, trace2 ++ [failure])

/-- The call `orm.call("moz.bank.reconciliation", "auto_reconcile", [selectedIds])`. -/
def autoReconcileCall (selectedIds : List Key) : Event :=
  .ormCall "moz.bank.reconciliation" "auto_reconcile" (.arr [.arr (selectedIds.map Key.toJs)])
    .undefined

/-- The method `autoReconcile`, continuing the given trace. -/
def autoReconcile (remote : Remote) (s : State) (trace : List Event) : State × List Event :=
  let selectedIds := s.selectedLines.toArray
  if selectedIds.length = 0 then
    (s, trace ++ [.notify "Please select lines to reconcile" "warning"])
  else
    let s1 := { s with loading := true }
    let trace1 := trace ++ [autoReconcileCall selectedIds]
    let failure := Event.notify "Reconciliation failed" "danger"
    match remote.call (remoteCount trace) with
    | .threw _ => ({ s1 with loading := false }, trace1 ++ [failure])
    | .returned result =>
      match result.get "count" with
      | .error _ => ({ s1 with loading := false }, trace1 ++ [failure])
      | .ok count =>
        let trace2 := trace1 ++
          [.notify ("Successfully reconciled " ++ count.toStr ++ " lines") "success"]
        match loadBankLines remote s1 trace2 with
        | (s2, trace3) =>
          ({ s2 with selectedLines := s2.selectedLines.clear, loading := false }, trace3)

end BankReconciliationWidget

/-! ## Handlers of the identifier sets, of the journal cards and of the widget filters -/

/-- The set reached from `set` by `if (set.has(x)) set.delete(x) else set.add(x)`. -/
def JsSet.toggled (set : JsSet) (x : Key) : JsSet :=
  if set.has x then set.delete x else set.add x

/-- The method `toggleSelection` of the reconciliation widget. -/
def BankReconciliationWidget.toggleSelection (s : BankReconciliationWidget.State)
    (lineId : Key) : BankReconciliationWidget.State :=
  if s.selectedLines.has lineId then { s with selectedLines := s.selectedLines.delete lineId }
  else { s with selectedLines := s.selectedLines.add lineId }

/-- The method `togglePartner` of the aged-receivable report. -/
def AgedReceivableReport.togglePartner (s : AgedReceivableReport.State) (partnerId : Key) :
    AgedReceivableReport.State :=
  if s.expandedPartners.has partnerId then
    { s with expandedPartners := s.expandedPartners.delete partnerId }
  else { s with expandedPartners := s.expandedPartners.add partnerId }

/-- The method `toggleAccount` of the general ledger. -/
def GeneralLedgerReport.toggleAccount (s : GeneralLedgerReport.State) (accountId : Key) :
    GeneralLedgerReport.State :=
  if s.expandedAccounts.has accountId then
    { s with expandedAccounts := s.expandedAccounts.delete accountId }
  else { s with expandedAccounts := s.expandedAccounts.add accountId }

namespace AccountDashboardKanbanController

/-- The object literal shared by all branches of the `switch` in `onJournalCardClick`. -/
def windowAction (name : JsVal) (domain : List JsVal) (context : List (String × JsVal)) : JsVal :=
  .obj [("type", .str "ir.actions.act_window"),
    ("name", name),
    ("res_model", .str "account.move"),
    ("view_mode", .str "list,form"),
    ("views", .arr [.arr [.bool false, .str "list"], .arr [.bool false, .str "form"]]),
    ("domain", .arr domain),
    ("context", .obj context)]

/-- The action built by the `switch (journalType)` of `onJournalCardClick`. -/
def journalCardAction (journalId journalType : JsVal) : JsVal :=
  if journalType.isStr "sale" then
    windowAction (.str "Customer Invoices")
      [.arr [.str "journal_id", .str "=", journalId],
        .arr [.str "move_type", .str "in", .arr [.str "out_invoice", .str "out_refund"]]]
      [("default_journal_id", journalId), ("default_move_type", .str "out_invoice")]
  else if journalType.isStr "purchase" then
    windowAction (.str "Vendor Bills")
      [.arr [.str "journal_id", .str "=", journalId],
        .arr [.str "move_type", .str "in", .arr [.str "in_invoice", .str "in_refund"]]]
      [("default_journal_id", journalId), ("default_move_type", .str "in_invoice")]
  else if journalType.isStr "bank" || journalType.isStr "cash" then
    windowAction
      (if journalType.isStr "bank" then .str "Bank Transactions" else .str "Cash Transactions")
      [.arr [.str "journal_id", .str "=", journalId]]
      [("default_journal_id", journalId)]
  else
    windowAction (.str "Journal Entries")
      [.arr [.str "journal_id", .str "=", journalId]]
      [("default_journal_id", journalId)]

/-- The method `onJournalCardClick`: the action is handed to the action service. -/
def onJournalCardClick (journalId journalType : JsVal) : List Event :=
  [.doAction (journalCardAction journalId journalType)]

end AccountDashboardKanbanController

namespace BankReconciliationWidget

/-- The method `applyFilters`. -/
def applyFilters (remote : Remote) (s : State) (trace : List Event) : State × List Event :=
  loadBankLines remote { s with currentPage := 1 } trace

/-- The method `clearFilters`: the filters are replaced and `applyFilters` is started; the
state and trace are those reached when the reload it started has completed. -/
def clearFilters (remote : Remote) (s : State) (trace : List Event) : State × List Event :=
  applyFilters remote
    { s with filters :=
      { dateFrom := .null, dateTo := .null, amountMin := .null, amountMax := .null,
        partner := .null, showReconciled := .bool false } }
    trace

end BankReconciliationWidget

/-- A report tree: income (unfoldable, first level) with two accounts whose balances cancel,
and a total line. -/
def sampleReportLines : List Line :=
  [ .mk { id := .str "income", level := 0, unfoldable := true, balance := 0, is_total := false,
          children_loaded := true }
      (some [
        .mk { id := .num 4001, level := 1, unfoldable := false, balance := 500,
              is_total := false, children_loaded := false } none,
        .mk { id := .num 4002, level := 1, unfoldable := false, balance := -500,
              is_total := false, children_loaded := false } none ]),
    .mk { id := .str "net", level := 0, unfoldable := false, balance := 0, is_total := true,
          children_loaded := false } none ]

/-- The report payload with the sample tree. -/
def sampleReportData : ReportData :=
  { lines := some sampleReportLines, has_unposted := .bool false }

/-- A balance-sheet state as it is after a successful load of the sample tree, with the
income line expanded. -/
def BalanceSheetReport.sampleState : BalanceSheetReport.State :=
  { loading := false, error := .null, data := some sampleReportData,
    expandedLines := ⟨[.str "income"], by decide⟩,
    date_to := .str "2025-01-31", date_from := .null, comparison := false, journals := [],
    allJournals := true, selectedJournalsCount := 0, showAnalytic := false, onlyPosted := true,
    hasUnposted := .bool false, hideZeroBalances := false,
    filters := { date_to := .str "2025-01-31", date_from := .null, journals := [],
                 comparison := false } }

/-- A profit-and-loss state as it is after a successful load of the sample tree, with the
income line expanded. -/
def ProfitLossReport.sampleState : ProfitLossReport.State :=
  { loading := false, error := .null, data := some sampleReportData,
    expandedLines := ⟨[.str "income"], by decide⟩,
    date_from := .str "2025-01-01", date_to := .str "2025-01-31", comparison := false,
    comparisonMode := .str "none", comparisonDateFrom := .null, comparisonDateTo := .null,
    periodOrder := .str "descending", dateFilter := .str "year", journals := [],
    allJournals := true, selectedJournalsCount := 0, showAnalytic := false,
    analyticAccounts := .arr [], analyticPlans := .arr [], showPartners := false,
    partners := .arr [], onlyPosted := true, hasUnposted := .bool false, includeDraft := false,
    includeSimulations := false, hideZeroBalances := false, splitHorizontally := false,
    showBudget := false,
    filters := { date_from := .str "2025-01-01", date_to := .str "2025-01-31", journals := [],
                 comparison := false } }

/-! ## Vocabulary of the hide-zero-balances statements -/

mutual
/-- Specification: the pre-order of a forest in which every line carries its proper ancestors
(the lines themselves), outermost first; `anc` are the ancestors of the roots. -/
def preorderWithAncestorLines (anc : List Line) : List Line → List (List Line × Line)
  | [] => []
  | line :: rest => preorderWithAncestorLinesAt anc line ++ preorderWithAncestorLines anc rest
/-- A line with its ancestors, followed by the lines below it. -/
def preorderWithAncestorLinesAt (anc : List Line) : Line → List (List Line × Line)
  | .mk d children =>
    (anc, Line.mk d children) ::
      (match children with
       | some cs => preorderWithAncestorLines (anc ++ [Line.mk d children]) cs
       | none => [])
end

/-- Specification: a line that the hide-zero-balances filter names, one with balance 0 that is
not a total line. -/
def Line.isZeroBalance (l : Line) : Bool :=
  decide (l.data.balance = 0) && !l.data.is_total

/-- Specification: the sequence `getVisibleLines()` is claimed to return with the filter on,
the given sequence without its zero-balance lines. -/
def withoutZeroBalance (visible : List Line) : List Line :=
  visible.filter (fun l => !l.isZeroBalance)

/-- The profit-and-loss sample state with the hide-zero-balances flag set as given. -/
def ProfitLossReport.sampleStateHiding (hide : Bool) : ProfitLossReport.State :=
  { ProfitLossReport.sampleState with hideZeroBalances := hide }

/-! ## Filter handlers of the report components

A handler that awaits the load takes the reply the remote call will receive; a handler that
issues no call returns the empty list of events. -/

namespace AgedReceivableReport

/-- The method `onAsOfDateChange(ev)`; `value` is `ev.target.value`. -/
def onAsOfDateChange (s : State) (value : JsVal) (user : UserContext)
    (reply : Reply (Option Result)) : State × List Event :=
  loadReport { s with filters := { s.filters with as_of_date := value } } user reply

/-- The method `onAccountTypeChange(type)`. -/
def onAccountTypeChange (s : State) (type : JsVal) (user : UserContext)
    (reply : Reply (Option Result)) : State × List Event :=
  loadReport { s with filters := { s.filters with account_type := type } } user reply

/-- The method `onPeriodLengthChange(length)`. -/
def onPeriodLengthChange (s : State) (length : JsVal) (user : UserContext)
    (reply : Reply (Option Result)) : State × List Event :=
  loadReport { s with filters := { s.filters with period_length := length } } user reply

/-- The method `onBasedOnChange(basedOn)`. -/
def onBasedOnChange (s : State) (basedOn : JsVal) (user : UserContext)
    (reply : Reply (Option Result)) : State × List Event :=
  loadReport (setBasedOn s basedOn) user reply

end AgedReceivableReport

namespace TaxReturnReport

/-- The method `onDateChange(ev)`; `value` is `ev.target.value`. -/
def onDateChange (s : State) (value : JsVal) (user : UserContext)
    (reply : Reply (Option Result)) : State × List Event :=
  if value.truthy then
    loadReport { s with filters := { s.filters with date_to := value } } user reply
  else (s, [])

/-- The method `onPostedEntriesToggle()`. -/
def onPostedEntriesToggle (s : State) (user : UserContext) (reply : Reply (Option Result)) :
    State × List Event :=
  loadReport { s with filters := { s.filters with posted_entries := !s.filters.posted_entries } }
    user reply

/-- The method `onClosingEntryToggle()`: two assignments and no call. -/
def onClosingEntryToggle (s : State) : State × List Event :=
  let s1 := { s with showClosingEntry := !s.showClosingEntry }
  ({ s1 with filters := { s1.filters with closing_entry := s1.showClosingEntry } }, [])

/-- The method `onReportTypeChange(reportType)`. -/
def onReportTypeChange (s : State) (reportType : JsVal) (user : UserContext)
    (reply : Reply (Option Result)) : State × List Event :=
  loadReport { s with filters := { s.filters with report_type := reportType } } user reply

end TaxReturnReport

namespace BalanceSheetReport

/-- The method `onComparisonToggle()`. -/
def onComparisonToggle (s : State) (user : UserContext) (reply : Reply (Option ReportResult)) :
    State × List Event :=
  loadBalanceSheetData { s with comparison := !s.comparison } user reply

/-- The method `onAnalyticToggle()`: one assignment, followed in the source by the comment
`// Implement analytic filtering`, and no call. -/
def onAnalyticToggle (s : State) : State × List Event :=
  ({ s with showAnalytic := !s.showAnalytic }, [])

/-- The method `onPostedEntriesToggle()`. -/
def onPostedEntriesToggle (s : State) (user : UserContext) (reply : Reply (Option ReportResult)) :
    State × List Event :=
  loadBalanceSheetData { s with onlyPosted := !s.onlyPosted } user reply

end BalanceSheetReport

/-! ## Binary64 arithmetic

A JavaScript number that is finite is a rational; every arithmetic operation returns the exact
result rounded to the nearest binary64 value, ties to the value with an even significand.
Results of magnitude `2^1024` and above (overflow to `Infinity`) are outside the model. -/

namespace Float64

/-- The nearest integer, ties to the even one. -/
def roundHalfEven (x : ℚ) : ℤ :=
  if x - ⌊x⌋ < 1 / 2 then ⌊x⌋
  else if 1 / 2 < x - ⌊x⌋ then ⌊x⌋ + 1
  else if ⌊x⌋ % 2 = 0 then ⌊x⌋ else ⌊x⌋ + 1

/-- The exponent of the unit in the last place at `q`: 52 binary places below the leading bit
of a normal number, `-1074` in the subnormal range and at zero. -/
def ulpExp (q : ℚ) : ℤ :=
  if q = 0 then -1074 else max (Int.log 2 |q| - 52) (-1074)

/-- Rounding of an exact result to binary64, to nearest, ties to even. -/
def round (q : ℚ) : ℚ :=
  roundHalfEven (q / 2 ^ ulpExp q) * 2 ^ ulpExp q

/-- The operator `a + b`. -/
def add (a b : ℚ) : ℚ := round (a + b)

/-- The operator `a - b`. -/
def sub (a b : ℚ) : ℚ := round (a - b)

/-- The operator `a * b`. -/
def mul (a b : ℚ) : ℚ := round (a * b)

/-- The operator `a / b` for a divisor that is not zero. -/
def div (a b : ℚ) : ℚ := round (a / b)

/-- The function `Math.floor`, which is exact. -/
def floor (a : ℚ) : ℚ := (⌊a⌋ : ℤ)


/-- A finite binary64 value: a rational that rounding leaves unchanged. -/
def IsValue (q : ℚ) : Prop := round q = q

instance (q : ℚ) : Decidable (IsValue q) := by
  unfold IsValue
  infer_instance

/-- An outcome of `Math.random()`: a binary64 value that is at least 0 and less than 1. -/
def IsRandomOutcome (r : ℚ) : Prop := IsValue r ∧ 0 ≤ r ∧ r < 1

instance (r : ℚ) : Decidable (IsRandomOutcome r) := by
  unfold IsRandomOutcome
  infer_instance

end Float64

/-! ## The sample data of the dashboard graph field -/

namespace MzDashboardGraphField

/-- The object returned by `generateSampleData`. -/
structure SampleData where
  labels : List String
  values : List ℚ
  label : String

/-- The expression `date.toLocaleDateString('en-US', { weekday: 'short' })` for the local
calendar day `day`, counted from Thursday 1 January 1970. -/
def weekdayShort (day : Int) : String :=
  match (day + 4) % 7 with
  | 0 => "Sun"
  | 1 => "Mon"
  | 2 => "Tue"
  | 3 => "Wed"
  | 4 => "Thu"
  | 5 => "Fri"
  | _ => "Sat"

/-- The value pushed in one iteration of the loop of `generateSampleData`; `r` is the outcome
of the call `Math.random()` of that iteration. -/
def sampleValue (journalType : JsVal) (r : ℚ) : ℚ :=
  if journalType.isStr "sale" then Float64.add (Float64.floor (Float64.mul r 5)) 2
  else if journalType.isStr "purchase" then Float64.add (Float64.floor (Float64.mul r 3)) 1
  else if journalType.isStr "bank" then
    Float64.add 50000 (Float64.mul (Float64.sub r (1 / 2)) 10000)
  else Float64.floor (Float64.mul r 10)

/-- The loop `for (let i = days - 1; i >= 0; i--)` of `generateSampleData` with `n` iterations
left (`i = n - 1`), after `calls` calls of `Math.random()`; `random k` is the outcome of call
number `k` and `today` the current local calendar day. -/
def sampleLoop (journalType : JsVal) (today : Int) (random : Nat → ℚ) :
    Nat → Nat → List String × List ℚ
  | 0, _ => ([], [])
  | i + 1, calls =>
    let rest := sampleLoop journalType today random i (calls + 1)
    (weekdayShort (today - i) :: rest.1, sampleValue journalType (random calls) :: rest.2)

/-- The method `generateSampleData(journalType)`. -/
def generateSampleData (journalType : JsVal) (today : Int) (random : Nat → ℚ) : SampleData :=
  let days := 7
  let filled := sampleLoop journalType today random days 0
  { labels := filled.1,
    values := filled.2,
    label :=
      if journalType.isStr "sale" then "Invoices"
      else if journalType.isStr "purchase" then "Bills"
      else if journalType.isStr "bank" then "Balance"
      else "Count" }

/-- The largest outcome of a random source that draws 52 random bits, `1 - 2^-52`. -/
def largestOutcome : ℚ := 1 - 2 ^ (-52 : ℤ)

end MzDashboardGraphField
namespace Float64

/-- The integer `n` that `toFixed(1)` picks for a non-negative `x`: the one for which
`n / 10 - x` is as close to zero as possible, the larger one when there are two. -/
def tenths (x : ℚ) : ℤ := ⌊x * 10 + 1 / 2⌋

/-- The method `x.toFixed(1)` for a finite `x` of magnitude below `10^21`: the sign `-` for a
negative `x`, then the decimal digits of the picked integer with a point before the last. -/
def toFixed1 (x : ℚ) : String :=
  (if x < 0 then "-" else "") ++ toString ((tenths |x|).toNat / 10) ++ "."
    ++ toString ((tenths |x|).toNat % 10)

/-- A result that does not underflow: zero, or of magnitude `2^-1022` at least. -/
def IsNormalOrZero (q : ℚ) : Prop := q = 0 ∨ 2 ^ (-1022 : ℤ) ≤ |q|

instance (q : ℚ) : Decidable (IsNormalOrZero q) := by
  unfold IsNormalOrZero
  infer_instance

end Float64

namespace MozAccountingDashboard

/-- The method `calculateChange(current, previous)` for finite numbers. -/
def calculateChange (current previous : ℚ) : JsVal :=
  if previous = 0 then .num 0
  else
    .str (Float64.toFixed1
      (Float64.mul (Float64.div (Float64.sub current previous) previous) 100))

/-- Specification: the percentage change `(current - previous) / previous * 100` as a real
number. -/
def exactChange (current previous : ℚ) : ℚ := (current - previous) / previous * 100

/-- Specification: the percentage change rounded to one decimal place, written the way
`toFixed(1)` writes a number. -/
def roundedChange (current previous : ℚ) : JsVal :=
  .str (Float64.toFixed1 (exactChange current previous))

end MozAccountingDashboard

/-! ## Calendar dates and time values -/

namespace JsDate

/-- The number of milliseconds in a day, `msPerDay` of the language specification. -/
def msPerDay : Int := 86400000

/-- Whether `y` is a leap year of the proleptic Gregorian calendar. -/
def isLeapYear (y : Int) : Bool :=
  y % 4 == 0 && (y % 100 != 0 || y % 400 == 0)

/-- The number of days of month `m` (1 to 12) of year `y`, and 0 for any other `m`. -/
def daysInMonth (y m : Int) : Int :=
  if m = 2 then (if isLeapYear y then 29 else 28)
  else if m = 4 ∨ m = 6 ∨ m = 9 ∨ m = 11 then 30
  else if 1 ≤ m ∧ m ≤ 12 then 31
  else 0

/-- The day number of the calendar date `y-m-d`, counted from 1 January 1970 (day 0): the
days of the years before it, of the months of its year before it, and `d`. Years are counted
from 1 March, so that the leap day is the last day of its year. -/
def dayFromCivil (y m d : Int) : Int :=
  let y1 := if m ≤ 2 then y - 1 else y
  let mp := if m > 2 then m - 3 else m + 9
  365 * y1 + y1 / 4 - y1 / 100 + y1 / 400 + (153 * mp + 2) / 5 + d - 1 - 719468

/-- The calendar date (year, month, day of month) of a day number: the day is located in its
period of 400 years, then in its century, its period of four years and its year, each counted
from 1 March. -/
def civilFromDay (day : Int) : Int × Int × Int :=
  let z := day + 719468
  let era := z / 146097
  let doe := z % 146097
  let century := min (doe / 36524) 3
  let doc := doe - century * 36524
  let quad := doc / 1461
  let doq := doc - quad * 1461
  let year := min (doq / 365) 3
  let doy := doq - year * 365
  let y1 := era * 400 + century * 100 + quad * 4 + year
  let mp := (5 * doy + 2) / 153
  let d := doy - (153 * mp + 2) / 5 + 1
  let m := if mp < 10 then mp + 3 else mp - 9
  (if m ≤ 2 then y1 + 1 else y1, m, d)

/-- The value of a decimal digit. -/
def digit (c : Char) : Option Int :=
  if c.isDigit then some (c.toNat - 48 : Nat) else none

/-- The time value of `new Date(text)` for a text of the date-only form `YYYY-MM-DD` that
names a calendar date: midnight UTC of that day. Every other text is outside the model
(`none`): it is not a calendar date in this form. -/
def timeValue (text : String) : Option Int :=
  match text.data with
  | [y1, y2, y3, y4, '-', m1, m2, '-', d1, d2] =>
    match digit y1, digit y2, digit y3, digit y4, digit m1, digit m2, digit d1, digit d2 with
    | some a, some b, some c, some e, some f, some g, some h, some i =>
      let y := a * 1000 + b * 100 + c * 10 + e
      let m := f * 10 + g
      let d := h * 10 + i
      if 1 ≤ d ∧ d ≤ daysInMonth y m then some (dayFromCivil y m d * msPerDay) else none
    | _, _, _, _, _, _, _, _ => none
  | _ => none

/-- The last `width` decimal digits of a natural number, the most significant first. -/
def digits : Nat → Nat → List Char
  | 0, _ => []
  | width + 1, n => digits width (n / 10) ++ [Nat.digitChar (n % 10)]

/-- The expression `new Date(t).toISOString().split('T')[0]` for a time value `t`: the
calendar date, in UTC, of the day that holds `t`, as four digits of the year, two of the month
and two of the day; years outside 0 to 9999 are written with a sign and six digits. -/
def isoDate (t : Int) : String :=
  match civilFromDay (t / msPerDay) with
  | (y, m, d) =>
    (if 0 ≤ y ∧ y ≤ 9999 then String.mk (digits 4 y.toNat)
      else (if y < 0 then "-" else "+") ++ String.mk (digits 6 y.natAbs))
      ++ "-" ++ String.mk (digits 2 m.toNat) ++ "-" ++ String.mk (digits 2 d.toNat)

/-- The time value of `new Date(v)` for a state value `v`; only texts of calendar dates are in
the model. -/
def ofJs : JsVal → Option Int
  | .str text => timeValue text
  | _ => none

/-- Specification: the number of the day that holds the time value `t`. -/
def dayNumber (t : Int) : Int := t / msPerDay

/-- Specification: the number of days of the period from the day of `tFrom` to the day of
`tTo`, both days included. -/
def periodDays (tFrom tTo : Int) : Int := dayNumber tTo - dayNumber tFrom + 1

end JsDate

namespace ProfitLossReport

/-- The statements of `setComparisonMode(mode)` before the reload. `sameDayLastYear x` is the
host's value of `d.toISOString().split('T')[0]` after `d = new Date(x)` and
`d.setFullYear(d.getFullYear() - 1)`, which reads the local time zone of the host. The result
is `none` when a date is outside the model or `toISOString` throws on an invalid date. -/
def applyComparisonMode (sameDayLastYear : JsVal → Option JsVal) (s : State) (mode : JsVal) :
    Option State :=
  let s1 := { s with comparisonMode := mode, comparison := !mode.isStr "none" }
  if mode.isStr "previous" then
    match JsDate.ofJs s1.date_from, JsDate.ofJs s1.date_to with
    | some currentFrom, some currentTo =>
      let periodLength := currentTo - currentFrom
      some { s1 with
        comparisonDateFrom := .str (JsDate.isoDate (currentFrom - periodLength)),
        comparisonDateTo := .str (JsDate.isoDate (currentFrom - 1)) }
    | _, _ => none
  else if mode.isStr "year" then
    match sameDayLastYear s1.date_from, sameDayLastYear s1.date_to with
    | some lastFrom, some lastTo =>
      some { s1 with comparisonDateFrom := lastFrom, comparisonDateTo := lastTo }
    | _, _ => none
  else some s1

/-- The method `setComparisonMode(mode)`: the comparison fields are set and the report is
loaded again. -/
def setComparisonMode (sameDayLastYear : JsVal → Option JsVal) (s : State) (mode : JsVal)
    (user : UserContext) (reply : Reply (Option ReportResult)) : Option (State × List Event) :=
  match applyComparisonMode sameDayLastYear s mode with
  | some s1 => some (loadProfitLossData s1 user reply)
  | none => none

/-- The profit-and-loss sample state with the period 1 to 31 January 2025. -/
def sampleStateJanuary : State :=
  { sampleState with date_from := .str "2025-01-01", date_to := .str "2025-01-31" }

end ProfitLossReport

/-! ## Registrations in the component registry -/

/-- A statement `registry.category(category).add(name, ...)` at the top level of a source
file. -/
structure Registration where
  file : String
  category : String
  name : String

/-- The registration statements of the sixteen source files, file by file. -/
def registrations : List Registration :=
  [ ⟨"custom-addons/ubuntu_server/account_enterprise_replica/static/src/js/account_dashboard.js",
      "actions", "account_enterprise_dashboard"⟩,
    ⟨"custom-addons/ubuntu_server/account_invoicing_ext_mz/static/src/components/aged_receivable/aged_receivable.js",
      "actions", "account_aged_receivable_report"⟩,
    ⟨"custom-addons/ubuntu_server/account_invoicing_ext_mz/static/src/components/balance_sheet/balance_sheet.js",
      "actions", "account_balance_sheet_report"⟩,
    ⟨"custom-addons/ubuntu_server/account_invoicing_ext_mz/static/src/components/cash_flow/cash_flow.js",
      "actions", "account_cash_flow_report"⟩,
    ⟨"custom-addons/ubuntu_server/account_invoicing_ext_mz/static/src/components/executive_summary/executive_summary.js",
      "actions", "account_executive_summary_report"⟩,
    ⟨"custom-addons/ubuntu_server/account_invoicing_ext_mz/static/src/components/general_ledger/general_ledger.js",
      "actions", "account_general_ledger_report"⟩,
    ⟨"custom-addons/ubuntu_server/account_invoicing_ext_mz/static/src/components/journal_audit/journal_audit.js",
      "actions", "account_journal_audit_report"⟩,
    ⟨"custom-addons/ubuntu_server/account_invoicing_ext_mz/static/src/components/partner_ledger/partner_ledger.js",
      "actions", "account_partner_ledger_report"⟩,
    ⟨"custom-addons/ubuntu_server/account_invoicing_ext_mz/static/src/components/profit_loss/profit_loss.js",
      "actions", "account_profit_loss_report"⟩,
    ⟨"custom-addons/ubuntu_server/account_invoicing_ext_mz/static/src/components/tax_return/tax_return.js",
      "actions", "account_tax_return_report"⟩,
    ⟨"custom-addons/ubuntu_server/account_invoicing_ext_mz/static/src/components/trial_balance/trial_balance.js",
      "actions", "account_trial_balance_report"⟩,
    ⟨"custom-addons/ubuntu_server/mz_accounting_dashboard/static/src/js/account_dashboard.js",
      "fields", "mz_dashboard_graph"⟩,
    ⟨"custom-addons/ubuntu_server/mz_accounting_dashboard/static/src/js/account_dashboard.js",
      "views", "mz_account_dashboard_kanban"⟩,
    ⟨"custom-addons/ubuntu_server/mz_accounting_dashboard/static/src/js/account_dashboard_simple.js",
      "views", "mz_account_dashboard_kanban_simple"⟩,
    ⟨"custom-addons/ubuntu_server/mz_accounting_dashboard/static/src/js/dashboard_graph_field.js",
      "fields", "mz_dashboard_graph"⟩,
    ⟨"mozambique_accounting/static/src/js/dashboard.js",
      "actions", "mozambique_accounting_dashboard"⟩,
    ⟨"mozambique_accounting/static/src/js/reconciliation_widget.js",
      "fields", "bank_reconciliation_widget"⟩ ]

/-- The key of a registration: the registry category and the name. -/
def Registration.key (r : Registration) : String × String := (r.category, r.name)

/-- Whether a registration is the one of the graph widget field. -/
def Registration.isGraphWidget (r : Registration) : Bool :=
  r.category == "fields" && r.name == "mz_dashboard_graph"

/-! ## Sample inputs -/

/-- A user context with two allowed companies. -/
def sampleUser : UserContext :=
  { allowed_company_ids := [.num 1, .num 2], company_id := .num 1 }

/-- An aged-receivable state as it is after a successful load. -/
def AgedReceivableReport.sampleState : AgedReceivableReport.State :=
  { partners := .arr [.obj [("name", .str "ACME"), ("total", .num 120)]],
    totals := AgedReceivableReport.zeroTotals,
    periods := .arr [.str "0-30"],
    isLoading := false,
    error := .null,
    expandedPartners := JsSet.empty,
    currencySymbol := .str "MT",
    filters :=
      { as_of_date := .str "2025-01-31", account_type := .str "receivable", partner_ids := [],
        period_length := .num 30, posted_entries := true, company_id := .null,
        based_on := .str "due_date" },
    unpostedWarning := .bool false }

/-- Two unreconciled bank lines and a reconciled one between them. -/
def BankReconciliationWidget.sampleLines : List BankLine :=
  [ { id := .num 7, date := .str "2025-01-02", name := .str "TRF 7", amount := .num 100,
      partner_id := .null, reconciled := .bool false, suggestions := .undefined },
    { id := .num 8, date := .str "2025-01-03", name := .str "TRF 8", amount := .num 250,
      partner_id := .null, reconciled := .bool true, suggestions := .undefined },
    { id := .num 9, date := .str "2025-01-04", name := .str "TRF 9", amount := .num 40,
      partner_id := .null, reconciled := .bool false, suggestions := .undefined } ]

/-- A widget state with the sample lines loaded and two of them selected. -/
def BankReconciliationWidget.sampleState : BankReconciliationWidget.State :=
  { BankReconciliationWidget.initialState with
    bankLines := BankReconciliationWidget.sampleLines,
    selectedLines := ⟨[.num 9, .num 7], by decide⟩ }

/-- A backend that answers every call: the statement lines are the sample lines, and a call
answers with its position in the sequence of remote calls inside an object. -/
def BankReconciliationWidget.answeringRemote : Remote :=
  { call := fun n => .returned (.obj [("count", .num n)]),
    searchRead := fun _ => .returned BankReconciliationWidget.sampleLines }

/-- A backend on which every call is rejected. -/
def BankReconciliationWidget.rejectingRemote : Remote :=
  { call := fun _ => .threw ⟨.str "timeout"⟩,
    searchRead := fun _ => .threw ⟨.str "timeout"⟩ }

/-! ## Vocabulary of the error-handling statements -/

/-- The remote call fails: it throws, or it returns a payload on which `bad` holds (a truthy
`error` for the `call_kw` reports, a falsy `success` for the balance sheet and the
profit-and-loss report). -/
def Reply.failed {ρ : Type} (bad : ρ → Bool) : Reply (Option ρ) → Bool
  | .threw _ => true
  | .returned (some r) => bad r
  | .returned none => false

/-- The state after a failed load shows the failure: `error` holds a value that is neither
`null` nor `undefined` nor the empty string (it is truthy), and the loading flag is `false`. -/
def FailureShown (error : JsVal) (loading : Bool) : Prop :=
  error.truthy = true ∧ error ≠ .null ∧ error ≠ .undefined ∧ error ≠ .str "" ∧ loading = false

/-! # Theorems -/

/-! ## Tree walks -/

mutual
theorem findLineIn_eq_find (lineId : Key) :
    ∀ ls : List Line, findLineIn lineId ls = (preorder ls).find? (fun l => decide (l.id = lineId))
  | [] => by simp [findLineIn, preorder]
  | l :: rest => by
    rw [findLineIn, preorder, List.find?_append, findLineAt_eq_find lineId l,
      findLineIn_eq_find lineId rest]
    cases (preorderAt l).find? (fun l => decide (l.id = lineId)) <;> rfl
theorem findLineAt_eq_find (lineId : Key) :
    ∀ l : Line, findLineAt lineId l = (preorderAt l).find? (fun l => decide (l.id = lineId))
  | .mk d none => by
    by_cases h : d.id = lineId <;> simp [findLineAt, preorderAt, Line.id, Line.data, h]
  | .mk d (some cs) => by
    by_cases h : d.id = lineId
    · simp [findLineAt, preorderAt, Line.id, Line.data, h]
    · simp only [findLineAt, preorderAt, if_neg h]
      rw [List.find?_cons_of_neg _ (by simpa [Line.id, Line.data] using h),
        ← findLineIn_eq_find lineId cs]
      cases findLineIn lineId cs <;> rfl
end

mutual
theorem preorderWithAncestors_map_snd (anc : List Key) :
    ∀ ls : List Line, (preorderWithAncestors anc ls).map Prod.snd = preorder ls
  | [] => by simp [preorderWithAncestors, preorder]
  | l :: rest => by
    rw [preorderWithAncestors, preorder, List.map_append, preorderWithAncestorsAt_map_snd anc l,
      preorderWithAncestors_map_snd anc rest]
theorem preorderWithAncestorsAt_map_snd (anc : List Key) :
    ∀ l : Line, (preorderWithAncestorsAt anc l).map Prod.snd = preorderAt l
  | .mk d none => by simp [preorderWithAncestorsAt, preorderAt]
  | .mk d (some cs) => by
    simp only [preorderWithAncestorsAt, preorderAt, List.map_cons]
    rw [preorderWithAncestors_map_snd (anc ++ [d.id]) cs]
end

mutual
theorem preorderWithAncestors_extends (anc : List Key) :
    ∀ (ls : List Line) (p : List Key × Line), p ∈ preorderWithAncestors anc ls → anc <+: p.1
  | [], p, h => by simp [preorderWithAncestors] at h
  | l :: rest, p, h => by
    rw [preorderWithAncestors, List.mem_append] at h
    rcases h with h | h
    · exact preorderWithAncestorsAt_extends anc l p h
    · exact preorderWithAncestors_extends anc rest p h
theorem preorderWithAncestorsAt_extends (anc : List Key) :
    ∀ (l : Line) (p : List Key × Line), p ∈ preorderWithAncestorsAt anc l → anc <+: p.1
  | .mk d none, p, h => by
    simp only [preorderWithAncestorsAt, List.mem_singleton] at h
    subst h
    exact List.prefix_refl _
  | .mk d (some cs), p, h => by
    simp only [preorderWithAncestorsAt, List.mem_cons] at h
    rcases h with h | h
    · subst h
      exact List.prefix_refl _
    · exact (List.prefix_append anc [d.id]).trans (preorderWithAncestors_extends _ cs p h)
end

theorem filter_preorder_of_collapsed (expanded : Key → Bool) (anc : List Key)
    (h : anc.all expanded = false) (ls : List Line) :
    (preorderWithAncestors anc ls).filter (fun p => p.1.all expanded) = [] := by
  rw [List.filter_eq_nil_iff]
  intro p hp
  obtain ⟨t, ht⟩ := preorderWithAncestors_extends anc ls p hp
  rw [← ht, List.all_append, h]
  simp

mutual
theorem BalanceSheetReport.getVisibleLinesIn_eq (s : BalanceSheetReport.State) (anc : List Key)
    (h : anc.all (BalanceSheetReport.isExpanded s) = true) :
    ∀ ls : List Line, BalanceSheetReport.getVisibleLinesIn s true ls =
      ((preorderWithAncestors anc ls).filter
        (fun p => p.1.all (BalanceSheetReport.isExpanded s))).map Prod.snd
  | [] => by simp [BalanceSheetReport.getVisibleLinesIn, preorderWithAncestors]
  | l :: rest => by
    rw [BalanceSheetReport.getVisibleLinesIn, preorderWithAncestors, List.filter_append,
      List.map_append, BalanceSheetReport.getVisibleLinesAt_eq s anc h l,
      BalanceSheetReport.getVisibleLinesIn_eq s anc h rest]
theorem BalanceSheetReport.getVisibleLinesAt_eq (s : BalanceSheetReport.State) (anc : List Key)
    (h : anc.all (BalanceSheetReport.isExpanded s) = true) :
    ∀ l : Line, BalanceSheetReport.getVisibleLinesAt s true l =
      ((preorderWithAncestorsAt anc l).filter
        (fun p => p.1.all (BalanceSheetReport.isExpanded s))).map Prod.snd
  | .mk d none => by
    simp [BalanceSheetReport.getVisibleLinesAt, preorderWithAncestorsAt, List.filter_cons, h]
  | .mk d (some cs) => by
    simp only [BalanceSheetReport.getVisibleLinesAt, preorderWithAncestorsAt, if_true]
    rw [List.filter_cons_of_pos (by simpa using h), List.map_cons]
    congr 1
    by_cases hx : BalanceSheetReport.isExpanded s d.id = true
    · rw [if_pos hx]
      exact BalanceSheetReport.getVisibleLinesIn_eq s (anc ++ [d.id])
        (by rw [List.all_append, h]; simp [hx]) cs
    · rw [if_neg hx, filter_preorder_of_collapsed _ (anc ++ [d.id])
        (by rw [List.all_append, h]; simp [hx]) cs]
      rfl
end

theorem BalanceSheetReport.getVisibleLinesAt_head (s : BalanceSheetReport.State) (l : Line) :
    BalanceSheetReport.getVisibleLinesAt s true l =
      l :: (BalanceSheetReport.getVisibleLinesAt s true l).tail := by
  cases l with
  | mk d children =>
    cases children <;>
      simp only [BalanceSheetReport.getVisibleLinesAt, if_true, List.tail_cons]

theorem BalanceSheetReport.roots_sublist_visible (s : BalanceSheetReport.State)
    (ls : List Line) : ls.Sublist (BalanceSheetReport.getVisibleLinesIn s true ls) := by
  induction ls with
  | nil => simp [BalanceSheetReport.getVisibleLinesIn]
  | cons l rest ih =>
    rw [BalanceSheetReport.getVisibleLinesIn, BalanceSheetReport.getVisibleLinesAt_head s l,
      List.cons_append]
    exact (ih.trans (List.sublist_append_right _ _)).cons₂ _

theorem resolveLines_of_data (data : Option ReportData) (d : ReportData) (ls : List Line)
    (hd : data = some d) (hl : d.lines = some ls) : resolveLines data none = ls := by
  rw [hd, resolveLines, linesOfData, hl]
  rfl

theorem resolveLines_of_no_lines (data : Option ReportData)
    (h : data = none ∨ ∃ d, data = some d ∧ d.lines = none) : resolveLines data none = [] := by
  rcases h with h | ⟨d, hd, hl⟩
  · rw [h]
    rfl
  · rw [hd, resolveLines, linesOfData, hl]
    rfl

theorem mem_filter_preorder (expanded : Key → Bool) (ls : List Line) (l : Line) :
    l ∈ ((preorderWithAncestors [] ls).filter (fun p => p.1.all expanded)).map Prod.snd ↔
      ∃ ancestors, (ancestors, l) ∈ preorderWithAncestors [] ls
        ∧ ∀ a ∈ ancestors, expanded a = true := by
  simp only [List.mem_map, List.mem_filter, List.all_eq_true]
  constructor
  · rintro ⟨⟨anc, l2⟩, ⟨hmem, hall⟩, rfl⟩
    exact ⟨anc, hmem, hall⟩
  · rintro ⟨anc, hmem, hall⟩
    exact ⟨(anc, l), ⟨hmem, hall⟩, rfl⟩

theorem BalanceSheetReport.getVisibleLines_on (s : BalanceSheetReport.State)
    (lines : Option (List Line)) (ls : List Line) (h : resolveLines s.data lines = ls) :
    BalanceSheetReport.getVisibleLines s lines true =
        ((preorderWithAncestors [] ls).filter
          (fun p => p.1.all (fun a => decide (a ∈ s.expandedLines.items)))).map Prod.snd
      ∧ (BalanceSheetReport.getVisibleLines s lines true).Sublist (preorder ls)
      ∧ (∀ l ∈ ls, l ∈ BalanceSheetReport.getVisibleLines s lines true)
      ∧ ∀ l, l ∈ BalanceSheetReport.getVisibleLines s lines true ↔
          ∃ ancestors, (ancestors, l) ∈ preorderWithAncestors [] ls
            ∧ ∀ a ∈ ancestors, a ∈ s.expandedLines.items := by
  have hv : BalanceSheetReport.getVisibleLines s lines true =
      ((preorderWithAncestors [] ls).filter
        (fun p => p.1.all (fun a => decide (a ∈ s.expandedLines.items)))).map Prod.snd := by
    rw [BalanceSheetReport.getVisibleLines, h]
    exact BalanceSheetReport.getVisibleLinesIn_eq s [] rfl ls
  refine ⟨hv, ?_, ?_, ?_⟩
  · rw [hv, ← preorderWithAncestors_map_snd []]
    exact (List.filter_sublist _).map _
  · intro l hl
    rw [BalanceSheetReport.getVisibleLines, h]
    exact (BalanceSheetReport.roots_sublist_visible s _).subset hl
  · intro l
    rw [hv, mem_filter_preorder]
    simp

/-- C1: for every forest `ls` of report lines and every set of expanded ids,
`BalanceSheetReport.getVisibleLines()`, called without arguments on a state whose
`data.lines` is `ls` (and likewise called with `ls` as its argument), returns the depth-first
pre-order sequence of `ls` restricted to the lines all of whose proper ancestors have their id
in `expandedLines`: it is a subsequence of the pre-order of `ls`, a line occurs in it exactly
when it occurs in `ls` under ancestors that are all expanded, and every top-level line of `ls`
is in it. Without data, or with data that has no lines, the result is empty. -/
theorem BalanceSheetReport.getVisibleLines_preorder_of_expanded (s : BalanceSheetReport.State)
    (ls : List Line) :
    (∀ d : ReportData, s.data = some d → d.lines = some ls →
        BalanceSheetReport.getVisibleLines s none true =
            ((preorderWithAncestors [] ls).filter
              (fun p => p.1.all (fun a => decide (a ∈ s.expandedLines.items)))).map Prod.snd
          ∧ (BalanceSheetReport.getVisibleLines s none true).Sublist (preorder ls)
          ∧ (∀ l ∈ ls, l ∈ BalanceSheetReport.getVisibleLines s none true)
          ∧ ∀ l, l ∈ BalanceSheetReport.getVisibleLines s none true ↔
              ∃ ancestors, (ancestors, l) ∈ preorderWithAncestors [] ls
                ∧ ∀ a ∈ ancestors, a ∈ s.expandedLines.items)
      ∧ (BalanceSheetReport.getVisibleLines s (some ls) true =
            ((preorderWithAncestors [] ls).filter
              (fun p => p.1.all (fun a => decide (a ∈ s.expandedLines.items)))).map Prod.snd
          ∧ (BalanceSheetReport.getVisibleLines s (some ls) true).Sublist (preorder ls)
          ∧ (∀ l ∈ ls, l ∈ BalanceSheetReport.getVisibleLines s (some ls) true)
          ∧ ∀ l, l ∈ BalanceSheetReport.getVisibleLines s (some ls) true ↔
              ∃ ancestors, (ancestors, l) ∈ preorderWithAncestors [] ls
                ∧ ∀ a ∈ ancestors, a ∈ s.expandedLines.items)
      ∧ ((s.data = none ∨ ∃ d, s.data = some d ∧ d.lines = none) →
          BalanceSheetReport.getVisibleLines s none true = []) := by
  refine ⟨fun d hd hl => ?_, ?_, fun h => ?_⟩
  · exact BalanceSheetReport.getVisibleLines_on s none ls (resolveLines_of_data s.data d ls hd hl)
  · exact BalanceSheetReport.getVisibleLines_on s (some ls) ls rfl
  · rw [BalanceSheetReport.getVisibleLines, resolveLines_of_no_lines s.data h]
    rfl

/-- On the sample tree (income with two accounts below it, then the total line): with the
income line expanded all four lines are visible, in pre-order; with nothing expanded only the
two top-level lines are. -/
theorem BalanceSheetReport.getVisibleLines_preorder_of_expanded_witness :
    BalanceSheetReport.sampleState.data = some sampleReportData
      ∧ sampleReportData.lines = some sampleReportLines
      ∧ (BalanceSheetReport.getVisibleLines BalanceSheetReport.sampleState none true).map
          Line.id = [.str "income", .num 4001, .num 4002, .str "net"]
      ∧ (BalanceSheetReport.getVisibleLines
          { BalanceSheetReport.sampleState with expandedLines := JsSet.empty } none true).map
          Line.id = [.str "income", .str "net"] := by
  have h1 := ((BalanceSheetReport.getVisibleLines_preorder_of_expanded
    BalanceSheetReport.sampleState sampleReportLines).1 sampleReportData rfl rfl).1
  have h2 := ((BalanceSheetReport.getVisibleLines_preorder_of_expanded
    { BalanceSheetReport.sampleState with expandedLines := JsSet.empty }
    sampleReportLines).1 sampleReportData rfl rfl).1
  refine ⟨rfl, rfl, ?_, ?_⟩
  · rw [h1]
    decide
  · rw [h2]
    decide

theorem findLine_on (data : Option ReportData) (lines : Option (List Line)) (ls : List Line)
    (lineId : Key) (h : resolveLines data lines = ls) :
    findLineIn lineId (resolveLines data lines) =
        (preorder ls).find? (fun l => decide (l.id = lineId))
      ∧ (findLineIn lineId (resolveLines data lines) = none ↔
          ∀ l ∈ preorder ls, l.id ≠ lineId) := by
  rw [h]
  refine ⟨findLineIn_eq_find lineId ls, ?_⟩
  rw [findLineIn_eq_find, List.find?_eq_none]
  simp

/-- C2: for every forest `ls` of report lines and every id, `findLine(id)` of the balance sheet
and of the profit-and-loss report, called on a state whose `data.lines` is `ls` (and likewise
`findLine(id, ls)`), returns the first line in the depth-first pre-order of `ls` whose id
equals the given id, and `null` exactly when no line at any depth of `ls` has that id. Without
data, or with data that has no lines, it returns `null`. -/
theorem findLine_first_in_preorder (lineId : Key) (ls : List Line) :
    (∀ s : BalanceSheetReport.State,
        (∀ d : ReportData, s.data = some d → d.lines = some ls →
            BalanceSheetReport.findLine s lineId none =
                (preorder ls).find? (fun l => decide (l.id = lineId))
              ∧ (BalanceSheetReport.findLine s lineId none = none ↔
                  ∀ l ∈ preorder ls, l.id ≠ lineId))
          ∧ (BalanceSheetReport.findLine s lineId (some ls) =
                (preorder ls).find? (fun l => decide (l.id = lineId))
              ∧ (BalanceSheetReport.findLine s lineId (some ls) = none ↔
                  ∀ l ∈ preorder ls, l.id ≠ lineId))
          ∧ ((s.data = none ∨ ∃ d, s.data = some d ∧ d.lines = none) →
              BalanceSheetReport.findLine s lineId none = none))
      ∧ (∀ s : ProfitLossReport.State,
        (∀ d : ReportData, s.data = some d → d.lines = some ls →
            ProfitLossReport.findLine s lineId none =
                (preorder ls).find? (fun l => decide (l.id = lineId))
              ∧ (ProfitLossReport.findLine s lineId none = none ↔
                  ∀ l ∈ preorder ls, l.id ≠ lineId))
          ∧ (ProfitLossReport.findLine s lineId (some ls) =
                (preorder ls).find? (fun l => decide (l.id = lineId))
              ∧ (ProfitLossReport.findLine s lineId (some ls) = none ↔
                  ∀ l ∈ preorder ls, l.id ≠ lineId))
          ∧ ((s.data = none ∨ ∃ d, s.data = some d ∧ d.lines = none) →
              ProfitLossReport.findLine s lineId none = none)) := by
  constructor <;> intro s
  · refine ⟨fun d hd hl => ?_, ?_, fun h => ?_⟩
    · exact findLine_on s.data none ls lineId (resolveLines_of_data s.data d ls hd hl)
    · exact findLine_on s.data (some ls) ls lineId rfl
    · rw [BalanceSheetReport.findLine, resolveLines_of_no_lines s.data h]
      rfl
  · refine ⟨fun d hd hl => ?_, ?_, fun h => ?_⟩
    · exact findLine_on s.data none ls lineId (resolveLines_of_data s.data d ls hd hl)
    · exact findLine_on s.data (some ls) ls lineId rfl
    · rw [ProfitLossReport.findLine, resolveLines_of_no_lines s.data h]
      rfl

/-- On the sample tree, `findLine(4002)` returns the second account below the income line, and
`findLine("tax")` returns `null`, since no line has that id. -/
theorem findLine_first_in_preorder_witness :
    BalanceSheetReport.sampleState.data = some sampleReportData
      ∧ sampleReportData.lines = some sampleReportLines
      ∧ (BalanceSheetReport.findLine BalanceSheetReport.sampleState (.num 4002) none).map
          (fun l => (l.id, l.data.balance)) = some (.num 4002, -500)
      ∧ (ProfitLossReport.findLine ProfitLossReport.sampleState (.num 4002) none).map
          (fun l => (l.id, l.data.balance)) = some (.num 4002, -500)
      ∧ BalanceSheetReport.findLine BalanceSheetReport.sampleState (.str "tax") none = none := by
  have h1 := (((findLine_first_in_preorder (.num 4002) sampleReportLines).1
    BalanceSheetReport.sampleState).1 sampleReportData rfl rfl).1
  have h2 := (((findLine_first_in_preorder (.num 4002) sampleReportLines).2
    ProfitLossReport.sampleState).1 sampleReportData rfl rfl).1
  have h3 := (((findLine_first_in_preorder (.str "tax") sampleReportLines).1
    BalanceSheetReport.sampleState).1 sampleReportData rfl rfl).2
  refine ⟨rfl, rfl, ?_, ?_, ?_⟩
  · rw [h1]
    decide
  · rw [h2]
    decide
  · rw [h3]
    decide

/-! ## Failed loads -/

theorem JsVal.or_truthy (a b : JsVal) (hb : b.truthy = true) : (a.or b).truthy = true := by
  unfold JsVal.or
  by_cases ha : a.truthy = true
  · rw [if_pos ha]; exact ha
  · rw [if_neg ha]; exact hb

theorem failedMessage_truthy (e : JsError) : (failedMessage e).truthy = true :=
  JsVal.or_truthy _ _ (by decide)

theorem networkError_truthy (m : String) :
    (JsVal.str ("Network error: " ++ m)).truthy = true := by
  have h : ("Network error: " ++ m) ≠ "" := by
    intro h
    have h2 := congrArg String.length h
    simp [String.length_append] at h2
    exact absurd h2.1 (by decide)
  simpa [JsVal.truthy] using h

theorem failureShown_of_truthy (v : JsVal) (h : v.truthy = true) : FailureShown v false := by
  refine ⟨h, ?_, ?_, ?_, rfl⟩ <;> intro hv <;> rw [hv] at h <;> exact absurd h (by decide)

theorem awaitChecked_of_failed {ρ : Type} (error : ρ → JsVal) (reply : Reply (Option ρ))
    (h : Reply.failed (fun r => (error r).truthy) reply = true) :
    ∃ e, awaitChecked error reply = .error e := by
  cases reply with
  | threw e => exact ⟨e, rfl⟩
  | returned v =>
    cases v with
    | none => simp [Reply.failed] at h
    | some r =>
      have hr : (error r).truthy = true := by simpa [Reply.failed] using h
      exact ⟨JsError.new (error r), by simp [awaitChecked, hr]⟩

theorem no_notify_pair (a : Event) (label : String) (e : JsError) (ha : a.isNotify = false) :
    ∀ ev ∈ [a, Event.consoleError label e], ev.isNotify = false := by
  intro ev hev
  simp only [List.mem_cons, List.mem_singleton, List.not_mem_nil, or_false] at hev
  rcases hev with rfl | rfl
  · exact ha
  · rfl

theorem no_notify_single (label : String) (e : JsError) :
    ∀ ev ∈ [Event.consoleError label e], ev.isNotify = false := by
  intro ev hev
  simp only [List.mem_singleton] at hev
  subst hev
  rfl

theorem agedReceivable_load_failed (s : AgedReceivableReport.State) (user : UserContext)
    (reply : Reply (Option AgedReceivableReport.Result))
    (h : Reply.failed (fun r => r.error.truthy) reply = true) :
    ∃ v, v.truthy = true
      ∧ (AgedReceivableReport.loadReport s user reply).1 = { s with error := v, isLoading := false }
      ∧ ∀ ev ∈ (AgedReceivableReport.loadReport s user reply).2, ev.isNotify = false := by
  obtain ⟨e, he⟩ := awaitChecked_of_failed _ reply h
  simp only [AgedReceivableReport.loadReport, he]
  exact ⟨failedMessage e, failedMessage_truthy e, rfl, no_notify_pair _ _ e rfl⟩

theorem generalLedger_load_failed (s : GeneralLedgerReport.State) (user : UserContext)
    (reply : Reply (Option GeneralLedgerReport.Result))
    (h : Reply.failed (fun r => r.error.truthy) reply = true) :
    ∃ v, v.truthy = true
      ∧ (GeneralLedgerReport.loadReport s user reply).1 = { s with error := v, isLoading := false }
      ∧ ∀ ev ∈ (GeneralLedgerReport.loadReport s user reply).2, ev.isNotify = false := by
  obtain ⟨e, he⟩ := awaitChecked_of_failed _ reply h
  simp only [GeneralLedgerReport.loadReport, he]
  exact ⟨failedMessage e, failedMessage_truthy e, rfl, no_notify_pair _ _ e rfl⟩

theorem partnerLedger_load_failed (s : PartnerLedgerReport.State) (user : UserContext)
    (reply : Reply (Option PartnerLedgerReport.Result))
    (h : Reply.failed (fun r => r.error.truthy) reply = true) :
    ∃ v, v.truthy = true
      ∧ (PartnerLedgerReport.loadReport s user reply).1 = { s with error := v, isLoading := false }
      ∧ ∀ ev ∈ (PartnerLedgerReport.loadReport s user reply).2, ev.isNotify = false := by
  obtain ⟨e, he⟩ := awaitChecked_of_failed _ reply h
  simp only [PartnerLedgerReport.loadReport, he]
  exact ⟨failedMessage e, failedMessage_truthy e, rfl, no_notify_pair _ _ e rfl⟩

theorem trialBalance_load_failed (s : TrialBalanceReport.State) (user : UserContext)
    (reply : Reply (Option TrialBalanceReport.Result))
    (h : Reply.failed (fun r => r.error.truthy) reply = true) :
    ∃ v, v.truthy = true
      ∧ (TrialBalanceReport.loadReport s user reply).1 = { s with error := v, isLoading := false }
      ∧ ∀ ev ∈ (TrialBalanceReport.loadReport s user reply).2, ev.isNotify = false := by
  obtain ⟨e, he⟩ := awaitChecked_of_failed _ reply h
  simp only [TrialBalanceReport.loadReport, he]
  exact ⟨failedMessage e, failedMessage_truthy e, rfl, no_notify_pair _ _ e rfl⟩

theorem journalAudit_load_failed (s : JournalAuditReport.State) (user : UserContext)
    (reply : Reply (Option JournalAuditReport.Result))
    (h : Reply.failed (fun r => r.error.truthy) reply = true) :
    ∃ v, v.truthy = true
      ∧ (JournalAuditReport.loadReport s user reply).1 = { s with error := v, isLoading := false }
      ∧ ∀ ev ∈ (JournalAuditReport.loadReport s user reply).2, ev.isNotify = false := by
  obtain ⟨e, he⟩ := awaitChecked_of_failed _ reply h
  unfold JournalAuditReport.loadReport
  simp only [he]
  cases yearRange s.filters.date_from with
  | error e2 => exact ⟨failedMessage e2, failedMessage_truthy e2, rfl, no_notify_single _ e2⟩
  | ok dates => exact ⟨failedMessage e, failedMessage_truthy e, rfl, no_notify_pair _ _ e rfl⟩

theorem executiveSummary_load_failed (s : ExecutiveSummaryReport.State) (user : UserContext)
    (reply : Reply (Option ExecutiveSummaryReport.Result))
    (h : Reply.failed (fun r => r.error.truthy) reply = true) :
    ∃ v, v.truthy = true
      ∧ (ExecutiveSummaryReport.loadReport s user reply).1 = { s with error := v, isLoading := false }
      ∧ ∀ ev ∈ (ExecutiveSummaryReport.loadReport s user reply).2, ev.isNotify = false := by
  obtain ⟨e, he⟩ := awaitChecked_of_failed _ reply h
  unfold ExecutiveSummaryReport.loadReport
  simp only [he]
  cases yearRange s.filters.date_to with
  | error e2 => exact ⟨failedMessage e2, failedMessage_truthy e2, rfl, no_notify_single _ e2⟩
  | ok dates => exact ⟨failedMessage e, failedMessage_truthy e, rfl, no_notify_pair _ _ e rfl⟩

theorem taxReturn_load_failed (s : TaxReturnReport.State) (user : UserContext)
    (reply : Reply (Option TaxReturnReport.Result))
    (h : Reply.failed (fun r => r.error.truthy) reply = true) :
    ∃ v, v.truthy = true
      ∧ (TaxReturnReport.loadReport s user reply).1 = { s with error := v, isLoading := false }
      ∧ ∀ ev ∈ (TaxReturnReport.loadReport s user reply).2, ev.isNotify = false := by
  obtain ⟨e, he⟩ := awaitChecked_of_failed _ reply h
  simp only [TaxReturnReport.loadReport, he]
  exact ⟨failedMessage e, failedMessage_truthy e, rfl, no_notify_pair _ _ e rfl⟩

theorem cashFlow_load_failed (s : CashFlowReport.State) (user : UserContext)
    (reply : Reply (Option CashFlowReport.Result))
    (h : Reply.failed (fun r => r.error.truthy) reply = true) :
    ∃ v, v.truthy = true
      ∧ (CashFlowReport.loadReport s user reply).1 = { s with error := v, isLoading := false }
      ∧ ∀ ev ∈ (CashFlowReport.loadReport s user reply).2, ev.isNotify = false := by
  obtain ⟨e, he⟩ := awaitChecked_of_failed _ reply h
  simp only [CashFlowReport.loadReport, he]
  exact ⟨failedMessage e, failedMessage_truthy e, rfl, no_notify_pair _ _ e rfl⟩

theorem balanceSheet_applyResult_of_not_success (s : BalanceSheetReport.State)
    (r : ReportResult) (h : r.success.truthy = false) :
    BalanceSheetReport.applyResult s (some r) =
      ({ s with error := r.error.or (.str "Failed to load balance sheet data") }, none) := by
  simp [BalanceSheetReport.applyResult, h]

theorem balanceSheet_load_failed (s : BalanceSheetReport.State) (user : UserContext)
    (reply : Reply (Option ReportResult))
    (h : Reply.failed (fun r => !r.success.truthy) reply = true) :
    ∃ v, v.truthy = true
      ∧ (BalanceSheetReport.loadBalanceSheetData s user reply).1 = { s with error := v, loading := false }
      ∧ ∀ ev ∈ (BalanceSheetReport.loadBalanceSheetData s user reply).2, ev.isNotify = false := by
  cases reply with
  | threw e => exact ⟨_, networkError_truthy e.message.toStr, rfl, no_notify_pair _ _ e rfl⟩
  | returned v =>
    cases v with
    | none => simp [Reply.failed] at h
    | some r =>
      have hr : r.success.truthy = false := by simpa [Reply.failed] using h
      simp only [BalanceSheetReport.loadBalanceSheetData, balanceSheet_applyResult_of_not_success _ r hr]
      refine ⟨r.error.or (.str "Failed to load balance sheet data"),
        JsVal.or_truthy _ _ (by decide), rfl, ?_⟩
      intro ev hev
      simp only [List.mem_singleton] at hev
      subst hev
      rfl

theorem profitLoss_applyResult_of_not_success (s : ProfitLossReport.State)
    (r : ReportResult) (h : r.success.truthy = false) :
    ProfitLossReport.applyResult s (some r) =
      ({ s with error := r.error.or (.str "Failed to load profit and loss data") }, none) := by
  simp [ProfitLossReport.applyResult, h]

theorem profitLoss_load_failed (s : ProfitLossReport.State) (user : UserContext)
    (reply : Reply (Option ReportResult))
    (h : Reply.failed (fun r => !r.success.truthy) reply = true) :
    ∃ v, v.truthy = true
      ∧ (ProfitLossReport.loadProfitLossData s user reply).1 = { s with error := v, loading := false }
      ∧ ∀ ev ∈ (ProfitLossReport.loadProfitLossData s user reply).2, ev.isNotify = false := by
  cases reply with
  | threw e => exact ⟨_, networkError_truthy e.message.toStr, rfl, no_notify_pair _ _ e rfl⟩
  | returned v =>
    cases v with
    | none => simp [Reply.failed] at h
    | some r =>
      have hr : r.success.truthy = false := by simpa [Reply.failed] using h
      simp only [ProfitLossReport.loadProfitLossData, profitLoss_applyResult_of_not_success _ r hr]
      refine ⟨r.error.or (.str "Failed to load profit and loss data"),
        JsVal.or_truthy _ _ (by decide), rfl, ?_⟩
      intro ev hev
      simp only [List.mem_singleton] at hev
      subst hev
      rfl

/-- C3: whenever the remote call of a report component throws or returns a failure payload
(a truthy `result.error` for the eight `loadReport` methods, a falsy `result.success` for
`loadBalanceSheetData` and `loadProfitLossData`), the operation completes with `state.error`
set to a value that is neither `null` nor empty, and with the loading flag `false`. -/
theorem load_failure_sets_error_and_clears_loading (user : UserContext) :
    (∀ s reply, Reply.failed (fun r => r.error.truthy) reply = true →
        FailureShown (AgedReceivableReport.loadReport s user reply).1.error
          (AgedReceivableReport.loadReport s user reply).1.isLoading)
      ∧ (∀ s reply, Reply.failed (fun r => r.error.truthy) reply = true →
        FailureShown (GeneralLedgerReport.loadReport s user reply).1.error
          (GeneralLedgerReport.loadReport s user reply).1.isLoading)
      ∧ (∀ s reply, Reply.failed (fun r => r.error.truthy) reply = true →
        FailureShown (PartnerLedgerReport.loadReport s user reply).1.error
          (PartnerLedgerReport.loadReport s user reply).1.isLoading)
      ∧ (∀ s reply, Reply.failed (fun r => r.error.truthy) reply = true →
        FailureShown (TrialBalanceReport.loadReport s user reply).1.error
          (TrialBalanceReport.loadReport s user reply).1.isLoading)
      ∧ (∀ s reply, Reply.failed (fun r => r.error.truthy) reply = true →
        FailureShown (JournalAuditReport.loadReport s user reply).1.error
          (JournalAuditReport.loadReport s user reply).1.isLoading)
      ∧ (∀ s reply, Reply.failed (fun r => r.error.truthy) reply = true →
        FailureShown (ExecutiveSummaryReport.loadReport s user reply).1.error
          (ExecutiveSummaryReport.loadReport s user reply).1.isLoading)
      ∧ (∀ s reply, Reply.failed (fun r => r.error.truthy) reply = true →
        FailureShown (TaxReturnReport.loadReport s user reply).1.error
          (TaxReturnReport.loadReport s user reply).1.isLoading)
      ∧ (∀ s reply, Reply.failed (fun r => r.error.truthy) reply = true →
        FailureShown (CashFlowReport.loadReport s user reply).1.error
          (CashFlowReport.loadReport s user reply).1.isLoading)
      ∧ (∀ s reply, Reply.failed (fun r => !r.success.truthy) reply = true →
        FailureShown (BalanceSheetReport.loadBalanceSheetData s user reply).1.error
          (BalanceSheetReport.loadBalanceSheetData s user reply).1.loading)
      ∧ (∀ s reply, Reply.failed (fun r => !r.success.truthy) reply = true →
        FailureShown (ProfitLossReport.loadProfitLossData s user reply).1.error
          (ProfitLossReport.loadProfitLossData s user reply).1.loading) := by
  refine ⟨?_, ?_, ?_, ?_, ?_, ?_, ?_, ?_, ?_, ?_⟩
  · intro s reply h
    obtain ⟨v, hv, heq, _⟩ := agedReceivable_load_failed s user reply h
    rw [heq]
    exact failureShown_of_truthy v hv
  · intro s reply h
    obtain ⟨v, hv, heq, _⟩ := generalLedger_load_failed s user reply h
    rw [heq]
    exact failureShown_of_truthy v hv
  · intro s reply h
    obtain ⟨v, hv, heq, _⟩ := partnerLedger_load_failed s user reply h
    rw [heq]
    exact failureShown_of_truthy v hv
  · intro s reply h
    obtain ⟨v, hv, heq, _⟩ := trialBalance_load_failed s user reply h
    rw [heq]
    exact failureShown_of_truthy v hv
  · intro s reply h
    obtain ⟨v, hv, heq, _⟩ := journalAudit_load_failed s user reply h
    rw [heq]
    exact failureShown_of_truthy v hv
  · intro s reply h
    obtain ⟨v, hv, heq, _⟩ := executiveSummary_load_failed s user reply h
    rw [heq]
    exact failureShown_of_truthy v hv
  · intro s reply h
    obtain ⟨v, hv, heq, _⟩ := taxReturn_load_failed s user reply h
    rw [heq]
    exact failureShown_of_truthy v hv
  · intro s reply h
    obtain ⟨v, hv, heq, _⟩ := cashFlow_load_failed s user reply h
    rw [heq]
    exact failureShown_of_truthy v hv
  · intro s reply h
    obtain ⟨v, hv, heq, _⟩ := balanceSheet_load_failed s user reply h
    rw [heq]
    exact failureShown_of_truthy v hv
  · intro s reply h
    obtain ⟨v, hv, heq, _⟩ := profitLoss_load_failed s user reply h
    rw [heq]
    exact failureShown_of_truthy v hv

/-- A rejected aged-receivable call on the sample state: the failure is shown. -/
theorem load_failure_sets_error_and_clears_loading_witness :
    Reply.failed (fun r : AgedReceivableReport.Result => r.error.truthy)
        (.threw ⟨.str "timeout"⟩) = true
      ∧ FailureShown
          (AgedReceivableReport.loadReport AgedReceivableReport.sampleState sampleUser
            (.threw ⟨.str "timeout"⟩)).1.error
          (AgedReceivableReport.loadReport AgedReceivableReport.sampleState sampleUser
            (.threw ⟨.str "timeout"⟩)).1.isLoading :=
  ⟨rfl, (load_failure_sets_error_and_clears_loading sampleUser).1
    AgedReceivableReport.sampleState (.threw ⟨.str "timeout"⟩) rfl⟩

/-! ## Loading flags of the dashboards and of the reconciliation widget -/

theorem BankReconciliationWidget.loadBankLines_loading (remote : Remote)
    (s : BankReconciliationWidget.State) (trace : List Event) :
    (BankReconciliationWidget.loadBankLines remote s trace).1.loading = false := by
  unfold BankReconciliationWidget.loadBankLines
  cases remote.searchRead (remoteCount trace) with
  | threw e => rfl
  | returned lines =>
    simp only
    generalize BankReconciliationWidget.loadSuggestions remote _ _ = r
    obtain ⟨s2, trace2, thrown⟩ := r
    cases thrown <;> rfl

/-- C4: for every outcome of the remote calls (success or exception), the loading flag is
`false` when `loadDashboardData` of the three dashboards and `loadBankLines` of the
reconciliation widget complete. -/
theorem loading_flag_false_after_load :
    (∀ s reply, (AccountEnterpriseDashboard.loadDashboardData s reply).1.isLoading = false)
      ∧ (∀ s reply, (AccountDashboardKanbanController.loadDashboardData s reply).1.isLoading = false)
      ∧ (∀ s reply, (MozAccountingDashboard.loadDashboardData s reply).1.loading = false)
      ∧ (∀ remote s trace,
          (BankReconciliationWidget.loadBankLines remote s trace).1.loading = false) := by
  refine ⟨?_, ?_, ?_, ?_⟩
  · intro s reply
    unfold AccountEnterpriseDashboard.loadDashboardData
    cases reply with
    | threw e => rfl
    | returned data =>
      simp only
      cases data.get "kpis" with
      | error e => rfl
      | ok kpis =>
        simp only
        cases data.get "charts" <;> rfl
  · intro s reply
    cases reply <;> rfl
  · intro s reply
    cases reply <;> rfl
  · exact BankReconciliationWidget.loadBankLines_loading

/-! ## How a failed load is reported -/

/-- C5, as stated, fails: when the remote call of the aged-receivable report throws,
`loadReport` sets `state.error` but emits no toast notification (the failure is only written
to the console). -/
theorem AgedReceivableReport.loadReport_failure_without_notification :
    ¬ (FailureShown
          (AgedReceivableReport.loadReport AgedReceivableReport.sampleState sampleUser
            (.threw ⟨.str "timeout"⟩)).1.error
          (AgedReceivableReport.loadReport AgedReceivableReport.sampleState sampleUser
            (.threw ⟨.str "timeout"⟩)).1.isLoading
        ∧ ∃ ev ∈ (AgedReceivableReport.loadReport AgedReceivableReport.sampleState sampleUser
            (.threw ⟨.str "timeout"⟩)).2, ev.isNotify = true) := by
  rintro ⟨-, ev, hev, hnotify⟩
  obtain ⟨v, -, -, hno⟩ := agedReceivable_load_failed AgedReceivableReport.sampleState
    sampleUser (.threw ⟨.str "timeout"⟩) rfl
  rw [hno ev hev] at hnotify
  exact absurd hnotify (by decide)

/-- C5 (amended): when the data-loading remote call fails, a load operation reports the
failure in one of two ways. The ten report components set `state.error` to a value that is
neither `null` nor empty and emit no toast notification. The three dashboards and the
reconciliation widget, whose states have no error field, emit exactly one toast notification,
of type `danger`. -/
theorem load_failure_sets_error_or_notifies (user : UserContext) :
    (∀ s reply, Reply.failed (fun r => r.error.truthy) reply = true →
        FailureShown (AgedReceivableReport.loadReport s user reply).1.error (AgedReceivableReport.loadReport s user reply).1.isLoading
          ∧ ∀ ev ∈ (AgedReceivableReport.loadReport s user reply).2, ev.isNotify = false)
      ∧ (∀ s reply, Reply.failed (fun r => r.error.truthy) reply = true →
        FailureShown (GeneralLedgerReport.loadReport s user reply).1.error (GeneralLedgerReport.loadReport s user reply).1.isLoading
          ∧ ∀ ev ∈ (GeneralLedgerReport.loadReport s user reply).2, ev.isNotify = false)
      ∧ (∀ s reply, Reply.failed (fun r => r.error.truthy) reply = true →
        FailureShown (PartnerLedgerReport.loadReport s user reply).1.error (PartnerLedgerReport.loadReport s user reply).1.isLoading
          ∧ ∀ ev ∈ (PartnerLedgerReport.loadReport s user reply).2, ev.isNotify = false)
      ∧ (∀ s reply, Reply.failed (fun r => r.error.truthy) reply = true →
        FailureShown (TrialBalanceReport.loadReport s user reply).1.error (TrialBalanceReport.loadReport s user reply).1.isLoading
          ∧ ∀ ev ∈ (TrialBalanceReport.loadReport s user reply).2, ev.isNotify = false)
      ∧ (∀ s reply, Reply.failed (fun r => r.error.truthy) reply = true →
        FailureShown (JournalAuditReport.loadReport s user reply).1.error (JournalAuditReport.loadReport s user reply).1.isLoading
          ∧ ∀ ev ∈ (JournalAuditReport.loadReport s user reply).2, ev.isNotify = false)
      ∧ (∀ s reply, Reply.failed (fun r => r.error.truthy) reply = true →
        FailureShown (ExecutiveSummaryReport.loadReport s user reply).1.error (ExecutiveSummaryReport.loadReport s user reply).1.isLoading
          ∧ ∀ ev ∈ (ExecutiveSummaryReport.loadReport s user reply).2, ev.isNotify = false)
      ∧ (∀ s reply, Reply.failed (fun r => r.error.truthy) reply = true →
        FailureShown (TaxReturnReport.loadReport s user reply).1.error (TaxReturnReport.loadReport s user reply).1.isLoading
          ∧ ∀ ev ∈ (TaxReturnReport.loadReport s user reply).2, ev.isNotify = false)
      ∧ (∀ s reply, Reply.failed (fun r => r.error.truthy) reply = true →
        FailureShown (CashFlowReport.loadReport s user reply).1.error (CashFlowReport.loadReport s user reply).1.isLoading
          ∧ ∀ ev ∈ (CashFlowReport.loadReport s user reply).2, ev.isNotify = false)
      ∧ (∀ s reply, Reply.failed (fun r => !r.success.truthy) reply = true →
        FailureShown (BalanceSheetReport.loadBalanceSheetData s user reply).1.error (BalanceSheetReport.loadBalanceSheetData s user reply).1.loading
          ∧ ∀ ev ∈ (BalanceSheetReport.loadBalanceSheetData s user reply).2, ev.isNotify = false)
      ∧ (∀ s reply, Reply.failed (fun r => !r.success.truthy) reply = true →
        FailureShown (ProfitLossReport.loadProfitLossData s user reply).1.error (ProfitLossReport.loadProfitLossData s user reply).1.loading
          ∧ ∀ ev ∈ (ProfitLossReport.loadProfitLossData s user reply).2, ev.isNotify = false)
      ∧ (∀ s e, (AccountEnterpriseDashboard.loadDashboardData s (.threw e)).2.filter
          Event.isNotify = [.notify "Failed to load dashboard data" "danger"])
      ∧ (∀ s e, (AccountDashboardKanbanController.loadDashboardData s (.threw e)).2.filter
          Event.isNotify = [.notify "Error loading dashboard data" "danger"])
      ∧ (∀ s e, (MozAccountingDashboard.loadDashboardData s (.threw e)).2.filter
          Event.isNotify = [.notify "Error loading dashboard data" "danger"])
      ∧ (∀ (remote : Remote) (s : BankReconciliationWidget.State) (trace : List Event) e,
          remote.searchRead (remoteCount trace) = .threw e →
          (BankReconciliationWidget.loadBankLines remote s trace).2 =
            trace ++ [BankReconciliationWidget.searchCall s,
              .notify "Error loading bank lines" "danger"]) := by
  refine ⟨?_, ?_, ?_, ?_, ?_, ?_, ?_, ?_, ?_, ?_, ?_, ?_, ?_, ?_⟩
  · intro s reply h
    obtain ⟨v, hv, heq, hno⟩ := agedReceivable_load_failed s user reply h
    rw [heq]
    exact ⟨failureShown_of_truthy v hv, hno⟩
  · intro s reply h
    obtain ⟨v, hv, heq, hno⟩ := generalLedger_load_failed s user reply h
    rw [heq]
    exact ⟨failureShown_of_truthy v hv, hno⟩
  · intro s reply h
    obtain ⟨v, hv, heq, hno⟩ := partnerLedger_load_failed s user reply h
    rw [heq]
    exact ⟨failureShown_of_truthy v hv, hno⟩
  · intro s reply h
    obtain ⟨v, hv, heq, hno⟩ := trialBalance_load_failed s user reply h
    rw [heq]
    exact ⟨failureShown_of_truthy v hv, hno⟩
  · intro s reply h
    obtain ⟨v, hv, heq, hno⟩ := journalAudit_load_failed s user reply h
    rw [heq]
    exact ⟨failureShown_of_truthy v hv, hno⟩
  · intro s reply h
    obtain ⟨v, hv, heq, hno⟩ := executiveSummary_load_failed s user reply h
    rw [heq]
    exact ⟨failureShown_of_truthy v hv, hno⟩
  · intro s reply h
    obtain ⟨v, hv, heq, hno⟩ := taxReturn_load_failed s user reply h
    rw [heq]
    exact ⟨failureShown_of_truthy v hv, hno⟩
  · intro s reply h
    obtain ⟨v, hv, heq, hno⟩ := cashFlow_load_failed s user reply h
    rw [heq]
    exact ⟨failureShown_of_truthy v hv, hno⟩
  · intro s reply h
    obtain ⟨v, hv, heq, hno⟩ := balanceSheet_load_failed s user reply h
    rw [heq]
    exact ⟨failureShown_of_truthy v hv, hno⟩
  · intro s reply h
    obtain ⟨v, hv, heq, hno⟩ := profitLoss_load_failed s user reply h
    rw [heq]
    exact ⟨failureShown_of_truthy v hv, hno⟩
  · intro s e
    rfl
  · intro s e
    rfl
  · intro s e
    rfl
  · intro remote s trace e he
    simp [BankReconciliationWidget.loadBankLines, he, BankReconciliationWidget.searchCall,
      BankReconciliationWidget._buildDomain]

/-- A rejected call on the sample states: the report emits no toast, the widget emits one. -/
theorem load_failure_sets_error_or_notifies_witness :
    Reply.failed (fun r : AgedReceivableReport.Result => r.error.truthy)
        (.threw ⟨.str "timeout"⟩) = true
      ∧ BankReconciliationWidget.rejectingRemote.searchRead (remoteCount []) =
          .threw ⟨.str "timeout"⟩
      ∧ (∀ ev ∈ (AgedReceivableReport.loadReport AgedReceivableReport.sampleState sampleUser
          (.threw ⟨.str "timeout"⟩)).2, ev.isNotify = false)
      ∧ (BankReconciliationWidget.loadBankLines BankReconciliationWidget.rejectingRemote
          BankReconciliationWidget.sampleState []).2 =
        [] ++ [BankReconciliationWidget.searchCall BankReconciliationWidget.sampleState,
          .notify "Error loading bank lines" "danger"] :=
  ⟨rfl, rfl,
    ((load_failure_sets_error_or_notifies sampleUser).1 AgedReceivableReport.sampleState
      (.threw ⟨.str "timeout"⟩) rfl).2,
    (load_failure_sets_error_or_notifies sampleUser).2.2.2.2.2.2.2.2.2.2.2.2.2
      BankReconciliationWidget.rejectingRemote BankReconciliationWidget.sampleState []
      ⟨.str "timeout"⟩ rfl⟩

/-! ## Frame of a failed `loadReport` -/

/-- C6: if the remote call of `loadReport` of the aged-receivable, general-ledger,
partner-ledger or trial-balance report throws or returns a payload with a truthy `error`, the
final state is the initial state with only `error` and `isLoading` replaced: the loaded rows,
totals, currency symbol, unposted warning, filters and expanded set are exactly as before. -/
theorem loadReport_failure_changes_only_error_and_loading (user : UserContext) :
    (∀ s reply, Reply.failed (fun r => r.error.truthy) reply = true →
        (AgedReceivableReport.loadReport s user reply).1 =
          { s with
            error := (AgedReceivableReport.loadReport s user reply).1.error,
            isLoading := (AgedReceivableReport.loadReport s user reply).1.isLoading })
      ∧ (∀ s reply, Reply.failed (fun r => r.error.truthy) reply = true →
        (GeneralLedgerReport.loadReport s user reply).1 =
          { s with
            error := (GeneralLedgerReport.loadReport s user reply).1.error,
            isLoading := (GeneralLedgerReport.loadReport s user reply).1.isLoading })
      ∧ (∀ s reply, Reply.failed (fun r => r.error.truthy) reply = true →
        (PartnerLedgerReport.loadReport s user reply).1 =
          { s with
            error := (PartnerLedgerReport.loadReport s user reply).1.error,
            isLoading := (PartnerLedgerReport.loadReport s user reply).1.isLoading })
      ∧ (∀ s reply, Reply.failed (fun r => r.error.truthy) reply = true →
        (TrialBalanceReport.loadReport s user reply).1 =
          { s with
            error := (TrialBalanceReport.loadReport s user reply).1.error,
            isLoading := (TrialBalanceReport.loadReport s user reply).1.isLoading }) := by
  refine ⟨?_, ?_, ?_, ?_⟩
  · intro s reply h
    obtain ⟨v, _, heq, _⟩ := agedReceivable_load_failed s user reply h
    rw [heq]
  · intro s reply h
    obtain ⟨v, _, heq, _⟩ := generalLedger_load_failed s user reply h
    rw [heq]
  · intro s reply h
    obtain ⟨v, _, heq, _⟩ := partnerLedger_load_failed s user reply h
    rw [heq]
  · intro s reply h
    obtain ⟨v, _, heq, _⟩ := trialBalance_load_failed s user reply h
    rw [heq]

/-- A payload with the error `Access denied` on the sample state: only `error` and
`isLoading` differ from the sample state afterwards. -/
theorem loadReport_failure_changes_only_error_and_loading_witness :
    Reply.failed (fun r : AgedReceivableReport.Result => r.error.truthy)
        (.returned (some ⟨.str "Access denied", .arr [], .null, .null, .null, .null⟩)) = true
      ∧ (AgedReceivableReport.loadReport AgedReceivableReport.sampleState sampleUser
          (.returned (some ⟨.str "Access denied", .arr [], .null, .null, .null, .null⟩))).1 =
        { AgedReceivableReport.sampleState with
          error := (AgedReceivableReport.loadReport AgedReceivableReport.sampleState sampleUser
            (.returned (some ⟨.str "Access denied", .arr [], .null, .null, .null, .null⟩))).1.error,
          isLoading := (AgedReceivableReport.loadReport AgedReceivableReport.sampleState sampleUser
            (.returned (some ⟨.str "Access denied", .arr [], .null, .null, .null, .null⟩))).1.isLoading } :=
  ⟨rfl, (loadReport_failure_changes_only_error_and_loading sampleUser).1
    AgedReceivableReport.sampleState _ rfl⟩

/-! ## The aged-receivable request -/

/-- C7: for every filter state (and every reply), the first thing `loadReport` of the aged
receivable report does is the call of `get_aged_receivable_data` with no positional arguments
and keyword arguments with exactly the six keys `as_of_date`, `account_type`, `partner_ids`,
`period_length`, `posted_entries`, `company_id`; `partner_ids` is `null` for an empty filter
list and the list otherwise, `company_id` is `filters.company_id` when that is set (truthy) and
the first allowed company of the user context otherwise, and `based_on` is not transmitted:
changing it does not change the request. -/
theorem AgedReceivableReport.loadReport_request (s : AgedReceivableReport.State)
    (user : UserContext) (reply : Reply (Option AgedReceivableReport.Result)) :
    (AgedReceivableReport.loadReport s user reply).2.head? =
        some (.rpc
          "/web/dataset/call_kw/account.aged.receivable.report/get_aged_receivable_data"
          (.obj [("model", .str "account.aged.receivable.report"),
            ("method", .str "get_aged_receivable_data"),
            ("args", .arr []),
            ("kwargs", AgedReceivableReport.kwargs s user)]))
      ∧ (AgedReceivableReport.kwargs s user).keys =
          ["as_of_date", "account_type", "partner_ids", "period_length", "posted_entries",
            "company_id"]
      ∧ (AgedReceivableReport.kwargs s user).field "as_of_date" = s.filters.as_of_date
      ∧ (AgedReceivableReport.kwargs s user).field "account_type" = s.filters.account_type
      ∧ (s.filters.partner_ids = [] →
          (AgedReceivableReport.kwargs s user).field "partner_ids" = .null)
      ∧ (s.filters.partner_ids ≠ [] →
          (AgedReceivableReport.kwargs s user).field "partner_ids" = .arr s.filters.partner_ids)
      ∧ (AgedReceivableReport.kwargs s user).field "period_length" = s.filters.period_length
      ∧ (AgedReceivableReport.kwargs s user).field "posted_entries" =
          .bool s.filters.posted_entries
      ∧ (s.filters.company_id.truthy = true →
          (AgedReceivableReport.kwargs s user).field "company_id" = s.filters.company_id)
      ∧ (s.filters.company_id.truthy = false →
          (AgedReceivableReport.kwargs s user).field "company_id" =
            firstOf user.allowed_company_ids)
      ∧ (AgedReceivableReport.kwargs s user).field "based_on" = .undefined
      ∧ (∀ basedOn,
          (AgedReceivableReport.loadReport (AgedReceivableReport.setBasedOn s basedOn) user reply).2.head?
            = (AgedReceivableReport.loadReport s user reply).2.head?) := by
  have hhead : ∀ s' : AgedReceivableReport.State,
      (AgedReceivableReport.loadReport s' user reply).2.head? =
        some (AgedReceivableReport.request { s' with isLoading := true, error := .null } user) := by
    intro s'
    unfold AgedReceivableReport.loadReport
    cases awaitChecked AgedReceivableReport.Result.error reply <;> rfl
  refine ⟨by rw [hhead]; rfl, rfl, rfl, rfl, ?_, ?_, rfl, rfl, ?_, ?_, rfl, ?_⟩
  · intro h
    simp [AgedReceivableReport.kwargs, JsVal.field, JsVal.lookup, nonEmptyOrNull, h]
  · intro h
    have : 0 < s.filters.partner_ids.length := List.length_pos.mpr h
    simp [AgedReceivableReport.kwargs, JsVal.field, JsVal.lookup, nonEmptyOrNull, this]
  · intro h
    simp [AgedReceivableReport.kwargs, JsVal.field, JsVal.lookup, companyOf, JsVal.or, h]
  · intro h
    simp [AgedReceivableReport.kwargs, JsVal.field, JsVal.lookup, companyOf, JsVal.or, h]
  · intro basedOn
    rw [hhead, hhead]
    rfl

/-- The sample state has no partner filter and no company filter: `partner_ids` is `null` and
`company_id` is the first allowed company of the sample user. -/
theorem AgedReceivableReport.loadReport_request_witness :
    (AgedReceivableReport.sampleState.filters.partner_ids = []
        ∧ AgedReceivableReport.sampleState.filters.company_id.truthy = false)
      ∧ (AgedReceivableReport.kwargs AgedReceivableReport.sampleState sampleUser).field
          "partner_ids" = .null
      ∧ (AgedReceivableReport.kwargs AgedReceivableReport.sampleState sampleUser).field
          "company_id" = .num 1 :=
  ⟨⟨rfl, rfl⟩,
    (AgedReceivableReport.loadReport_request AgedReceivableReport.sampleState sampleUser
      (.threw ⟨.str "timeout"⟩)).2.2.2.2.1 rfl,
    (AgedReceivableReport.loadReport_request AgedReceivableReport.sampleState sampleUser
      (.threw ⟨.str "timeout"⟩)).2.2.2.2.2.2.2.2.2.1 rfl⟩

/-! ## The reconciliation widget -/

namespace BankReconciliationWidget

theorem remoteCount_append_suggestionCall (trace : List Event) (l : BankLine) :
    remoteCount (trace ++ [suggestionCall l]) = remoteCount trace + 1 := by
  simp [remoteCount, List.countP_append, suggestionCall, Event.isRemote]

theorem pending_cons_of_reconciled (l : BankLine) (rest : List BankLine)
    (h : l.reconciled.truthy = true) : pending (l :: rest) = pending rest := by
  simp [pending, h]

theorem pending_cons_of_not_reconciled (l : BankLine) (rest : List BankLine)
    (h : l.reconciled.truthy = false) : pending (l :: rest) = l :: pending rest := by
  simp [pending, h]

theorem loadSuggestionsFrom_cons_reconciled (remote : Remote) (trace : List Event)
    (l : BankLine) (rest : List BankLine) (h : l.reconciled.truthy = true) :
    loadSuggestionsFrom remote trace (l :: rest) =
      (l :: (loadSuggestionsFrom remote trace rest).1,
        (loadSuggestionsFrom remote trace rest).2.1,
        (loadSuggestionsFrom remote trace rest).2.2) := by
  rw [loadSuggestionsFrom, if_pos h]

theorem loadSuggestionsFrom_cons_threw (remote : Remote) (trace : List Event)
    (l : BankLine) (rest : List BankLine) (h : l.reconciled.truthy = false) (e : JsError)
    (he : remote.call (remoteCount trace) = .threw e) :
    loadSuggestionsFrom remote trace (l :: rest) =
      (l :: rest, trace ++ [suggestionCall l], some e) := by
  rw [loadSuggestionsFrom, if_neg (by simp [h]), he]

theorem loadSuggestionsFrom_cons_returned (remote : Remote) (trace : List Event)
    (l : BankLine) (rest : List BankLine) (h : l.reconciled.truthy = false) (v : JsVal)
    (hv : remote.call (remoteCount trace) = .returned v) :
    loadSuggestionsFrom remote trace (l :: rest) =
      ({ l with suggestions := v } ::
          (loadSuggestionsFrom remote (trace ++ [suggestionCall l]) rest).1,
        (loadSuggestionsFrom remote (trace ++ [suggestionCall l]) rest).2.1,
        (loadSuggestionsFrom remote (trace ++ [suggestionCall l]) rest).2.2) := by
  rw [loadSuggestionsFrom, if_neg (by simp [h]), hv]

theorem loadSuggestionsFrom_general (remote : Remote) :
    ∀ (lines : List BankLine) (trace : List Event),
      (∃ calls, (loadSuggestionsFrom remote trace lines).2.1 = trace ++ calls
          ∧ calls <+: (pending lines).map suggestionCall)
        ∧ (loadSuggestionsFrom remote trace lines).1.length = lines.length
        ∧ ∀ (i : Nat) (l : BankLine), lines[i]? = some l → l.reconciled.truthy = true →
            (loadSuggestionsFrom remote trace lines).1[i]? = some l := by
  intro lines
  induction lines with
  | nil =>
    intro trace
    exact ⟨⟨[], by simp [loadSuggestionsFrom], List.nil_prefix⟩, rfl, by simp⟩
  | cons l rest ih =>
    intro trace
    by_cases h : l.reconciled.truthy = true
    · rw [loadSuggestionsFrom_cons_reconciled remote trace l rest h,
        pending_cons_of_reconciled l rest h]
      obtain ⟨hcalls, hlen, hkeep⟩ := ih trace
      refine ⟨hcalls, by simp [hlen], ?_⟩
      intro i l' hi hl'
      cases i with
      | zero => simpa using hi
      | succ i =>
        have := hkeep i l' (by simpa using hi) hl'
        simpa using this
    · have h' : l.reconciled.truthy = false := by simpa using h
      rw [pending_cons_of_not_reconciled l rest h']
      cases hr : remote.call (remoteCount trace) with
      | threw e =>
        rw [loadSuggestionsFrom_cons_threw remote trace l rest h' e hr]
        refine ⟨⟨[suggestionCall l], rfl, ?_⟩, rfl, fun i l' hi _ => hi⟩
        simp only [List.map_cons]
        exact List.prefix_cons_inj _ |>.mpr List.nil_prefix
      | returned v =>
        rw [loadSuggestionsFrom_cons_returned remote trace l rest h' v hr]
        obtain ⟨⟨calls, hcalls, hpre⟩, hlen, hkeep⟩ := ih (trace ++ [suggestionCall l])
        refine ⟨⟨suggestionCall l :: calls, ?_, ?_⟩, by simp [hlen], ?_⟩
        · simp only [hcalls, List.append_assoc, List.singleton_append]
        · simp only [List.map_cons]
          exact List.prefix_cons_inj _ |>.mpr hpre
        · intro i l' hi hl'
          cases i with
          | zero =>
            have : l = l' := by simpa using hi
            rw [this] at h'
            rw [h'] at hl'
            exact absurd hl' (by decide)
          | succ i =>
        have := hkeep i l' (by simpa using hi) hl'
        simpa using this

theorem loadSuggestionsFrom_of_returning (remote : Remote)
    (hret : ∀ n, ∃ v, remote.call n = .returned v) :
    ∀ (lines : List BankLine) (trace : List Event),
      (loadSuggestionsFrom remote trace lines).2.2 = none
        ∧ (loadSuggestionsFrom remote trace lines).2.1 =
            trace ++ (pending lines).map suggestionCall
        ∧ ∀ (pre : List BankLine) (l : BankLine) (post : List BankLine),
            lines = pre ++ l :: post → l.reconciled.truthy = false →
            ∃ v, remote.call (remoteCount trace + (pending pre).length) = .returned v
              ∧ (loadSuggestionsFrom remote trace lines).1[pre.length]? =
                  some { l with suggestions := v } := by
  intro lines
  induction lines with
  | nil =>
    intro trace
    refine ⟨rfl, by simp [loadSuggestionsFrom, pending], ?_⟩
    intro pre l post h
    simp at h
  | cons x rest ih =>
    intro trace
    by_cases h : x.reconciled.truthy = true
    · rw [loadSuggestionsFrom_cons_reconciled remote trace x rest h,
        pending_cons_of_reconciled x rest h]
      obtain ⟨hnone, htrace, hpoint⟩ := ih trace
      refine ⟨hnone, htrace, ?_⟩
      intro pre l post hsplit hl
      cases pre with
      | nil =>
        simp only [List.nil_append, List.cons.injEq] at hsplit
        rw [hsplit.1, hl] at h
        exact absurd h (by decide)
      | cons p pre =>
        simp only [List.cons_append, List.cons.injEq] at hsplit
        obtain ⟨v, hv, hget⟩ := hpoint pre l post hsplit.2 hl
        refine ⟨v, ?_, by simpa using hget⟩
        rw [← hsplit.1, pending_cons_of_reconciled x pre h]
        exact hv
    · have h' : x.reconciled.truthy = false := by simpa using h
      obtain ⟨v, hv⟩ := hret (remoteCount trace)
      rw [loadSuggestionsFrom_cons_returned remote trace x rest h' v hv,
        pending_cons_of_not_reconciled x rest h']
      obtain ⟨hnone, htrace, hpoint⟩ := ih (trace ++ [suggestionCall x])
      refine ⟨hnone, ?_, ?_⟩
      · simp only [htrace, List.map_cons, List.append_assoc, List.singleton_append]
      · intro pre l post hsplit hl
        cases pre with
        | nil =>
          simp only [List.nil_append, List.cons.injEq] at hsplit
          refine ⟨v, by simpa [pending] using hv, ?_⟩
          simp [hsplit.1]
        | cons p pre =>
          simp only [List.cons_append, List.cons.injEq] at hsplit
          obtain ⟨w, hw, hget⟩ := hpoint pre l post hsplit.2 hl
          refine ⟨w, ?_, by simpa using hget⟩
          rw [← hsplit.1, pending_cons_of_not_reconciled x pre h']
          rw [remoteCount_append_suggestionCall] at hw
          simpa [Nat.add_assoc, Nat.add_comm 1] using hw

theorem suggestionCall_not_autoReconcile (l : BankLine) :
    (suggestionCall l).isCallOf "auto_reconcile" = false := by
  simp [suggestionCall, Event.isCallOf]

theorem loadBankLines_added (remote : Remote) (s : State) (trace : List Event) :
    ∃ rest, (loadBankLines remote s trace).2 =
        trace ++ searchCall { s with loading := true } :: rest
      ∧ ∀ ev ∈ rest, ev.isCallOf "auto_reconcile" = false := by
  unfold loadBankLines
  cases remote.searchRead (remoteCount trace) with
  | threw e =>
    refine ⟨[.notify "Error loading bank lines" "danger"], by simp, ?_⟩
    intro ev hev
    simp only [List.mem_singleton] at hev
    subst hev
    rfl
  | returned lines =>
    simp only [loadSuggestions]
    obtain ⟨⟨calls, hcalls, hpre⟩, -, -⟩ :=
      loadSuggestionsFrom_general remote lines (trace ++ [searchCall { s with loading := true }])
    have hno : ∀ ev ∈ calls, ev.isCallOf "auto_reconcile" = false := by
      intro ev hev
      obtain ⟨l, -, hl⟩ := List.mem_map.mp (hpre.subset hev)
      rw [← hl]
      exact suggestionCall_not_autoReconcile l
    generalize loadSuggestionsFrom remote (trace ++ [searchCall { s with loading := true }]) lines
      = r at hcalls
    obtain ⟨lines2, trace2, thrown⟩ := r
    simp only at hcalls
    cases thrown with
    | none =>
      refine ⟨calls, ?_, hno⟩
      simp only [hcalls, List.append_assoc, List.singleton_append]
    | some e =>
      refine ⟨calls ++ [.notify "Error loading bank lines" "danger"], ?_, ?_⟩
      · simp only [hcalls, List.append_assoc, List.singleton_append, List.cons_append,
          List.nil_append]
      · intro ev hev
        rcases List.mem_append.mp hev with h | h
        · exact hno ev h
        · simp only [List.mem_singleton] at h
          subst h
          rfl

theorem autoReconcile_added (remote : Remote) (s : State) (trace : List Event)
    (h : s.selectedLines.items ≠ []) :
    ∃ rest, (autoReconcile remote s trace).2 =
        trace ++ autoReconcileCall s.selectedLines.items :: rest
      ∧ ∀ ev ∈ rest, ev.isCallOf "auto_reconcile" = false := by
  have hlen : ¬ s.selectedLines.toArray.length = 0 := by
    simpa [JsSet.toArray, List.length_eq_zero] using h
  unfold autoReconcile
  simp only [if_neg hlen]
  have hfail : ∀ ev ∈ [Event.notify "Reconciliation failed" "danger"],
      ev.isCallOf "auto_reconcile" = false := by
    intro ev hev
    simp only [List.mem_singleton] at hev
    subst hev
    rfl
  cases remote.call (remoteCount trace) with
  | threw e => exact ⟨_, by simp [JsSet.toArray], hfail⟩
  | returned result =>
    simp only
    cases result.get "count" with
    | error e => exact ⟨_, by simp [JsSet.toArray], hfail⟩
    | ok count =>
      simp only
      obtain ⟨rest, hrest, hno⟩ := loadBankLines_added remote { s with loading := true }
        (trace ++ [autoReconcileCall s.selectedLines.toArray] ++
          [.notify ("Successfully reconciled " ++ count.toStr ++ " lines") "success"])
      refine ⟨.notify ("Successfully reconciled " ++ count.toStr ++ " lines") "success" ::
        searchCall { s with loading := true } :: rest, ?_, ?_⟩
      · rw [hrest]
        simp [JsSet.toArray]
      · intro ev hev
        simp only [List.mem_cons] at hev
        rcases hev with rfl | rfl | hev
        · rfl
        · rfl
        · exact hno ev hev

end BankReconciliationWidget

/-- C8: `autoReconcile` invokes the remote procedure `auto_reconcile` if and only if
`selectedLines` is non-empty, and then exactly once, as the first thing it does, with the
single argument `Array.from(selectedLines)`: the ids of the set in insertion order, each once.
With an empty selection the only effect is one warning notification: no remote call is issued
and the state (`loading`, `bankLines`, `selectedLines` and all other fields) is unchanged. -/
theorem BankReconciliationWidget.autoReconcile_remote_call (remote : Remote)
    (s : BankReconciliationWidget.State) (trace : List Event) :
    ∃ added, (BankReconciliationWidget.autoReconcile remote s trace).2 = trace ++ added
      ∧ ((∃ ev ∈ added, ev.isCallOf "auto_reconcile" = true) ↔ s.selectedLines.items ≠ [])
      ∧ (s.selectedLines.items ≠ [] →
          added.head? = some (.ormCall "moz.bank.reconciliation" "auto_reconcile"
              (.arr [.arr (s.selectedLines.items.map Key.toJs)]) .undefined)
            ∧ added.filter (Event.isCallOf "auto_reconcile") =
              [.ormCall "moz.bank.reconciliation" "auto_reconcile"
                (.arr [.arr (s.selectedLines.items.map Key.toJs)]) .undefined]
            ∧ s.selectedLines.items.Nodup)
      ∧ (s.selectedLines.items = [] →
          (BankReconciliationWidget.autoReconcile remote s trace).1 = s
            ∧ added = [.notify "Please select lines to reconcile" "warning"]) := by
  by_cases h : s.selectedLines.items = []
  · have hres : BankReconciliationWidget.autoReconcile remote s trace =
        (s, trace ++ [.notify "Please select lines to reconcile" "warning"]) := by
      simp [BankReconciliationWidget.autoReconcile, JsSet.toArray, h]
    refine ⟨[.notify "Please select lines to reconcile" "warning"], by rw [hres], ?_, ?_, ?_⟩
    · constructor
      · rintro ⟨ev, hev, hcall⟩
        simp only [List.mem_singleton] at hev
        subst hev
        exact absurd hcall (by decide)
      · intro hne
        exact absurd h hne
    · intro hne
      exact absurd h hne
    · intro _
      exact ⟨by rw [hres], rfl⟩
  · obtain ⟨rest, hrest, hno⟩ := BankReconciliationWidget.autoReconcile_added remote s trace h
    refine ⟨_, hrest, ?_, ?_, ?_⟩
    · constructor
      · intro _
        exact h
      · intro _
        exact ⟨_, List.mem_cons_self _ _, rfl⟩
    · intro _
      refine ⟨rfl, ?_, s.selectedLines.nodup⟩
      rw [List.filter_cons_of_pos (by rfl), List.filter_eq_nil_iff.mpr]
      · rfl
      · intro ev hev
        simp [hno ev hev]
    · intro he
      exact absurd he h

/-- The sample selection holds the ids 9 and 7, in this order: they are what is passed. -/
theorem BankReconciliationWidget.autoReconcile_remote_call_witness :
    BankReconciliationWidget.sampleState.selectedLines.items ≠ []
      ∧ ∃ added,
          (BankReconciliationWidget.autoReconcile BankReconciliationWidget.answeringRemote
            BankReconciliationWidget.sampleState []).2 = [] ++ added
          ∧ added.head? = some (.ormCall "moz.bank.reconciliation" "auto_reconcile"
              (.arr [.arr [.num 9, .num 7]]) .undefined) := by
  refine ⟨by decide, ?_⟩
  obtain ⟨added, hadd, _, hcall, _⟩ :=
    BankReconciliationWidget.autoReconcile_remote_call
      BankReconciliationWidget.answeringRemote BankReconciliationWidget.sampleState []
  exact ⟨added, hadd, (hcall (by decide)).1⟩

/-- C9: `_buildDomain` returns, in this order and nothing else, the leaf
`["reconciled", "=", false]` exactly when `showReconciled` is falsy, `["date", ">=", dateFrom]`
exactly when `dateFrom` is set (truthy), `["date", "<=", dateTo]` exactly when `dateTo` is set
and `["partner_id", "=", partner]` exactly when `partner` is set. With the default filters the
domain is exactly `[["reconciled", "=", false]]`, and `loadBankLines` passes the domain to the
`searchRead` on `moz.bank.statement.line` with which it starts. -/
theorem BankReconciliationWidget.buildDomain_leaves (s : BankReconciliationWidget.State) :
    BankReconciliationWidget._buildDomain s =
        ([(!s.filters.showReconciled.truthy, JsVal.arr [.str "reconciled", .str "=", .bool false]),
          (s.filters.dateFrom.truthy, JsVal.arr [.str "date", .str ">=", s.filters.dateFrom]),
          (s.filters.dateTo.truthy, JsVal.arr [.str "date", .str "<=", s.filters.dateTo]),
          (s.filters.partner.truthy, JsVal.arr [.str "partner_id", .str "=", s.filters.partner])
          ].filter (fun p => p.1)).map (fun p => p.2)
      ∧ BankReconciliationWidget._buildDomain
          { s with filters := BankReconciliationWidget.defaultFilters } =
          [.arr [.str "reconciled", .str "=", .bool false]]
      ∧ BankReconciliationWidget._buildDomain BankReconciliationWidget.initialState =
          [.arr [.str "reconciled", .str "=", .bool false]]
      ∧ ∀ (remote : Remote) (trace : List Event), ∃ rest,
          (BankReconciliationWidget.loadBankLines remote s trace).2 =
            trace ++ Event.searchRead "moz.bank.statement.line"
              (.arr (BankReconciliationWidget._buildDomain s))
              (.arr [.str "date", .str "name", .str "amount", .str "partner_id",
                .str "reconciled"])
              (.obj [("limit", .num 50), ("offset", .num ((s.currentPage - 1) * 50))]) :: rest := by
  refine ⟨?_, rfl, rfl, ?_⟩
  · unfold BankReconciliationWidget._buildDomain BankReconciliationWidget.leaf
    cases s.filters.showReconciled.truthy <;> cases s.filters.dateFrom.truthy <;>
      cases s.filters.dateTo.truthy <;> cases s.filters.partner.truthy <;> rfl
  · intro remote trace
    obtain ⟨rest, hrest, -⟩ := BankReconciliationWidget.loadBankLines_added remote s trace
    exact ⟨rest, hrest⟩

/-- C10 (amended): `loadSuggestions` walks the bank lines in list order and calls
`get_reconciliation_suggestions` with the single argument `line.id` for the lines whose
`reconciled` field is falsy; lines whose `reconciled` field is truthy receive no call and are
left unchanged, and nothing but `bankLines` changes in the state. When every call returns,
exactly one call is issued for each such line, in list order, and the value returned by the
call is stored in the `suggestions` field of its line. A call that throws ends the loop: in
general the calls issued are an initial segment of those calls. -/
theorem BankReconciliationWidget.loadSuggestions_calls (remote : Remote)
    (s : BankReconciliationWidget.State) (trace : List Event) :
    (∃ calls, (BankReconciliationWidget.loadSuggestions remote s trace).2.1 = trace ++ calls
        ∧ calls <+: (BankReconciliationWidget.pending s.bankLines).map
            (fun l => Event.ormCall "moz.bank.reconciliation" "get_reconciliation_suggestions"
              (.arr [l.id.toJs]) .undefined))
      ∧ (BankReconciliationWidget.loadSuggestions remote s trace).1 =
          { s with bankLines := (BankReconciliationWidget.loadSuggestions remote s trace).1.bankLines }
      ∧ (BankReconciliationWidget.loadSuggestions remote s trace).1.bankLines.length =
          s.bankLines.length
      ∧ (∀ (i : Nat) (l : BankLine), s.bankLines[i]? = some l → l.reconciled.truthy = true →
          (BankReconciliationWidget.loadSuggestions remote s trace).1.bankLines[i]? = some l)
      ∧ ((∀ n, ∃ v, remote.call n = .returned v) →
          (BankReconciliationWidget.loadSuggestions remote s trace).2.2 = none
            ∧ (BankReconciliationWidget.loadSuggestions remote s trace).2.1 =
                trace ++ (BankReconciliationWidget.pending s.bankLines).map
                  (fun l => Event.ormCall "moz.bank.reconciliation"
                    "get_reconciliation_suggestions" (.arr [l.id.toJs]) .undefined)
            ∧ ∀ (pre : List BankLine) (l : BankLine) (post : List BankLine),
                s.bankLines = pre ++ l :: post → l.reconciled.truthy = false →
                ∃ v, remote.call
                      (remoteCount trace + (BankReconciliationWidget.pending pre).length) =
                    .returned v
                  ∧ (BankReconciliationWidget.loadSuggestions remote s trace).1.bankLines[pre.length]?
                      = some { l with suggestions := v }) := by
  obtain ⟨hcalls, hlen, hkeep⟩ :=
    BankReconciliationWidget.loadSuggestionsFrom_general remote s.bankLines trace
  refine ⟨hcalls, rfl, hlen, hkeep, ?_⟩
  intro hret
  exact BankReconciliationWidget.loadSuggestionsFrom_of_returning remote hret s.bankLines trace

/-- On a backend that answers every call, `loadSuggestions` on the sample lines does not throw
and calls once for each unreconciled line. -/
theorem BankReconciliationWidget.loadSuggestions_calls_witness :
    (∀ n, ∃ v, BankReconciliationWidget.answeringRemote.call n = .returned v)
      ∧ (BankReconciliationWidget.loadSuggestions BankReconciliationWidget.answeringRemote
          BankReconciliationWidget.sampleState []).2.2 = none
      ∧ (BankReconciliationWidget.loadSuggestions BankReconciliationWidget.answeringRemote
          BankReconciliationWidget.sampleState []).2.1 =
        [] ++ (BankReconciliationWidget.pending BankReconciliationWidget.sampleState.bankLines).map
          (fun l => Event.ormCall "moz.bank.reconciliation" "get_reconciliation_suggestions"
            (.arr [l.id.toJs]) .undefined) :=
  ⟨fun _ => ⟨_, rfl⟩,
    ((BankReconciliationWidget.loadSuggestions_calls BankReconciliationWidget.answeringRemote
      BankReconciliationWidget.sampleState []).2.2.2.2 (fun _ => ⟨_, rfl⟩)).1,
    ((BankReconciliationWidget.loadSuggestions_calls BankReconciliationWidget.answeringRemote
      BankReconciliationWidget.sampleState []).2.2.2.2 (fun _ => ⟨_, rfl⟩)).2.1⟩

/-- C10, as stated, fails when a call throws: on the sample lines (ids 7 and 9 unreconciled)
and a backend that rejects the first call, `loadSuggestions` issues the call for line 7 only,
throws, and leaves line 9 without a call and every line without suggestions. -/
theorem BankReconciliationWidget.loadSuggestions_stops_at_throw :
    (BankReconciliationWidget.loadSuggestions BankReconciliationWidget.rejectingRemote
        BankReconciliationWidget.sampleState []).2.1 =
        [.ormCall "moz.bank.reconciliation" "get_reconciliation_suggestions"
          (.arr [.num 7]) .undefined]
      ∧ (BankReconciliationWidget.pending BankReconciliationWidget.sampleState.bankLines).map
          (fun l => l.id) = [.num 7, .num 9]
      ∧ (BankReconciliationWidget.loadSuggestions BankReconciliationWidget.rejectingRemote
          BankReconciliationWidget.sampleState []).2.1 ≠
        (BankReconciliationWidget.pending BankReconciliationWidget.sampleState.bankLines).map
          (fun l => Event.ormCall "moz.bank.reconciliation" "get_reconciliation_suggestions"
            (.arr [l.id.toJs]) .undefined)
      ∧ (BankReconciliationWidget.loadSuggestions BankReconciliationWidget.rejectingRemote
          BankReconciliationWidget.sampleState []).1.bankLines =
        BankReconciliationWidget.sampleLines := by
  refine ⟨rfl, rfl, ?_, rfl⟩
  intro h
  exact absurd (congrArg List.length h) (by decide)

/-! ## Identifier sets -/

theorem JsSet.has_add (s : JsSet) (x y : Key) :
    (s.add x).has y = (s.has y || decide (y = x)) := by
  unfold JsSet.add JsSet.has
  by_cases hx : x ∈ s.items
  · rw [dif_pos hx]
    by_cases hy : y = x
    · subst hy
      simp [hx]
    · simp [hy]
  · rw [dif_neg hx]
    simp [List.mem_append]

theorem JsSet.has_delete (s : JsSet) (x y : Key) :
    (s.delete x).has y = (s.has y && !decide (y = x)) := by
  unfold JsSet.delete JsSet.has
  by_cases hy : y = x
  · subst hy
    simp [s.nodup.mem_erase_iff]
  · simp [s.nodup.mem_erase_iff, hy]

/-- The effect of `if (set.has(x)) set.delete(x) else set.add(x)` on a set. -/
theorem JsSet.toggled_spec (s : JsSet) (x : Key) :
    (s.toggled x).has x = !s.has x
      ∧ (∀ y, y ≠ x → (s.toggled x).has y = s.has y)
      ∧ (∀ y, ((s.toggled x).toggled x).has y = s.has y)
      ∧ ((s.toggled x).toggled x).items.Perm s.items := by
  generalize ht' : s.toggled x = t
  generalize hu' : t.toggled x = u
  subst hu'
  subst ht'
  set t := s.toggled x with htdef
  set u := t.toggled x with hudef
  unfold JsSet.toggled at htdef hudef
  have ht : ∀ y, t.has y = if y = x then !s.has x else s.has y := by
    intro y
    rw [htdef]
    by_cases hx : s.has x = true
    · rw [if_pos hx, JsSet.has_delete]
      by_cases hy : y = x
      · subst hy; simp [hx]
      · simp [hy]
    · rw [if_neg hx, JsSet.has_add]
      by_cases hy : y = x
      · subst hy
        simp
        exact Bool.eq_false_iff.mpr hx
      · simp [hy]
  refine ⟨by simpa using ht x, fun y hy => by simpa [hy] using ht y, ?_, ?_⟩
  · intro y
    rw [hudef]
    by_cases hx : s.has x = true
    · have htx : ¬ t.has x = true := by simpa [hx] using ht x
      rw [if_neg htx, JsSet.has_add, ht y]
      by_cases hy : y = x
      · subst hy; simp [hx]
      · simp [hy]
    · have htx : t.has x = true := by simpa [hx] using ht x
      rw [if_pos htx, JsSet.has_delete, ht y]
      by_cases hy : y = x
      · subst hy
        have h0 : s.has y = false := Bool.eq_false_iff.mpr hx
        simp
        exact h0
      · simp [hy]
  · by_cases hx : s.has x = true
    · have hmem : x ∈ s.items := by simpa [JsSet.has] using hx
      have hnot : x ∉ s.items.erase x := fun h => by
        have := (s.nodup.mem_erase_iff).mp h
        exact this.1 rfl
      rw [hudef]
      have htx : ¬ t.has x = true := by simpa [hx] using ht x
      rw [if_neg htx]
      rw [htdef, if_pos hx]
      unfold JsSet.add JsSet.delete
      simp only [dif_neg hnot]
      exact (List.perm_append_comm.trans (List.perm_cons_erase hmem).symm)
    · have hmem : x ∉ s.items := by simpa [JsSet.has] using hx
      have htx : t.has x = true := by simpa [hx] using ht x
      rw [hudef]
      rw [if_pos htx]
      rw [htdef, if_neg hx]
      unfold JsSet.add JsSet.delete
      simp only [dif_neg hmem]
      rw [List.erase_append_right _ hmem]
      simp

/-- C11: the set-toggling operations `toggleSelection`, `togglePartner` and `toggleAccount`
flip the membership of the given id in their set, leave the membership of every other id
unchanged, and applied twice with the same id restore the original set: the same ids are
members again (the insertion order is that of the original set up to a permutation). -/
theorem toggle_flips_membership (x : Key) :
    (∀ s : BankReconciliationWidget.State,
        (BankReconciliationWidget.toggleSelection s x).selectedLines.has x = !s.selectedLines.has x
          ∧ (∀ y, y ≠ x →
              (BankReconciliationWidget.toggleSelection s x).selectedLines.has y =
                s.selectedLines.has y)
          ∧ (∀ y, (BankReconciliationWidget.toggleSelection
                (BankReconciliationWidget.toggleSelection s x) x).selectedLines.has y =
              s.selectedLines.has y)
          ∧ (BankReconciliationWidget.toggleSelection
                (BankReconciliationWidget.toggleSelection s x) x).selectedLines.items.Perm
              s.selectedLines.items)
      ∧ (∀ s : AgedReceivableReport.State,
        (AgedReceivableReport.togglePartner s x).expandedPartners.has x =
            !s.expandedPartners.has x
          ∧ (∀ y, y ≠ x →
              (AgedReceivableReport.togglePartner s x).expandedPartners.has y =
                s.expandedPartners.has y)
          ∧ (∀ y, (AgedReceivableReport.togglePartner
                (AgedReceivableReport.togglePartner s x) x).expandedPartners.has y =
              s.expandedPartners.has y)
          ∧ (AgedReceivableReport.togglePartner
                (AgedReceivableReport.togglePartner s x) x).expandedPartners.items.Perm
              s.expandedPartners.items)
      ∧ (∀ s : GeneralLedgerReport.State,
        (GeneralLedgerReport.toggleAccount s x).expandedAccounts.has x =
            !s.expandedAccounts.has x
          ∧ (∀ y, y ≠ x →
              (GeneralLedgerReport.toggleAccount s x).expandedAccounts.has y =
                s.expandedAccounts.has y)
          ∧ (∀ y, (GeneralLedgerReport.toggleAccount
                (GeneralLedgerReport.toggleAccount s x) x).expandedAccounts.has y =
              s.expandedAccounts.has y)
          ∧ (GeneralLedgerReport.toggleAccount
                (GeneralLedgerReport.toggleAccount s x) x).expandedAccounts.items.Perm
              s.expandedAccounts.items) := by
  have hsel : ∀ s : BankReconciliationWidget.State,
      (BankReconciliationWidget.toggleSelection s x).selectedLines =
        s.selectedLines.toggled x := by
    intro s
    unfold BankReconciliationWidget.toggleSelection JsSet.toggled
    split <;> rfl
  have hpar : ∀ s : AgedReceivableReport.State,
      (AgedReceivableReport.togglePartner s x).expandedPartners =
        s.expandedPartners.toggled x := by
    intro s
    unfold AgedReceivableReport.togglePartner JsSet.toggled
    split <;> rfl
  have hacc : ∀ s : GeneralLedgerReport.State,
      (GeneralLedgerReport.toggleAccount s x).expandedAccounts =
        s.expandedAccounts.toggled x := by
    intro s
    unfold GeneralLedgerReport.toggleAccount JsSet.toggled
    split <;> rfl
  refine ⟨fun s => ?_, fun s => ?_, fun s => ?_⟩
  · simp only [hsel]
    exact JsSet.toggled_spec s.selectedLines x
  · simp only [hpar]
    exact JsSet.toggled_spec s.expandedPartners x
  · simp only [hacc]
    exact JsSet.toggled_spec s.expandedAccounts x

/-! ## The journal card action -/

theorem JsVal.isStr_iff (v : JsVal) (s : String) : v.isStr s = true ↔ v = .str s := by
  cases v <;> simp [JsVal.isStr]

theorem JsVal.isStr_eq_false (v : JsVal) (s : String) (h : v ≠ .str s) : v.isStr s = false := by
  cases hb : v.isStr s
  · rfl
  · exact absurd ((JsVal.isStr_iff v s).mp hb) h

theorem journalType_cases (journalType : JsVal) :
    journalType = .str "sale" ∨ journalType = .str "purchase" ∨ journalType = .str "bank"
      ∨ journalType = .str "cash"
      ∨ (journalType.isStr "sale" = false ∧ journalType.isStr "purchase" = false
        ∧ journalType.isStr "bank" = false ∧ journalType.isStr "cash" = false) := by
  by_cases h1 : journalType = .str "sale"
  · exact Or.inl h1
  by_cases h2 : journalType = .str "purchase"
  · exact Or.inr (Or.inl h2)
  by_cases h3 : journalType = .str "bank"
  · exact Or.inr (Or.inr (Or.inl h3))
  by_cases h4 : journalType = .str "cash"
  · exact Or.inr (Or.inr (Or.inr (Or.inl h4)))
  exact Or.inr (Or.inr (Or.inr (Or.inr ⟨JsVal.isStr_eq_false _ _ h1, JsVal.isStr_eq_false _ _ h2,
    JsVal.isStr_eq_false _ _ h3, JsVal.isStr_eq_false _ _ h4⟩)))

/-- C15: for every journal id and journal type, `onJournalCardClick` dispatches one window
action whose domain contains `["journal_id", "=", journalId]` and whose context has
`default_journal_id = journalId`. The domain restricts `move_type` to `out_invoice`/`out_refund`
exactly when the type is `sale` and to `in_invoice`/`in_refund` exactly when it is `purchase`.
The action is named `Customer Invoices`, `Vendor Bills`, `Bank Transactions`,
`Cash Transactions` for `sale`, `purchase`, `bank`, `cash`, and `Journal Entries` for every
other type. -/
theorem AccountDashboardKanbanController.onJournalCardClick_action (journalId journalType : JsVal) :
    ∃ action domain,
      AccountDashboardKanbanController.onJournalCardClick journalId journalType =
          [.doAction action]
        ∧ action.field "domain" = .arr domain
        ∧ JsVal.arr [.str "journal_id", .str "=", journalId] ∈ domain
        ∧ (action.field "context").field "default_journal_id" = journalId
        ∧ (JsVal.arr [.str "move_type", .str "in", .arr [.str "out_invoice", .str "out_refund"]]
            ∈ domain ↔ journalType = .str "sale")
        ∧ (JsVal.arr [.str "move_type", .str "in", .arr [.str "in_invoice", .str "in_refund"]]
            ∈ domain ↔ journalType = .str "purchase")
        ∧ (journalType = .str "sale" → action.field "name" = .str "Customer Invoices")
        ∧ (journalType = .str "purchase" → action.field "name" = .str "Vendor Bills")
        ∧ (journalType = .str "bank" → action.field "name" = .str "Bank Transactions")
        ∧ (journalType = .str "cash" → action.field "name" = .str "Cash Transactions")
        ∧ (journalType ≠ .str "sale" → journalType ≠ .str "purchase" →
            journalType ≠ .str "bank" → journalType ≠ .str "cash" →
            action.field "name" = .str "Journal Entries") := by
  rcases journalType_cases journalType with h | h | h | h | ⟨h1, h2, h3, h4⟩
  · subst h
    exact ⟨_, _, rfl, rfl, by simp, rfl, by simp, by simp, fun _ => rfl, by simp, by simp,
      by simp, by simp⟩
  · subst h
    exact ⟨_, _, rfl, rfl, by simp, rfl, by simp, by simp, by simp, fun _ => rfl, by simp,
      by simp, by simp⟩
  · subst h
    exact ⟨_, _, rfl, rfl, by simp, rfl, by simp, by simp, by simp, by simp, fun _ => rfl,
      by simp, by simp⟩
  · subst h
    exact ⟨_, _, rfl, rfl, by simp, rfl, by simp, by simp, by simp, by simp, by simp,
      fun _ => rfl, by simp⟩
  · have ne1 : journalType ≠ .str "sale" := fun h => by
      rw [(JsVal.isStr_iff _ _).mpr h] at h1; exact absurd h1 (by decide)
    have ne2 : journalType ≠ .str "purchase" := fun h => by
      rw [(JsVal.isStr_iff _ _).mpr h] at h2; exact absurd h2 (by decide)
    have ne3 : journalType ≠ .str "bank" := fun h => by
      rw [(JsVal.isStr_iff _ _).mpr h] at h3; exact absurd h3 (by decide)
    have ne4 : journalType ≠ .str "cash" := fun h => by
      rw [(JsVal.isStr_iff _ _).mpr h] at h4; exact absurd h4 (by decide)
    refine ⟨AccountDashboardKanbanController.windowAction (.str "Journal Entries")
        [.arr [.str "journal_id", .str "=", journalId]] [("default_journal_id", journalId)],
      [.arr [.str "journal_id", .str "=", journalId]], ?_, rfl, by simp, rfl, ?_, ?_,
      fun h => absurd h ne1, fun h => absurd h ne2, fun h => absurd h ne3,
      fun h => absurd h ne4, fun _ _ _ _ => rfl⟩
    · simp [AccountDashboardKanbanController.onJournalCardClick,
        AccountDashboardKanbanController.journalCardAction, h1, h2, h3, h4]
    · simp [ne1]
    · simp [ne2]
/-- The action for a bank journal with id 5 is named `Bank Transactions`. -/
theorem AccountDashboardKanbanController.onJournalCardClick_action_witness :
    ∃ action,
      AccountDashboardKanbanController.onJournalCardClick (.num 5) (.str "bank") =
          [.doAction action]
        ∧ action.field "name" = .str "Bank Transactions" := by
  obtain ⟨action, domain, h, -, -, -, -, -, -, -, hbank, -, -⟩ :=
    AccountDashboardKanbanController.onJournalCardClick_action (.num 5) (.str "bank")
  exact ⟨action, h, hbank rfl⟩

/-! ## Outcomes of `autoReconcile` and `clearFilters` -/

namespace BankReconciliationWidget

theorem loadBankLines_frame (remote : Remote) (s : State) (trace : List Event) :
    (loadBankLines remote s trace).1 =
      { s with bankLines := (loadBankLines remote s trace).1.bankLines, loading := false } := by
  unfold loadBankLines
  cases remote.searchRead (remoteCount trace) with
  | threw e => rfl
  | returned lines =>
    simp only [loadSuggestions]
    generalize loadSuggestionsFrom remote _ lines = r
    obtain ⟨lines2, trace2, thrown⟩ := r
    cases thrown <;> rfl

theorem get_count_of_record (result : JsVal) (h1 : result ≠ .null) (h2 : result ≠ .undefined) :
    ∃ count, result.get "count" = .ok count := by
  cases result with
  | undefined => exact absurd rfl h2
  | null => exact absurd rfl h1
  | obj fields => exact ⟨_, rfl⟩
  | _ => exact ⟨_, rfl⟩

end BankReconciliationWidget

/-- C17: for every non-empty selection, when the remote `auto_reconcile` call returns a result
record, `autoReconcile` completes with `selectedLines` empty and `loading` false; when the
call throws, only `loading` is (re)set to false, so `selectedLines` and the bank lines are
unchanged, and after the call the only event is the `Reconciliation failed` notification of
type `danger`: the bank lines are not reloaded. -/
theorem BankReconciliationWidget.autoReconcile_outcome (remote : Remote)
    (s : BankReconciliationWidget.State) (trace : List Event)
    (hsel : s.selectedLines.items ≠ []) :
    (∀ result, remote.call (remoteCount trace) = .returned result →
        result ≠ .null → result ≠ .undefined →
        (BankReconciliationWidget.autoReconcile remote s trace).1.selectedLines.items = []
          ∧ (BankReconciliationWidget.autoReconcile remote s trace).1.loading = false)
      ∧ (∀ e, remote.call (remoteCount trace) = .threw e →
        (BankReconciliationWidget.autoReconcile remote s trace).1 = { s with loading := false }
          ∧ (BankReconciliationWidget.autoReconcile remote s trace).2 =
            trace ++ [.ormCall "moz.bank.reconciliation" "auto_reconcile"
                (.arr [.arr (s.selectedLines.items.map Key.toJs)]) .undefined,
              .notify "Reconciliation failed" "danger"]) := by
  have hlen : ¬ s.selectedLines.toArray.length = 0 := by
    simpa [JsSet.toArray, List.length_eq_zero] using hsel
  constructor
  · intro result hcall h1 h2
    obtain ⟨count, hcount⟩ := BankReconciliationWidget.get_count_of_record result h1 h2
    unfold BankReconciliationWidget.autoReconcile
    simp only [if_neg hlen, hcall, hcount]
    constructor <;> first | rfl | trivial
  · intro e hcall
    unfold BankReconciliationWidget.autoReconcile
    simp only [if_neg hlen, hcall]
    constructor
    · first | rfl | trivial
    · simp [BankReconciliationWidget.autoReconcileCall, JsSet.toArray]

/-- On the sample selection and a backend that answers, the selection is empty afterwards. -/
theorem BankReconciliationWidget.autoReconcile_outcome_witness :
    BankReconciliationWidget.sampleState.selectedLines.items ≠ []
      ∧ (BankReconciliationWidget.autoReconcile BankReconciliationWidget.answeringRemote
          BankReconciliationWidget.sampleState []).1.selectedLines.items = []
      ∧ (BankReconciliationWidget.autoReconcile BankReconciliationWidget.rejectingRemote
          BankReconciliationWidget.sampleState []).1 =
        { BankReconciliationWidget.sampleState with loading := false } :=
  ⟨by decide,
    ((BankReconciliationWidget.autoReconcile_outcome BankReconciliationWidget.answeringRemote
      BankReconciliationWidget.sampleState [] (by decide)).1 _ rfl (by simp) (by simp)).1,
    ((BankReconciliationWidget.autoReconcile_outcome BankReconciliationWidget.rejectingRemote
      BankReconciliationWidget.sampleState [] (by decide)).2 _ rfl).1⟩

/-- C18: for every prior state, `clearFilters` sets every filter to its default (`dateFrom`,
`dateTo`, `amountMin`, `amountMax`, `partner` null and `showReconciled` false) and
`currentPage` to 1; the reload it triggers starts with the `searchRead` with domain exactly
`[["reconciled", "=", false]]`, limit 50 and offset 0; `selectedLines` is left unchanged. -/
theorem BankReconciliationWidget.clearFilters_resets (remote : Remote)
    (s : BankReconciliationWidget.State) (trace : List Event) :
    (BankReconciliationWidget.clearFilters remote s trace).1.filters =
        { dateFrom := .null, dateTo := .null, amountMin := .null, amountMax := .null,
          partner := .null, showReconciled := .bool false }
      ∧ (BankReconciliationWidget.clearFilters remote s trace).1.currentPage = 1
      ∧ (BankReconciliationWidget.clearFilters remote s trace).1.selectedLines = s.selectedLines
      ∧ ∃ rest, (BankReconciliationWidget.clearFilters remote s trace).2 =
          trace ++ Event.searchRead "moz.bank.statement.line"
            (.arr [.arr [.str "reconciled", .str "=", .bool false]])
            (.arr [.str "date", .str "name", .str "amount", .str "partner_id",
              .str "reconciled"])
            (.obj [("limit", .num 50), ("offset", .num 0)]) :: rest := by
  unfold BankReconciliationWidget.clearFilters BankReconciliationWidget.applyFilters
  refine ⟨?_, ?_, ?_, ?_⟩
  · rw [BankReconciliationWidget.loadBankLines_frame]
  · rw [BankReconciliationWidget.loadBankLines_frame]
  · rw [BankReconciliationWidget.loadBankLines_frame]
  · obtain ⟨rest, hrest, -⟩ := BankReconciliationWidget.loadBankLines_added remote
      { s with
        filters :=
          { dateFrom := .null, dateTo := .null, amountMin := .null, amountMax := .null,
            partner := .null, showReconciled := .bool false },
        currentPage := 1 } trace
    exact ⟨rest, hrest⟩

/-! ## Successful and half-successful loads of the balance sheet and the profit-and-loss report -/

theorem autoExpandFirstLevel_spec (lines : List Line) :
    ∀ expanded : JsSet,
      expanded.items <+: (autoExpandFirstLevel expanded lines).items
        ∧ ∀ k, k ∈ (autoExpandFirstLevel expanded lines).items ↔
            k ∈ expanded.items
              ∨ ∃ l ∈ lines, l.data.level = 0 ∧ l.data.unfoldable = true ∧ l.id = k := by
  induction lines with
  | nil =>
    intro expanded
    exact ⟨List.prefix_refl _, fun k => by simp [autoExpandFirstLevel]⟩
  | cons l rest ih =>
    intro expanded
    have hstep : autoExpandFirstLevel expanded (l :: rest) =
        autoExpandFirstLevel
          (if l.data.level = 0 ∧ l.data.unfoldable = true then expanded.add l.id else expanded)
          rest := by
      simp [autoExpandFirstLevel]
    rw [hstep]
    have hadd : ∀ k, k ∈ (expanded.add l.id).items ↔ k ∈ expanded.items ∨ k = l.id := by
      intro k
      have := JsSet.has_add expanded l.id k
      simp only [JsSet.has] at this
      have h2 := congrArg (fun b => b = true) this
      simpa using h2
    have hpre : expanded.items <+: (expanded.add l.id).items := by
      unfold JsSet.add
      split
      · exact List.prefix_refl _
      · exact List.prefix_append _ _
    by_cases hl : l.data.level = 0 ∧ l.data.unfoldable = true
    · rw [if_pos hl]
      obtain ⟨ihp, ihm⟩ := ih (expanded.add l.id)
      refine ⟨hpre.trans ihp, fun k => ?_⟩
      rw [ihm k, hadd k]
      constructor
      · rintro ((h | h) | ⟨l', hl', h⟩)
        · exact Or.inl h
        · exact Or.inr ⟨l, List.mem_cons_self _ _, hl.1, hl.2, h.symm⟩
        · exact Or.inr ⟨l', List.mem_cons_of_mem _ hl', h⟩
      · rintro (h | ⟨l', hl', h⟩)
        · exact Or.inl (Or.inl h)
        · rcases List.mem_cons.mp hl' with rfl | hl'
          · exact Or.inl (Or.inr h.2.2.symm)
          · exact Or.inr ⟨l', hl', h⟩
    · rw [if_neg hl]
      obtain ⟨ihp, ihm⟩ := ih expanded
      refine ⟨ihp, fun k => ?_⟩
      rw [ihm k]
      constructor
      · rintro (h | ⟨l', hl', h⟩)
        · exact Or.inl h
        · exact Or.inr ⟨l', List.mem_cons_of_mem _ hl', h⟩
      · rintro (h | ⟨l', hl', h⟩)
        · exact Or.inl h
        · rcases List.mem_cons.mp hl' with rfl | hl'
          · exact absurd ⟨h.1, h.2.1⟩ hl
          · exact Or.inr ⟨l', hl', h⟩

theorem balanceSheet_load_success (s : BalanceSheetReport.State) (user : UserContext)
    (r : ReportResult) (d : ReportData) (lines : List Line)
    (hs : r.success.truthy = true) (hd : r.data = some d) (hl : d.lines = some lines) :
    (BalanceSheetReport.loadBalanceSheetData s user (.returned (some r))).1 =
      { s with
        loading := false, error := .null, data := some d,
        hasUnposted := d.has_unposted.or (.bool false),
        expandedLines := autoExpandFirstLevel s.expandedLines lines } := by
  simp [BalanceSheetReport.loadBalanceSheetData, BalanceSheetReport.applyResult, hs, hd, hl]

theorem profitLoss_load_success (s : ProfitLossReport.State) (user : UserContext)
    (r : ReportResult) (d : ReportData) (lines : List Line)
    (hs : r.success.truthy = true) (hd : r.data = some d) (hl : d.lines = some lines) :
    (ProfitLossReport.loadProfitLossData s user (.returned (some r))).1 =
      { s with
        loading := false, error := .null, data := some d,
        hasUnposted := d.has_unposted.or (.bool false),
        expandedLines := autoExpandFirstLevel s.expandedLines lines } := by
  simp [ProfitLossReport.loadProfitLossData, ProfitLossReport.applyResult, hs, hd, hl]

/-- C19: after a successful `loadBalanceSheetData` or `loadProfitLossData` (a response with a
truthy `success` and data) whose response carries the top-level lines `L`, `expandedLines`
holds exactly the ids expanded before the call and the ids of the lines of `L` that have level
0 and are unfoldable; the previously expanded ids keep their place at the front of the
insertion order, so none is removed. -/
theorem load_success_expands_first_level (user : UserContext) (r : ReportResult)
    (d : ReportData) (lines : List Line)
    (hs : r.success.truthy = true) (hd : r.data = some d) (hl : d.lines = some lines) :
    (∀ s : BalanceSheetReport.State,
        s.expandedLines.items <+:
            (BalanceSheetReport.loadBalanceSheetData s user
              (.returned (some r))).1.expandedLines.items
          ∧ ∀ k, k ∈ (BalanceSheetReport.loadBalanceSheetData s user
                (.returned (some r))).1.expandedLines.items ↔
              k ∈ s.expandedLines.items
                ∨ ∃ l ∈ lines, l.data.level = 0 ∧ l.data.unfoldable = true ∧ l.id = k)
      ∧ (∀ s : ProfitLossReport.State,
        s.expandedLines.items <+:
            (ProfitLossReport.loadProfitLossData s user
              (.returned (some r))).1.expandedLines.items
          ∧ ∀ k, k ∈ (ProfitLossReport.loadProfitLossData s user
                (.returned (some r))).1.expandedLines.items ↔
              k ∈ s.expandedLines.items
                ∨ ∃ l ∈ lines, l.data.level = 0 ∧ l.data.unfoldable = true ∧ l.id = k) := by
  constructor
  · intro s
    rw [balanceSheet_load_success s user r d lines hs hd hl]
    exact autoExpandFirstLevel_spec lines s.expandedLines
  · intro s
    rw [profitLoss_load_success s user r d lines hs hd hl]
    exact autoExpandFirstLevel_spec lines s.expandedLines

/-- Loading the sample tree into a balance sheet with line 7 expanded: line 7 stays expanded
and the unfoldable first-level line `income` is expanded as well. -/
theorem load_success_expands_first_level_witness :
    (JsVal.bool true).truthy = true
      ∧ (∀ k, k ∈ (BalanceSheetReport.loadBalanceSheetData
              { BalanceSheetReport.sampleState with expandedLines := ⟨[.num 7], by decide⟩ }
              sampleUser
              (.returned (some ⟨.bool true, .undefined, some sampleReportData⟩))).1.expandedLines.items ↔
            k ∈ [Key.num 7]
              ∨ ∃ l ∈ sampleReportLines,
                  l.data.level = 0 ∧ l.data.unfoldable = true ∧ l.id = k) :=
  ⟨rfl,
    ((load_success_expands_first_level sampleUser
      ⟨.bool true, .undefined, some sampleReportData⟩ sampleReportData sampleReportLines
      rfl rfl rfl).1
      { BalanceSheetReport.sampleState with expandedLines := ⟨[.num 7], by decide⟩ }).2⟩

/-- C16 fails on a response with `success` true and no data: for every prior state, user
context and `error` property of the response, `loadBalanceSheetData` (and likewise
`loadProfitLossData`) completes with `state.error` set and the loading flag false, and with
`state.data` replaced by the absent data of the response; on the sample states the data loaded
before is lost. -/
theorem load_without_data_overwrites_data (user : UserContext) (error : JsVal) :
    (∀ s : BalanceSheetReport.State,
        FailureShown
            (BalanceSheetReport.loadBalanceSheetData s user
              (.returned (some ⟨.bool true, error, none⟩))).1.error
            (BalanceSheetReport.loadBalanceSheetData s user
              (.returned (some ⟨.bool true, error, none⟩))).1.loading
          ∧ (BalanceSheetReport.loadBalanceSheetData s user
              (.returned (some ⟨.bool true, error, none⟩))).1.data = none)
      ∧ (∀ s : ProfitLossReport.State,
        FailureShown
            (ProfitLossReport.loadProfitLossData s user
              (.returned (some ⟨.bool true, error, none⟩))).1.error
            (ProfitLossReport.loadProfitLossData s user
              (.returned (some ⟨.bool true, error, none⟩))).1.loading
          ∧ (ProfitLossReport.loadProfitLossData s user
              (.returned (some ⟨.bool true, error, none⟩))).1.data = none)
      ∧ BalanceSheetReport.sampleState.data = some sampleReportData
      ∧ ProfitLossReport.sampleState.data = some sampleReportData
      ∧ (BalanceSheetReport.loadBalanceSheetData BalanceSheetReport.sampleState user
          (.returned (some ⟨.bool true, error, none⟩))).1.data ≠
        BalanceSheetReport.sampleState.data
      ∧ (ProfitLossReport.loadProfitLossData ProfitLossReport.sampleState user
          (.returned (some ⟨.bool true, error, none⟩))).1.data ≠
        ProfitLossReport.sampleState.data := by
  have hbs : ∀ s : BalanceSheetReport.State,
      BalanceSheetReport.loadBalanceSheetData s user
          (.returned (some ⟨.bool true, error, none⟩)) =
        ({ s with
            data := none,
            error := .str ("Network error: " ++ (JsError.typeError "has_unposted").message.toStr),
            loading := false },
          [BalanceSheetReport.request { s with loading := true, error := .null } user,
            .consoleError "Failed to load balance sheet:" (JsError.typeError "has_unposted")]) := by
    intro s
    simp [BalanceSheetReport.loadBalanceSheetData, BalanceSheetReport.applyResult, JsVal.truthy]
  have hpl : ∀ s : ProfitLossReport.State,
      ProfitLossReport.loadProfitLossData s user
          (.returned (some ⟨.bool true, error, none⟩)) =
        ({ s with
            data := none,
            error := .str ("Network error: " ++ (JsError.typeError "has_unposted").message.toStr),
            loading := false },
          [ProfitLossReport.request { s with loading := true, error := .null } user,
            .consoleError "Failed to load profit and loss:" (JsError.typeError "has_unposted")]) := by
    intro s
    simp [ProfitLossReport.loadProfitLossData, ProfitLossReport.applyResult, JsVal.truthy]
  refine ⟨fun s => ?_, fun s => ?_, rfl, rfl, ?_, ?_⟩
  · rw [hbs]
    exact ⟨failureShown_of_truthy _ (networkError_truthy _), rfl⟩
  · rw [hpl]
    exact ⟨failureShown_of_truthy _ (networkError_truthy _), rfl⟩
  · rw [hbs]
    simp [BalanceSheetReport.sampleState]
  · rw [hpl]
    simp [ProfitLossReport.sampleState]

/-! ## The hide-zero-balances filter of the profit-and-loss report -/

mutual
theorem preorderWithAncestorLines_extends (anc : List Line) :
    ∀ (ls : List Line) (p : List Line × Line), p ∈ preorderWithAncestorLines anc ls →
      anc <+: p.1
  | [], p, h => by simp [preorderWithAncestorLines] at h
  | l :: rest, p, h => by
    rw [preorderWithAncestorLines, List.mem_append] at h
    rcases h with h | h
    · exact preorderWithAncestorLinesAt_extends anc l p h
    · exact preorderWithAncestorLines_extends anc rest p h
theorem preorderWithAncestorLinesAt_extends (anc : List Line) :
    ∀ (l : Line) (p : List Line × Line), p ∈ preorderWithAncestorLinesAt anc l → anc <+: p.1
  | .mk d none, p, h => by
    simp only [preorderWithAncestorLinesAt, List.mem_singleton] at h
    subst h
    exact List.prefix_refl _
  | .mk d (some cs), p, h => by
    simp only [preorderWithAncestorLinesAt, List.mem_cons] at h
    rcases h with h | h
    · subst h
      exact List.prefix_refl _
    · exact (List.prefix_append anc [Line.mk d (some cs)]).trans
        (preorderWithAncestorLines_extends _ cs p h)
end

theorem filter_ancestorLines_of_blocked (ok : Line → Bool) (q : Line → Bool) (anc : List Line)
    (h : anc.all ok = false) (ls : List Line) :
    (preorderWithAncestorLines anc ls).filter (fun p => p.1.all ok && q p.2) = [] := by
  rw [List.filter_eq_nil_iff]
  intro p hp
  obtain ⟨t, ht⟩ := preorderWithAncestorLines_extends anc ls p hp
  rw [← ht, List.all_append, h]
  simp

/-- The test `this.state.hideZeroBalances && line.balance === 0 && !line.is_total`. -/
theorem ProfitLossReport.hidden_iff (s : ProfitLossReport.State) (d : LineData)
    (children : Option (List Line)) :
    (s.hideZeroBalances = true ∧ d.balance = 0 ∧ d.is_total = false) ↔
      (s.hideZeroBalances && (Line.mk d children).isZeroBalance) = true := by
  simp [Line.isZeroBalance, Line.data]

mutual
theorem ProfitLossReport.getVisibleLinesIn_walk (s : ProfitLossReport.State) (anc : List Line)
    (h : anc.all (fun a => ProfitLossReport.isExpanded s a.id
            && !(s.hideZeroBalances && a.isZeroBalance)) = true) :
    ∀ ls : List Line, ProfitLossReport.getVisibleLinesIn s true ls =
      ((preorderWithAncestorLines anc ls).filter
        (fun p => p.1.all (fun a => ProfitLossReport.isExpanded s a.id
            && !(s.hideZeroBalances && a.isZeroBalance))
          && !(s.hideZeroBalances && p.2.isZeroBalance))).map Prod.snd
  | [] => by simp [ProfitLossReport.getVisibleLinesIn, preorderWithAncestorLines]
  | l :: rest => by
    rw [ProfitLossReport.getVisibleLinesIn, preorderWithAncestorLines, List.filter_append,
      List.map_append, ProfitLossReport.getVisibleLinesAt_walk s anc h l,
      ProfitLossReport.getVisibleLinesIn_walk s anc h rest]
theorem ProfitLossReport.getVisibleLinesAt_walk (s : ProfitLossReport.State) (anc : List Line)
    (h : anc.all (fun a => ProfitLossReport.isExpanded s a.id
            && !(s.hideZeroBalances && a.isZeroBalance)) = true) :
    ∀ l : Line, ProfitLossReport.getVisibleLinesAt s true l =
      ((preorderWithAncestorLinesAt anc l).filter
        (fun p => p.1.all (fun a => ProfitLossReport.isExpanded s a.id
            && !(s.hideZeroBalances && a.isZeroBalance))
          && !(s.hideZeroBalances && p.2.isZeroBalance))).map Prod.snd
  | .mk d none => by
    by_cases hz : (s.hideZeroBalances && (Line.mk d none).isZeroBalance) = true
    · have hz2 := (ProfitLossReport.hidden_iff s d none).mpr hz
      simp only [ProfitLossReport.getVisibleLinesAt, preorderWithAncestorLinesAt, if_true,
        if_pos hz2]
      rw [List.filter_cons_of_neg (by simp [hz])]
      rfl
    · have hz2 := fun hh => hz ((ProfitLossReport.hidden_iff s d none).mp hh)
      simp only [ProfitLossReport.getVisibleLinesAt, preorderWithAncestorLinesAt, if_true,
        if_neg hz2]
      have hb := Bool.eq_false_iff.mpr hz
      rw [List.filter_cons_of_pos (by simp only [h, hb]; rfl)]
      rfl
  | .mk d (some cs) => by
    by_cases hz : (s.hideZeroBalances && (Line.mk d (some cs)).isZeroBalance) = true
    · have hz2 := (ProfitLossReport.hidden_iff s d (some cs)).mpr hz
      simp only [ProfitLossReport.getVisibleLinesAt, preorderWithAncestorLinesAt, if_true,
        if_pos hz2]
      rw [List.filter_cons_of_neg (by simp [hz]),
        filter_ancestorLines_of_blocked _ (fun l => !(s.hideZeroBalances && l.isZeroBalance))
          (anc ++ [Line.mk d (some cs)]) (by rw [List.all_append, h]; simp only [List.all_cons, List.all_nil, hz]; simp) cs]
      rfl
    · have hz2 := fun hh => hz ((ProfitLossReport.hidden_iff s d (some cs)).mp hh)
      simp only [ProfitLossReport.getVisibleLinesAt, preorderWithAncestorLinesAt, if_true,
        if_neg hz2]
      have hb := Bool.eq_false_iff.mpr hz
      rw [List.filter_cons_of_pos (by simp only [h, hb]; rfl), List.map_cons]
      congr 1
      by_cases hx : ProfitLossReport.isExpanded s d.id = true
      · rw [if_pos hx]
        exact ProfitLossReport.getVisibleLinesIn_walk s (anc ++ [Line.mk d (some cs)])
          (by
            have hx2 : ProfitLossReport.isExpanded s (Line.mk d (some cs)).id = true := hx
            rw [List.all_append, h]
            simp only [List.all_cons, List.all_nil, hb, hx2]
            rfl) cs
      · rw [if_neg hx, filter_ancestorLines_of_blocked _
          (fun l => !(s.hideZeroBalances && l.isZeroBalance))
          (anc ++ [Line.mk d (some cs)])
          (by
            have hx2 : ProfitLossReport.isExpanded s (Line.mk d (some cs)).id = false :=
              Bool.eq_false_iff.mpr hx
            rw [List.all_append, h]
            simp only [List.all_cons, List.all_nil, hx2]
            rfl) cs]
        rfl
end
theorem all_and_split {α : Type} (f g : α → Bool) (l : List α) :
    l.all (fun a => f a && g a) = (l.all f && l.all g) := by
  induction l with
  | nil => rfl
  | cons a rest ih =>
    simp only [List.all_cons, ih]
    cases f a <;> cases g a <;> cases rest.all f <;> cases rest.all g <;> rfl

theorem filter_sublist_filter_of_imp {α : Type} (p q : α → Bool)
    (h : ∀ a, p a = true → q a = true) (l : List α) : (l.filter p).Sublist (l.filter q) := by
  induction l with
  | nil => exact List.Sublist.slnil
  | cons a rest ih =>
    by_cases hq : q a = true
    · rw [List.filter_cons_of_pos hq]
      by_cases hp : p a = true
      · rw [List.filter_cons_of_pos hp]
        exact ih.cons₂ _
      · rw [List.filter_cons_of_neg hp]
        exact ih.cons _
    · rw [List.filter_cons_of_neg hq, List.filter_cons_of_neg (fun hp => hq (h a hp))]
      exact ih

/-- C20, as the code has it: with `hideZeroBalances` off, `ProfitLossReport.getVisibleLines()`
returns the pre-order sequence of the lines all of whose ancestors are expanded; with it on, it
returns that sequence without the lines that have balance 0 and are not total lines and without
every line below such a line (a line stays exactly when neither it nor one of its ancestors is
a zero-balance line that is not a total). Hence the sequence with the filter on is a
subsequence of the claimed one, and it holds no zero-balance line that is not a total. -/
theorem ProfitLossReport.getVisibleLines_hideZero (s : ProfitLossReport.State)
    (lines : Option (List Line)) :
    ProfitLossReport.getVisibleLines { s with hideZeroBalances := false } lines true =
        ((preorderWithAncestorLines [] (resolveLines s.data lines)).filter
          (fun p => p.1.all (fun a => s.expandedLines.has a.id))).map Prod.snd
      ∧ ProfitLossReport.getVisibleLines { s with hideZeroBalances := true } lines true =
        (((preorderWithAncestorLines [] (resolveLines s.data lines)).filter
            (fun p => p.1.all (fun a => s.expandedLines.has a.id))).filter
          (fun p => (p.2 :: p.1).all (fun l => !l.isZeroBalance))).map Prod.snd
      ∧ (ProfitLossReport.getVisibleLines { s with hideZeroBalances := true } lines true).Sublist
          (withoutZeroBalance
            (ProfitLossReport.getVisibleLines { s with hideZeroBalances := false } lines true))
      ∧ ∀ l ∈ ProfitLossReport.getVisibleLines { s with hideZeroBalances := true } lines true,
          l.isZeroBalance = false := by
  have hoff := ProfitLossReport.getVisibleLinesIn_walk { s with hideZeroBalances := false } []
    rfl (resolveLines s.data lines)
  have hon := ProfitLossReport.getVisibleLinesIn_walk { s with hideZeroBalances := true } []
    rfl (resolveLines s.data lines)
  have hoff2 : ProfitLossReport.getVisibleLines { s with hideZeroBalances := false } lines true =
      ((preorderWithAncestorLines [] (resolveLines s.data lines)).filter
        (fun p => p.1.all (fun a => s.expandedLines.has a.id))).map Prod.snd := by
    rw [ProfitLossReport.getVisibleLines]
    refine hoff.trans ?_
    congr 2
    funext p
    simp [ProfitLossReport.isExpanded]
  have hon2 : ProfitLossReport.getVisibleLines { s with hideZeroBalances := true } lines true =
      (((preorderWithAncestorLines [] (resolveLines s.data lines)).filter
          (fun p => p.1.all (fun a => s.expandedLines.has a.id))).filter
        (fun p => (p.2 :: p.1).all (fun l => !l.isZeroBalance))).map Prod.snd := by
    rw [ProfitLossReport.getVisibleLines]
    refine hon.trans ?_
    rw [List.filter_filter]
    congr 2
    funext p
    simp only [ProfitLossReport.isExpanded, Bool.true_and, List.all_cons]
    rw [all_and_split (fun a => s.expandedLines.has a.id) (fun a => !a.isZeroBalance) p.1]
    cases p.1.all (fun a => s.expandedLines.has a.id) <;>
      cases p.1.all (fun a => !a.isZeroBalance) <;> cases p.2.isZeroBalance <;> rfl
  clear hoff hon
  refine ⟨hoff2, hon2, ?_, ?_⟩
  · rw [hon2, hoff2, withoutZeroBalance, List.filter_map]
    refine List.Sublist.map _ ?_
    refine filter_sublist_filter_of_imp _ _ (fun p hp => ?_) _
    simp only [List.all_cons, Bool.and_eq_true] at hp
    exact hp.1
  · intro l hl
    rw [hon2, List.mem_map] at hl
    obtain ⟨p, hp, rfl⟩ := hl
    have := (List.mem_filter.mp hp).2
    simp only [List.all_cons, Bool.and_eq_true] at this
    simpa using this.1

/-- C20 fails on the sample tree with the income line expanded: its income line has balance 0
and two accounts with balances 500 and -500 below it. With the filter off the visible lines
are income, the two accounts and the total; without the zero-balance lines that is the two
accounts and the total, but with the filter on only the total is returned. -/
theorem ProfitLossReport.hideZero_drops_lines_below :
    (ProfitLossReport.getVisibleLines (ProfitLossReport.sampleStateHiding false) none true).map
        Line.id = [.str "income", .num 4001, .num 4002, .str "net"]
      ∧ (withoutZeroBalance
          (ProfitLossReport.getVisibleLines (ProfitLossReport.sampleStateHiding false)
            none true)).map Line.id = [.num 4001, .num 4002, .str "net"]
      ∧ (ProfitLossReport.getVisibleLines (ProfitLossReport.sampleStateHiding true) none true).map
          Line.id = [.str "net"]
      ∧ ProfitLossReport.getVisibleLines (ProfitLossReport.sampleStateHiding true) none true ≠
          withoutZeroBalance
            (ProfitLossReport.getVisibleLines (ProfitLossReport.sampleStateHiding false)
              none true) := by
  have h1 : (ProfitLossReport.getVisibleLines (ProfitLossReport.sampleStateHiding false)
      none true).map Line.id = [.str "income", .num 4001, .num 4002, .str "net"] := by
    simp [ProfitLossReport.getVisibleLines, ProfitLossReport.getVisibleLinesIn,
      ProfitLossReport.getVisibleLinesAt, ProfitLossReport.sampleStateHiding,
      ProfitLossReport.sampleState, ProfitLossReport.isExpanded, resolveLines, linesOfData,
      sampleReportData, sampleReportLines, JsSet.has, Line.id, Line.data]
  have h2 : (withoutZeroBalance
      (ProfitLossReport.getVisibleLines (ProfitLossReport.sampleStateHiding false)
        none true)).map Line.id = [.num 4001, .num 4002, .str "net"] := by
    simp [withoutZeroBalance, Line.isZeroBalance, List.filter_cons,
      ProfitLossReport.getVisibleLines, ProfitLossReport.getVisibleLinesIn,
      ProfitLossReport.getVisibleLinesAt, ProfitLossReport.sampleStateHiding,
      ProfitLossReport.sampleState, ProfitLossReport.isExpanded, resolveLines, linesOfData,
      sampleReportData, sampleReportLines, JsSet.has, Line.id, Line.data]
  have h3 : (ProfitLossReport.getVisibleLines (ProfitLossReport.sampleStateHiding true)
      none true).map Line.id = [.str "net"] := by
    simp [ProfitLossReport.getVisibleLines, ProfitLossReport.getVisibleLinesIn,
      ProfitLossReport.getVisibleLinesAt, ProfitLossReport.sampleStateHiding,
      ProfitLossReport.sampleState, ProfitLossReport.isExpanded, resolveLines, linesOfData,
      sampleReportData, sampleReportLines, JsSet.has, Line.id, Line.data]
  refine ⟨h1, h2, h3, fun h => ?_⟩
  have h4 := congrArg (fun l => (l.map Line.id).length) h
  simp only [h2, h3] at h4
  exact absurd h4 (by decide)

/-! ## Filter handlers and the reload -/

theorem agedReceivable_load_events (s : AgedReceivableReport.State)
    (user : UserContext) (reply : Reply (Option AgedReceivableReport.Result)) :
    ∃ rest, (AgedReceivableReport.loadReport s user reply).2 =
      AgedReceivableReport.request s user :: rest := by
  unfold AgedReceivableReport.loadReport
  cases awaitChecked AgedReceivableReport.Result.error reply <;> exact ⟨_, rfl⟩

theorem taxReturn_load_events (s : TaxReturnReport.State)
    (user : UserContext) (reply : Reply (Option TaxReturnReport.Result)) :
    ∃ rest, (TaxReturnReport.loadReport s user reply).2 =
      TaxReturnReport.request s user :: rest := by
  unfold TaxReturnReport.loadReport
  cases awaitChecked TaxReturnReport.Result.error reply <;> exact ⟨_, rfl⟩

theorem balanceSheet_load_events (s : BalanceSheetReport.State)
    (user : UserContext) (reply : Reply (Option ReportResult)) :
    ∃ rest, (BalanceSheetReport.loadBalanceSheetData s user reply).2 =
      BalanceSheetReport.request s user :: rest := by
  unfold BalanceSheetReport.loadBalanceSheetData
  cases reply with
  | threw e => exact ⟨_, rfl⟩
  | returned result =>
    simp only
    split <;> exact ⟨_, rfl⟩

/-- C12 fails on `TaxReturnReport.onClosingEntryToggle` and on
`BalanceSheetReport.onAnalyticToggle`: for every state, the first flips `showClosingEntry`,
stores the new flag in `state.filters.closing_entry` and issues no call at all, and the second
flips `showAnalytic` and issues no call at all, whereas the sibling handlers of the same
components (`onPostedEntriesToggle`, `onReportTypeChange`, `onComparisonToggle`) and the four
filter handlers of `AgedReceivableReport` begin with the data-loading request of the state
with the new filter value, whatever the remote call answers. -/
theorem filter_handlers_reload_except_two_toggles (user : UserContext) :
    (∀ s : TaxReturnReport.State,
        (TaxReturnReport.onClosingEntryToggle s).2 = []
          ∧ (TaxReturnReport.onClosingEntryToggle s).1.filters.closing_entry = !s.showClosingEntry
          ∧ (TaxReturnReport.onClosingEntryToggle s).1.showClosingEntry = !s.showClosingEntry
          ∧ (s.filters.closing_entry = s.showClosingEntry →
              (TaxReturnReport.onClosingEntryToggle s).1.filters.closing_entry ≠
                s.filters.closing_entry))
      ∧ (∀ s : BalanceSheetReport.State,
        (BalanceSheetReport.onAnalyticToggle s).2 = []
          ∧ (BalanceSheetReport.onAnalyticToggle s).1.showAnalytic = !s.showAnalytic)
      ∧ (∀ (s : TaxReturnReport.State) (reply : Reply (Option TaxReturnReport.Result)),
        (∃ rest, (TaxReturnReport.onPostedEntriesToggle s user reply).2 =
            TaxReturnReport.request
              { s with filters :=
                  { s.filters with posted_entries := !s.filters.posted_entries } } user :: rest)
          ∧ ∀ reportType, ∃ rest, (TaxReturnReport.onReportTypeChange s reportType user reply).2 =
            TaxReturnReport.request
              { s with filters := { s.filters with report_type := reportType } } user :: rest)
      ∧ (∀ (s : BalanceSheetReport.State) (reply : Reply (Option ReportResult)),
        (∃ rest, (BalanceSheetReport.onComparisonToggle s user reply).2 =
            BalanceSheetReport.request { s with comparison := !s.comparison } user :: rest)
          ∧ ∃ rest, (BalanceSheetReport.onPostedEntriesToggle s user reply).2 =
            BalanceSheetReport.request { s with onlyPosted := !s.onlyPosted } user :: rest)
      ∧ (∀ (s : AgedReceivableReport.State) (value : JsVal)
          (reply : Reply (Option AgedReceivableReport.Result)),
        (∃ rest, (AgedReceivableReport.onAsOfDateChange s value user reply).2 =
            AgedReceivableReport.request
              { s with filters := { s.filters with as_of_date := value } } user :: rest)
          ∧ (∃ rest, (AgedReceivableReport.onAccountTypeChange s value user reply).2 =
            AgedReceivableReport.request
              { s with filters := { s.filters with account_type := value } } user :: rest)
          ∧ (∃ rest, (AgedReceivableReport.onPeriodLengthChange s value user reply).2 =
            AgedReceivableReport.request
              { s with filters := { s.filters with period_length := value } } user :: rest)
          ∧ ∃ rest, (AgedReceivableReport.onBasedOnChange s value user reply).2 =
            AgedReceivableReport.request
              { s with filters := { s.filters with based_on := value } } user :: rest) := by
  refine ⟨fun s => ⟨rfl, rfl, rfl, fun h => ?_⟩, fun s => ⟨rfl, rfl⟩, fun s reply => ⟨?_, ?_⟩,
    fun s reply => ⟨?_, ?_⟩, fun s value reply => ⟨?_, ?_, ?_, ?_⟩⟩
  · show (!s.showClosingEntry) ≠ s.filters.closing_entry
    rw [h]
    cases s.showClosingEntry <;> decide
  · exact taxReturn_load_events _ user reply
  · intro reportType
    exact taxReturn_load_events _ user reply
  · exact balanceSheet_load_events _ user reply
  · exact balanceSheet_load_events _ user reply
  · exact agedReceivable_load_events _ user reply
  · exact agedReceivable_load_events _ user reply
  · exact agedReceivable_load_events _ user reply
  · exact agedReceivable_load_events _ user reply

/-! ## Binary64 rounding -/

namespace Float64

theorem roundHalfEven_cases (x : ℚ) :
    (roundHalfEven x = ⌊x⌋ ∧ x - ⌊x⌋ ≤ 1 / 2) ∨ (roundHalfEven x = ⌊x⌋ + 1 ∧ 1 / 2 ≤ x - ⌊x⌋) := by
  unfold roundHalfEven
  split_ifs with h1 h2 h3
  · exact Or.inl ⟨rfl, le_of_lt h1⟩
  · exact Or.inr ⟨rfl, le_of_lt h2⟩
  · exact Or.inl ⟨rfl, not_lt.mp h2⟩
  · exact Or.inr ⟨rfl, not_lt.mp h1⟩

theorem roundHalfEven_le (x : ℚ) (n : ℤ) (h : x ≤ n) : roundHalfEven x ≤ n := by
  have hf : ((⌊x⌋ : ℤ) : ℚ) ≤ x := Int.floor_le x
  rcases roundHalfEven_cases x with ⟨h1, _⟩ | ⟨h1, h2⟩
  · rw [h1]
    exact_mod_cast hf.trans h
  · rw [h1]
    have : ((⌊x⌋ : ℤ) : ℚ) < n := by linarith
    have : ⌊x⌋ < n := by exact_mod_cast this
    omega

theorem le_roundHalfEven (x : ℚ) (n : ℤ) (h : (n : ℚ) ≤ x) : n ≤ roundHalfEven x := by
  have hf : n ≤ ⌊x⌋ := Int.le_floor.mpr h
  rcases roundHalfEven_cases x with ⟨h1, _⟩ | ⟨h1, _⟩ <;> rw [h1] <;> omega

theorem roundHalfEven_lt (x : ℚ) (n : ℤ) (h : x + 1 / 2 < n) : roundHalfEven x < n := by
  have hf : ((⌊x⌋ : ℤ) : ℚ) ≤ x := Int.floor_le x
  rcases roundHalfEven_cases x with ⟨h1, _⟩ | ⟨h1, h2⟩
  · rw [h1]
    have : ((⌊x⌋ : ℤ) : ℚ) < n := by linarith
    exact_mod_cast this
  · rw [h1]
    have : ((⌊x⌋ + 1 : ℤ) : ℚ) < n := by push_cast; linarith
    exact_mod_cast this

theorem lt_roundHalfEven (x : ℚ) (n : ℤ) (h : (n : ℚ) + 1 / 2 < x) : n < roundHalfEven x := by
  have hf : x < ((⌊x⌋ : ℤ) : ℚ) + 1 := Int.lt_floor_add_one x
  rcases roundHalfEven_cases x with ⟨h1, h2⟩ | ⟨h1, _⟩
  · rw [h1]
    have : (n : ℚ) < ((⌊x⌋ : ℤ) : ℚ) := by linarith
    exact_mod_cast this
  · rw [h1]
    have : (n : ℚ) < ((⌊x⌋ + 1 : ℤ) : ℚ) := by push_cast; linarith
    exact_mod_cast this

theorem roundHalfEven_eq_of_near (x : ℚ) (n : ℤ) (h : |x - n| < 1 / 2) : roundHalfEven x = n := by
  rw [abs_lt] at h
  have h1 : roundHalfEven x < n + 1 := roundHalfEven_lt x (n + 1) (by push_cast; linarith)
  have h2 : n - 1 < roundHalfEven x := lt_roundHalfEven x (n - 1) (by push_cast; linarith)
  omega

theorem abs_roundHalfEven_sub_le (x : ℚ) : |(roundHalfEven x : ℚ) - x| ≤ 1 / 2 := by
  have hf : ((⌊x⌋ : ℤ) : ℚ) ≤ x := Int.floor_le x
  have hf2 : x < ((⌊x⌋ : ℤ) : ℚ) + 1 := Int.lt_floor_add_one x
  rw [abs_le]
  rcases roundHalfEven_cases x with ⟨h1, h2⟩ | ⟨h1, h2⟩ <;> rw [h1] <;> push_cast <;>
    constructor <;> linarith

theorem two_zpow_pos (e : ℤ) : (0 : ℚ) < 2 ^ e := zpow_pos (by norm_num) e

theorem ulpExp_le (q : ℚ) (K : ℤ) (h : |q| < 2 ^ K) : ulpExp q ≤ max (K - 53) (-1074) := by
  unfold ulpExp
  split_ifs with hq
  · exact le_max_right _ _
  · have hlog : Int.log 2 |q| < K :=
      (Int.lt_zpow_iff_log_lt (by norm_num) (abs_pos.mpr hq)).mp (by exact_mod_cast h)
    exact max_le_max (by omega) le_rfl

theorem ulpExp_of_binade (q : ℚ) (k : ℤ) (h1 : 2 ^ k ≤ |q|) (h2 : |q| < 2 ^ (k + 1))
    (hk : -1022 ≤ k) : ulpExp q = k - 52 := by
  have hpos : 0 < |q| := lt_of_lt_of_le (two_zpow_pos k) h1
  have hq : q ≠ 0 := abs_pos.mp hpos
  have hlo : k ≤ Int.log 2 |q| :=
    (Int.zpow_le_iff_le_log (by norm_num) hpos).mp (by exact_mod_cast h1)
  have hhi : Int.log 2 |q| < k + 1 :=
    (Int.lt_zpow_iff_log_lt (by norm_num) hpos).mp (by exact_mod_cast h2)
  unfold ulpExp
  rw [if_neg hq]
  have : Int.log 2 |q| = k := by omega
  rw [this]
  exact max_eq_left (by omega)

theorem grid_refine (n j e : ℤ) (h : e ≤ j) : ∃ N : ℤ, (n : ℚ) * 2 ^ j = N * 2 ^ e := by
  refine ⟨n * 2 ^ (j - e).toNat, ?_⟩
  have h2 : ((2 : ℚ) ^ (j - e).toNat) = 2 ^ (j - e) := by
    rw [← zpow_natCast, Int.toNat_of_nonneg (by omega)]
  push_cast
  rw [h2, mul_assoc, ← zpow_add₀ (by norm_num : (2 : ℚ) ≠ 0)]
  congr 2
  omega

theorem round_le_of_le (q c : ℚ) (n j : ℤ) (hc : c = n * 2 ^ j) (he : ulpExp q ≤ j)
    (h : q ≤ c) : round q ≤ c := by
  obtain ⟨N, hN⟩ := grid_refine n j (ulpExp q) he
  have hp := two_zpow_pos (ulpExp q)
  rw [hc, hN]
  unfold round
  apply mul_le_mul_of_nonneg_right _ hp.le
  have : roundHalfEven (q / 2 ^ ulpExp q) ≤ N :=
    roundHalfEven_le _ N (by rw [div_le_iff₀ hp, ← hN, ← hc]; exact h)
  exact_mod_cast this

theorem le_round_of_le (q c : ℚ) (n j : ℤ) (hc : c = n * 2 ^ j) (he : ulpExp q ≤ j)
    (h : c ≤ q) : c ≤ round q := by
  obtain ⟨N, hN⟩ := grid_refine n j (ulpExp q) he
  have hp := two_zpow_pos (ulpExp q)
  rw [hc, hN]
  unfold round
  apply mul_le_mul_of_nonneg_right _ hp.le
  have : N ≤ roundHalfEven (q / 2 ^ ulpExp q) :=
    le_roundHalfEven _ N (by rw [le_div_iff₀ hp, ← hN, ← hc]; exact h)
  exact_mod_cast this

theorem round_lt_of_lt (q c : ℚ) (n j : ℤ) (hc : c = n * 2 ^ j) (he : ulpExp q ≤ j)
    (h : q + 2 ^ j / 2 < c) : round q < c := by
  obtain ⟨N, hN⟩ := grid_refine n j (ulpExp q) he
  have hp := two_zpow_pos (ulpExp q)
  have hmono : (2 : ℚ) ^ ulpExp q ≤ 2 ^ j := zpow_le_zpow_right₀ (by norm_num) he
  rw [hc, hN]
  unfold round
  apply mul_lt_mul_of_pos_right _ hp
  have : roundHalfEven (q / 2 ^ ulpExp q) < N := by
    apply roundHalfEven_lt
    rw [← lt_sub_iff_add_lt, div_lt_iff₀ hp, sub_mul, ← hN, ← hc]
    linarith
  exact_mod_cast this

theorem round_eq_self (c : ℚ) (n j : ℤ) (hc : c = n * 2 ^ j) (he : ulpExp c ≤ j) :
    round c = c :=
  le_antisymm (round_le_of_le c c n j hc he le_rfl) (le_round_of_le c c n j hc he le_rfl)

theorem round_intCast (n : ℤ) (h : |(n : ℚ)| < 2 ^ (53 : ℤ)) : round (n : ℚ) = n :=
  round_eq_self n n 0 (by simp) ((ulpExp_le n 53 h).trans (by norm_num))

theorem round_eq_of_near (q : ℚ) (k n : ℤ) (h1 : 2 ^ k ≤ |q|) (h2 : |q| < 2 ^ (k + 1))
    (hk : -1022 ≤ k) (hn : |q / 2 ^ (k - 52) - n| < 1 / 2) : round q = n * 2 ^ (k - 52) := by
  unfold round
  rw [ulpExp_of_binade q k h1 h2 hk, roundHalfEven_eq_of_near _ n hn]

theorem abs_round_sub_le (q : ℚ) : |round q - q| ≤ 2 ^ ulpExp q / 2 := by
  have hp := two_zpow_pos (ulpExp q)
  have h := abs_roundHalfEven_sub_le (q / 2 ^ ulpExp q)
  have : round q - q = ((roundHalfEven (q / 2 ^ ulpExp q) : ℚ) - q / 2 ^ ulpExp q) * 2 ^ ulpExp q := by
    unfold round
    field_simp
  rw [this, abs_mul, abs_of_pos hp]
  calc _ ≤ 1 / 2 * 2 ^ ulpExp q := mul_le_mul_of_nonneg_right h hp.le
    _ = _ := by ring


theorem randomOutcome_le (r : ℚ) (h : IsRandomOutcome r) : r ≤ 1 - 2 ^ (-53 : ℤ) := by
  obtain ⟨hv, h0, h1⟩ := h
  by_cases hhalf : r < 1 / 2
  · have : (1 : ℚ) / 2 ≤ 1 - 2 ^ (-53 : ℤ) := by norm_num
    exact hhalf.le.trans this
  · have hhalf : (1 : ℚ) / 2 ≤ r := not_lt.mp hhalf
    have habs : |r| = r := abs_of_nonneg h0
    have he : ulpExp r = -1 - 52 :=
      ulpExp_of_binade r (-1) (by rw [habs]; norm_num; linarith) (by rw [habs]; norm_num; linarith)
        (by norm_num)
    unfold IsValue round at hv
    rw [he] at hv
    have hp : (0 : ℚ) < 2 ^ (-1 - 52 : ℤ) := two_zpow_pos _
    have hlt : roundHalfEven (r / 2 ^ (-1 - 52 : ℤ)) < 2 ^ 53 := by
      have : ((roundHalfEven (r / 2 ^ (-1 - 52 : ℤ)) : ℤ) : ℚ) < ((2 ^ 53 : ℤ) : ℚ) := by
        have h2 : ((roundHalfEven (r / 2 ^ (-1 - 52 : ℤ)) : ℤ) : ℚ) * 2 ^ (-1 - 52 : ℤ) < 1 := by
          rw [hv]; exact h1
        have h3 : ((roundHalfEven (r / 2 ^ (-1 - 52 : ℤ)) : ℤ) : ℚ) < 1 / 2 ^ (-1 - 52 : ℤ) :=
          (lt_div_iff₀ hp).mpr h2
        refine lt_of_lt_of_eq h3 ?_
        norm_num
      exact_mod_cast this
    have hle : ((roundHalfEven (r / 2 ^ (-1 - 52 : ℤ)) : ℤ) : ℚ) ≤ ((2 ^ 53 - 1 : ℤ) : ℚ) := by
      exact_mod_cast Int.le_sub_one_of_lt hlt
    rw [← hv]
    calc ((roundHalfEven (r / 2 ^ (-1 - 52 : ℤ)) : ℤ) : ℚ) * 2 ^ (-1 - 52 : ℤ)
        ≤ ((2 ^ 53 - 1 : ℤ) : ℚ) * 2 ^ (-1 - 52 : ℤ) := mul_le_mul_of_nonneg_right hle hp.le
      _ = 1 - 2 ^ (-53 : ℤ) := by norm_num

/-- The product `Math.random() * m` for a constant `m = n * 2^j` with
`2^(j+52) < m < 2^(j+53)` stays below `m` after rounding. -/
theorem round_random_mul (r m : ℚ) (n j : ℤ) (hr : IsRandomOutcome r) (hm : m = n * 2 ^ j)
    (hlo : 2 ^ j * 2 ^ (52 : ℤ) < m) (hhi : m < 2 ^ (j + 53)) (hj : -1074 ≤ j) :
    0 ≤ round (r * m) ∧ round (r * m) < m := by
  have hle := randomOutcome_le r hr
  obtain ⟨_, h0, h1⟩ := hr
  have hmpos : 0 < m := lt_trans (mul_pos (two_zpow_pos j) (two_zpow_pos 52)) hlo
  have hq0 : 0 ≤ r * m := mul_nonneg h0 hmpos.le
  have hqm : r * m ≤ (1 - 2 ^ (-53 : ℤ)) * m := mul_le_mul_of_nonneg_right hle hmpos.le
  have hqlt : r * m < m := by nlinarith
  have he : ulpExp (r * m) ≤ j := by
    have := ulpExp_le (r * m) (j + 53) (by rw [abs_of_nonneg hq0]; exact hqlt.trans hhi)
    refine this.trans (max_le (by omega) hj)
  refine ⟨le_round_of_le (r * m) 0 0 j (by simp) he hq0, round_lt_of_lt (r * m) m n j hm he ?_⟩
  have h53 : (2 : ℚ) ^ (52 : ℤ) * 2 ^ (-53 : ℤ) = 1 / 2 := by norm_num
  have : (2 : ℚ) ^ j / 2 < m * 2 ^ (-53 : ℤ) := by
    have := mul_lt_mul_of_pos_right hlo (two_zpow_pos (-53))
    rw [mul_assoc, h53] at this
    rw [div_eq_mul_one_div]
    exact this
  generalize (2 : ℚ) ^ (-53 : ℤ) = c at hqm this
  generalize (2 : ℚ) ^ j / 2 = d at this
  have hexp : (1 - c) * m = m - m * c := by ring
  rw [hexp] at hqm
  linarith

/-- The expression `Math.floor(Math.random() * m) + k` for small integers `m` and `k`. -/
theorem floor_random_mul_add (r : ℚ) (m k n j : ℤ) (hr : IsRandomOutcome r)
    (hm : (m : ℚ) = n * 2 ^ j) (hlo : 2 ^ j * 2 ^ (52 : ℤ) < (m : ℚ))
    (hhi : (m : ℚ) < 2 ^ (j + 53)) (hj : -1074 ≤ j) (hmk : m ≤ 1000) (hk0 : 0 ≤ k)
    (hk : k ≤ 1000) :
    ∃ v : ℤ, add (floor (mul r m)) k = v ∧ k ≤ v ∧ v ≤ m - 1 + k := by
  obtain ⟨h0, h1⟩ := round_random_mul r m n j hr hm hlo hhi hj
  have hf0 : 0 ≤ ⌊round (r * m)⌋ := Int.floor_nonneg.mpr h0
  have hf1 : ⌊round (r * m)⌋ < m := Int.floor_lt.mpr h1
  refine ⟨⌊round (r * m)⌋ + k, ?_, by omega, by omega⟩
  unfold add floor mul
  have hcast : ((⌊round (r * m)⌋ : ℤ) : ℚ) + (k : ℚ) = ((⌊round (r * m)⌋ + k : ℤ) : ℚ) := by
    push_cast; rfl
  rw [hcast]
  apply round_intCast
  have hb : |(⌊round (r * m)⌋ + k : ℤ)| < 2001 := by
    rw [abs_lt]; constructor <;> omega
  have : |((⌊round (r * m)⌋ + k : ℤ) : ℚ)| < 2001 := by exact_mod_cast hb
  refine this.trans ?_
  norm_num


theorem round_mem_Icc (q a b : ℚ) (na nb j K : ℤ) (ha : a = na * 2 ^ j) (hb : b = nb * 2 ^ j)
    (hK : |q| < 2 ^ K) (hj : max (K - 53) (-1074) ≤ j) (h1 : a ≤ q) (h2 : q ≤ b) :
    a ≤ round q ∧ round q ≤ b :=
  ⟨le_round_of_le q a na j ha ((ulpExp_le q K hK).trans hj) h1,
    round_le_of_le q b nb j hb ((ulpExp_le q K hK).trans hj) h2⟩

/-- The expression `base + (Math.random() - 0.5) * 10000` with `base = 50000`. -/
theorem bank_value_mem_Icc (r : ℚ) (h0 : 0 ≤ r) (h1 : r < 1) :
    45000 ≤ add 50000 (mul (sub r (1 / 2)) 10000)
      ∧ add 50000 (mul (sub r (1 / 2)) 10000) ≤ 55000 := by
  have s1 : -(1 / 2) ≤ sub r (1 / 2) ∧ sub r (1 / 2) ≤ 1 / 2 := by
    refine round_mem_Icc (r - 1 / 2) _ _ (-1) 1 (-1) 0 (by norm_num) (by norm_num) ?_
      (by norm_num) (by linarith) (by linarith)
    rw [abs_lt]
    constructor <;> norm_num <;> linarith
  have s2 : -5000 ≤ mul (sub r (1 / 2)) 10000 ∧ mul (sub r (1 / 2)) 10000 ≤ 5000 := by
    refine round_mem_Icc (sub r (1 / 2) * 10000) _ _ (-625) 625 3 13 (by norm_num) (by norm_num)
      ?_ (by norm_num) (by linarith [s1.1]) (by linarith [s1.2])
    rw [abs_lt]
    constructor <;> norm_num <;> linarith [s1.1, s1.2]
  refine round_mem_Icc (50000 + mul (sub r (1 / 2)) 10000) _ _ 5625 6875 3 16 (by norm_num)
    (by norm_num) ?_ (by norm_num) (by linarith [s2.1]) (by linarith [s2.2])
  rw [abs_lt]
  constructor <;> norm_num <;> linarith [s2.1, s2.2]

end Float64

theorem MzDashboardGraphField.sampleLoop_eq (journalType : JsVal) (today : Int)
    (random : Nat → ℚ) :
    ∀ n calls : Nat, sampleLoop journalType today random n calls =
      ((List.range n).reverse.map (fun i : Nat => weekdayShort (today - i)),
        (List.range n).map (fun k => sampleValue journalType (random (calls + k))))
  | 0, _ => rfl
  | i + 1, calls => by
    rw [sampleLoop, sampleLoop_eq journalType today random i (calls + 1)]
    simp only [List.range_succ, List.reverse_append, List.reverse_cons, List.reverse_nil,
      List.nil_append, List.singleton_append, List.map_cons]
    rw [← List.range_succ, List.range_succ_eq_map, List.map_cons, List.map_map]
    refine Prod.ext rfl ?_
    simp only [Nat.add_zero, List.cons.injEq, true_and]
    apply List.map_congr_left
    intro k _
    simp only [Function.comp, Nat.succ_eq_add_one]
    congr 2
    omega

theorem MzDashboardGraphField.largestOutcome_isRandomOutcome :
    Float64.IsRandomOutcome largestOutcome := by
  unfold largestOutcome
  refine ⟨?_, by norm_num, by norm_num⟩
  refine Float64.round_eq_self _ (2 ^ 52 - 1) (-52) (by norm_num) ?_
  refine (Float64.ulpExp_le _ 0 ?_).trans (by norm_num)
  rw [abs_lt]
  constructor <;> norm_num

theorem MzDashboardGraphField.sampleValue_bank_largestOutcome :
    sampleValue (.str "bank") largestOutcome = 55000 := by
  have h1 : Float64.sub largestOutcome (1 / 2) = 1 / 2 - 2 ^ (-52 : ℤ) := by
    unfold Float64.sub largestOutcome
    have : (1 : ℚ) - 2 ^ (-52 : ℤ) - 1 / 2 = 1 / 2 - 2 ^ (-52 : ℤ) := by ring
    rw [this]
    refine Float64.round_eq_self _ (2 ^ 51 - 1) (-52) (by norm_num) ?_
    refine (Float64.ulpExp_le _ (-1) ?_).trans (by norm_num)
    rw [abs_lt]
    constructor <;> norm_num
  have h2 : Float64.mul (1 / 2 - 2 ^ (-52 : ℤ)) 10000 = 5000 - 2 ^ (-39 : ℤ) := by
    unfold Float64.mul
    rw [Float64.round_eq_of_near _ 12 (5000 * 2 ^ 40 - 2) (by norm_num [abs_of_pos])
      (by norm_num [abs_of_pos]) (by norm_num) (by norm_num [abs_lt])]
    norm_num
  have h3 : Float64.add 50000 (5000 - 2 ^ (-39 : ℤ)) = 55000 := by
    unfold Float64.add
    rw [Float64.round_eq_of_near _ 15 (55000 * 2 ^ 37) (by norm_num [abs_of_pos])
      (by norm_num [abs_of_pos]) (by norm_num) (by norm_num [abs_lt])]
    norm_num
  simp only [sampleValue, JsVal.isStr]
  rw [if_neg (by decide), if_neg (by decide), if_pos (by decide), h1, h2, h3]

theorem MzDashboardGraphField.zero_isRandomOutcome : Float64.IsRandomOutcome 0 :=
  ⟨Float64.round_eq_self 0 0 0 (by simp) (by simp [Float64.ulpExp]), le_rfl, by norm_num⟩

theorem MzDashboardGraphField.sampleValue_sale (r : ℚ) (hr : Float64.IsRandomOutcome r) :
    ∃ n : ℤ, sampleValue (.str "sale") r = n ∧ 2 ≤ n ∧ n ≤ 6 := by
  obtain ⟨v, hv, h1, h2⟩ := Float64.floor_random_mul_add r 5 2 (5 * 2 ^ 50) (-50) hr
    (by norm_num) (by norm_num) (by norm_num) (by norm_num) (by norm_num) (by norm_num)
    (by norm_num)
  refine ⟨v, ?_, h1, by omega⟩
  simp only [sampleValue, JsVal.isStr]
  rw [if_pos (by decide)]
  exact_mod_cast hv

theorem MzDashboardGraphField.sampleValue_purchase (r : ℚ) (hr : Float64.IsRandomOutcome r) :
    ∃ n : ℤ, sampleValue (.str "purchase") r = n ∧ 1 ≤ n ∧ n ≤ 3 := by
  obtain ⟨v, hv, h1, h2⟩ := Float64.floor_random_mul_add r 3 1 (3 * 2 ^ 51) (-51) hr
    (by norm_num) (by norm_num) (by norm_num) (by norm_num) (by norm_num) (by norm_num)
    (by norm_num)
  refine ⟨v, ?_, h1, by omega⟩
  simp only [sampleValue, JsVal.isStr]
  rw [if_neg (by decide), if_pos (by decide)]
  exact_mod_cast hv

theorem MzDashboardGraphField.sampleValue_bank (r : ℚ) (hr : Float64.IsRandomOutcome r) :
    45000 ≤ sampleValue (.str "bank") r ∧ sampleValue (.str "bank") r ≤ 55000 := by
  simp only [sampleValue, JsVal.isStr]
  rw [if_neg (by decide), if_neg (by decide), if_pos (by decide)]
  exact Float64.bank_value_mem_Icc r hr.2.1 hr.2.2

theorem MzDashboardGraphField.sampleValue_other (journalType : JsVal) (r : ℚ)
    (hr : Float64.IsRandomOutcome r)
    (h1 : journalType ≠ .str "sale") (h2 : journalType ≠ .str "purchase")
    (h3 : journalType ≠ .str "bank") :
    ∃ n : ℤ, sampleValue journalType r = n ∧ 0 ≤ n ∧ n ≤ 9 := by
  obtain ⟨h0, h10⟩ := Float64.round_random_mul r 10 (10 * 2 ^ 49) (-49) hr (by norm_num)
    (by norm_num) (by norm_num) (by norm_num)
  have hlt : ⌊Float64.round (r * 10)⌋ < 10 := Int.floor_lt.mpr (by exact_mod_cast h10)
  refine ⟨⌊Float64.round (r * 10)⌋, ?_, Int.floor_nonneg.mpr h0, by omega⟩
  simp only [sampleValue, JsVal.isStr_eq_false _ _ h1, JsVal.isStr_eq_false _ _ h2,
    JsVal.isStr_eq_false _ _ h3]
  rfl

theorem MzDashboardGraphField.generateSampleData_eq (journalType : JsVal) (today : Int)
    (random : Nat → ℚ) :
    (generateSampleData journalType today random).labels =
        (List.range 7).reverse.map (fun i : Nat => weekdayShort (today - i))
      ∧ (generateSampleData journalType today random).values =
        (List.range 7).map (fun k => sampleValue journalType (random k)) := by
  unfold generateSampleData
  simp only [sampleLoop_eq, Nat.zero_add, and_self]

theorem MzDashboardGraphField.mem_values (journalType : JsVal) (today : Int)
    (random : Nat → ℚ) (v : ℚ)
    (h : v ∈ (generateSampleData journalType today random).values) :
    ∃ k, v = sampleValue journalType (random k) := by
  rw [(generateSampleData_eq journalType today random).2, List.mem_map] at h
  obtain ⟨k, _, hk⟩ := h
  exact ⟨k, hk.symm⟩

/-- C14, as the code has it: for every journal type, every current day and every sequence of
outcomes of `Math.random()` (binary64 values that are at least 0 and less than 1),
`generateSampleData` returns exactly 7 labels, the short weekday names of the seven days that
end today, and exactly 7 values; each value is an integer in [2, 6] for `sale`, an integer in
[1, 3] for `purchase`, a number in the closed interval [45000, 55000] for `bank` and an
integer in [0, 9] for every other type, and the series label is `Invoices`, `Bills`,
`Balance` or `Count` respectively. -/
theorem MzDashboardGraphField.generateSampleData_ranges (journalType : JsVal) (today : Int)
    (random : Nat → ℚ)
    (hrandom : ∀ k, Float64.IsRandomOutcome (random k)) :
    (generateSampleData journalType today random).labels =
        (List.range 7).reverse.map (fun i : Nat => weekdayShort (today - i))
      ∧ (generateSampleData journalType today random).labels.length = 7
      ∧ (generateSampleData journalType today random).values.length = 7
      ∧ (journalType = .str "sale" →
          (generateSampleData journalType today random).label = "Invoices"
            ∧ ∀ v ∈ (generateSampleData journalType today random).values,
                ∃ n : ℤ, v = n ∧ 2 ≤ n ∧ n ≤ 6)
      ∧ (journalType = .str "purchase" →
          (generateSampleData journalType today random).label = "Bills"
            ∧ ∀ v ∈ (generateSampleData journalType today random).values,
                ∃ n : ℤ, v = n ∧ 1 ≤ n ∧ n ≤ 3)
      ∧ (journalType = .str "bank" →
          (generateSampleData journalType today random).label = "Balance"
            ∧ ∀ v ∈ (generateSampleData journalType today random).values,
                45000 ≤ v ∧ v ≤ 55000)
      ∧ (journalType ≠ .str "sale" → journalType ≠ .str "purchase" →
          journalType ≠ .str "bank" →
          (generateSampleData journalType today random).label = "Count"
            ∧ ∀ v ∈ (generateSampleData journalType today random).values,
                ∃ n : ℤ, v = n ∧ 0 ≤ n ∧ n ≤ 9) := by
  have heq := generateSampleData_eq journalType today random
  refine ⟨heq.1, by rw [heq.1]; rfl, by rw [heq.2]; rfl, ?_, ?_, ?_, ?_⟩
  · intro h
    refine ⟨by rw [h]; rfl, fun v hv => ?_⟩
    obtain ⟨k, rfl⟩ := mem_values journalType today random v hv
    rw [h]
    exact sampleValue_sale _ (hrandom k)
  · intro h
    refine ⟨by rw [h]; rfl, fun v hv => ?_⟩
    obtain ⟨k, rfl⟩ := mem_values journalType today random v hv
    rw [h]
    exact sampleValue_purchase _ (hrandom k)
  · intro h
    refine ⟨by rw [h]; rfl, fun v hv => ?_⟩
    obtain ⟨k, rfl⟩ := mem_values journalType today random v hv
    rw [h]
    exact sampleValue_bank _ (hrandom k)
  · intro h1 h2 h3
    refine ⟨?_, fun v hv => ?_⟩
    · simp only [generateSampleData, JsVal.isStr_eq_false _ _ h1, JsVal.isStr_eq_false _ _ h2,
        JsVal.isStr_eq_false _ _ h3]
      rfl
    · obtain ⟨k, rfl⟩ := mem_values journalType today random v hv
      exact sampleValue_other journalType _ (hrandom k) h1 h2 h3

/-- A sale journal on day 0 with a random source that always returns 0: seven values, each
an integer between 2 and 6. -/
theorem MzDashboardGraphField.generateSampleData_ranges_witness :
    (∀ k : Nat, Float64.IsRandomOutcome ((fun _ => (0 : ℚ)) k))
      ∧ (generateSampleData (.str "sale") 0 (fun _ => 0)).values.length = 7
      ∧ ∀ v ∈ (generateSampleData (.str "sale") 0 (fun _ => 0)).values,
          ∃ n : ℤ, v = n ∧ 2 ≤ n ∧ n ≤ 6 :=
  ⟨fun _ => zero_isRandomOutcome,
    (generateSampleData_ranges (.str "sale") 0 (fun _ => 0)
      (fun _ => zero_isRandomOutcome)).2.2.1,
    ((generateSampleData_ranges (.str "sale") 0 (fun _ => 0)
      (fun _ => zero_isRandomOutcome)).2.2.2.1 rfl).2⟩

/-- C14 fails for `bank` at the upper end of the interval: on day 0, when every call of
`Math.random()` returns `1 - 2^-52`, a binary64 value below 1, each of the seven values is
exactly 55000, which is not in [45000, 55000). -/
theorem MzDashboardGraphField.generateSampleData_bank_reaches_upper_end :
    (∀ k : Nat, Float64.IsRandomOutcome ((fun _ => largestOutcome) k))
      ∧ (generateSampleData (.str "bank") 0 (fun _ => largestOutcome)).values =
          List.replicate 7 55000
      ∧ ¬ ∀ v ∈ (generateSampleData (.str "bank") 0 (fun _ => largestOutcome)).values,
          45000 ≤ v ∧ v < 55000 := by
  have hv : (generateSampleData (.str "bank") 0 (fun _ => largestOutcome)).values =
      List.replicate 7 55000 := by
    rw [(generateSampleData_eq _ 0 _).2]
    simp only [sampleValue_bank_largestOutcome]
    rfl
  refine ⟨fun _ => largestOutcome_isRandomOutcome, hv, fun h => ?_⟩
  rw [hv] at h
  have := (h 55000 (by simp)).2
  exact absurd this (lt_irrefl _)

namespace Float64

theorem abs_round_sub_le_rel (q : ℚ) (h : IsNormalOrZero q) :
    |round q - q| ≤ 2 ^ (-53 : ℤ) * |q| := by
  rcases h with h | h
  · subst h
    have : round 0 = 0 := round_eq_self 0 0 0 (by simp) (by simp [ulpExp])
    simp [this]
  · have hpos : 0 < |q| := lt_of_lt_of_le (two_zpow_pos _) h
    have hq : q ≠ 0 := abs_pos.mp hpos
    have hlog : (-1022 : ℤ) ≤ Int.log 2 |q| :=
      (Int.zpow_le_iff_le_log (by norm_num) hpos).mp (by exact_mod_cast h)
    have he : ulpExp q = Int.log 2 |q| - 52 := by
      unfold ulpExp
      rw [if_neg hq]
      exact max_eq_left (by omega)
    have hle : (2 : ℚ) ^ Int.log 2 |q| ≤ |q| := by
      exact_mod_cast Int.zpow_log_le_self (by norm_num) hpos
    refine (abs_round_sub_le q).trans ?_
    rw [he]
    have : (2 : ℚ) ^ (Int.log 2 |q| - 52) / 2 = 2 ^ (-53 : ℤ) * 2 ^ Int.log 2 |q| := by
      rw [show Int.log 2 |q| - 52 = Int.log 2 |q| + (-52) by ring,
        zpow_add₀ (by norm_num : (2 : ℚ) ≠ 0)]
      norm_num
      ring
    rw [this]
    exact mul_le_mul_of_nonneg_left hle (two_zpow_pos _).le

/-- A rounding that does not underflow is a multiplication by `1 + δ` with `|δ| ≤ 2^-53`. -/
theorem round_eq_mul (q : ℚ) (h : IsNormalOrZero q) :
    ∃ δ : ℚ, |δ| ≤ 2 ^ (-53 : ℤ) ∧ round q = q * (1 + δ) := by
  by_cases hq : q = 0
  · subst hq
    exact ⟨0, by simp [(two_zpow_pos _).le],
      by simpa using round_eq_self 0 0 0 (by simp) (by simp [ulpExp])⟩
  · refine ⟨(round q - q) / q, ?_, by field_simp⟩
    rw [abs_div, div_le_iff₀ (abs_pos.mpr hq)]
    exact abs_round_sub_le_rel q h

theorem abs_one_add_mul_sub_one_le (a b A B : ℚ) (ha : |a| ≤ A) (hb : |b| ≤ B) :
    |(1 + a) * (1 + b) - 1| ≤ (1 + A) * (1 + B) - 1 := by
  have hA : 0 ≤ A := (abs_nonneg a).trans ha
  have h1 : (1 + a) * (1 + b) - 1 = a + b + a * b := by ring
  have h2 : (1 + A) * (1 + B) - 1 = A + B + A * B := by ring
  rw [h1, h2]
  calc |a + b + a * b| ≤ |a + b| + |a * b| := abs_add _ _
    _ ≤ |a| + |b| + |a| * |b| := by rw [abs_mul]; linarith [abs_add a b]
    _ ≤ A + B + A * B := by
      have := mul_le_mul ha hb (abs_nonneg b) hA
      linarith

theorem abs_tenths_sub_le (x : ℚ) : |(tenths x : ℚ) / 10 - x| ≤ 1 / 20 := by
  unfold tenths
  have h1 : ((⌊x * 10 + 1 / 2⌋ : ℤ) : ℚ) ≤ x * 10 + 1 / 2 := Int.floor_le _
  have h2 : x * 10 + 1 / 2 < ((⌊x * 10 + 1 / 2⌋ : ℤ) : ℚ) + 1 := Int.lt_floor_add_one _
  rw [abs_le]
  constructor <;> linarith

end Float64

theorem MozAccountingDashboard.calculateChange_steps_103_80 :
    Float64.mul (Float64.div (Float64.sub 103 80) 80) 100 = 8092405580431359 * 2 ^ (-48 : ℤ) := by
  have h1 : Float64.sub 103 80 = 23 := by
    unfold Float64.sub
    have : (103 : ℚ) - 80 = ((23 : ℤ) : ℚ) := by norm_num
    rw [this, Float64.round_intCast 23 (by norm_num [abs_of_pos])]
    norm_num
  have h2 : Float64.div 23 80 = 5179139571476070 * 2 ^ (-54 : ℤ) := by
    unfold Float64.div
    rw [Float64.round_eq_of_near _ (-2) 5179139571476070 (by norm_num [abs_of_pos])
      (by norm_num [abs_of_pos]) (by norm_num) (by norm_num [abs_lt])]
    norm_num
  have h3 : Float64.mul (5179139571476070 * 2 ^ (-54 : ℤ)) 100 =
      8092405580431359 * 2 ^ (-48 : ℤ) := by
    unfold Float64.mul
    rw [Float64.round_eq_of_near _ 4 8092405580431359 (by norm_num [abs_of_pos])
      (by norm_num [abs_of_pos]) (by norm_num) (by norm_num [abs_lt])]
    norm_num
  rw [h1, h2, h3]

theorem MozAccountingDashboard.toFixed1_of_tenths (x : ℚ) (n : ℕ) (hx : 0 ≤ x)
    (hn : Float64.tenths |x| = n) :
    Float64.toFixed1 x = toString (n / 10) ++ "." ++ toString (n % 10) := by
  unfold Float64.toFixed1
  rw [if_neg (not_lt.mpr hx), hn, Int.toNat_ofNat]
  rfl

theorem MozAccountingDashboard.calculateChange_error (current previous : ℚ) (hp : previous ≠ 0)
    (h1 : Float64.IsNormalOrZero (current - previous))
    (h2 : Float64.IsNormalOrZero (Float64.sub current previous / previous))
    (h3 : Float64.IsNormalOrZero (Float64.div (Float64.sub current previous) previous * 100)) :
    |Float64.mul (Float64.div (Float64.sub current previous) previous) 100
        - exactChange current previous| ≤
      ((1 + 2 ^ (-53 : ℤ)) ^ 3 - 1) * |exactChange current previous| := by
  obtain ⟨d1, hd1, e1⟩ := Float64.round_eq_mul _ h1
  obtain ⟨d2, hd2, e2⟩ := Float64.round_eq_mul _ h2
  obtain ⟨d3, hd3, e3⟩ := Float64.round_eq_mul _ h3
  have hx : Float64.mul (Float64.div (Float64.sub current previous) previous) 100 =
      exactChange current previous * ((1 + ((1 + d1) * (1 + d2) - 1)) * (1 + d3)) := by
    have e3' : Float64.mul (Float64.div (Float64.sub current previous) previous) 100 =
        Float64.div (Float64.sub current previous) previous * 100 * (1 + d3) := e3
    have e2' : Float64.div (Float64.sub current previous) previous =
        Float64.sub current previous / previous * (1 + d2) := e2
    have e1' : Float64.sub current previous = (current - previous) * (1 + d1) := e1
    rw [e3', e2', e1', exactChange]
    field_simp
    ring
  have hb12 := Float64.abs_one_add_mul_sub_one_le d1 d2 _ _ hd1 hd2
  have hb := Float64.abs_one_add_mul_sub_one_le ((1 + d1) * (1 + d2) - 1) d3 _ _ hb12 hd3
  have hcube : (1 + ((1 + (2 : ℚ) ^ (-53 : ℤ)) * (1 + 2 ^ (-53 : ℤ)) - 1)) * (1 + 2 ^ (-53 : ℤ)) - 1
      = (1 + 2 ^ (-53 : ℤ)) ^ 3 - 1 := by ring
  rw [hcube] at hb
  have hdiff : Float64.mul (Float64.div (Float64.sub current previous) previous) 100
      - exactChange current previous =
      ((1 + ((1 + d1) * (1 + d2) - 1)) * (1 + d3) - 1) * exactChange current previous := by
    rw [hx]; ring
  rw [hdiff, abs_mul]
  exact mul_le_mul_of_nonneg_right hb (abs_nonneg _)

/-- C13, as the code has it, for finite numbers whose intermediate results do not overflow and
whose percentage is below `10^21` in magnitude: for `previous` equal to 0 `calculateChange`
returns the number 0; otherwise it returns a string, the `toFixed(1)` text of the binary64
value `x` of `(current - previous) / previous * 100`. That text denotes the tenth nearest to
`x`, and when no intermediate result underflows `x` differs from the exact percentage by at
most the fraction `(1 + 2^-53)^3 - 1` of it. -/
theorem MozAccountingDashboard.calculateChange_spec (current previous : ℚ) :
    (previous = 0 → calculateChange current previous = .num 0)
      ∧ (previous ≠ 0 → calculateChange current previous =
          .str (Float64.toFixed1
            (Float64.mul (Float64.div (Float64.sub current previous) previous) 100)))
      ∧ abs ((Float64.tenths
            (abs (Float64.mul (Float64.div (Float64.sub current previous) previous) 100)) : ℚ)
              / 10
          - abs (Float64.mul (Float64.div (Float64.sub current previous) previous) 100)) ≤
          1 / 20
      ∧ (previous ≠ 0 →
          Float64.IsNormalOrZero (current - previous) →
          Float64.IsNormalOrZero (Float64.sub current previous / previous) →
          Float64.IsNormalOrZero
            (Float64.div (Float64.sub current previous) previous * 100) →
          |Float64.mul (Float64.div (Float64.sub current previous) previous) 100
              - exactChange current previous| ≤
            ((1 + 2 ^ (-53 : ℤ)) ^ 3 - 1) * |exactChange current previous|) :=
  ⟨fun h => by rw [calculateChange, if_pos h],
    fun h => by rw [calculateChange, if_neg h],
    Float64.abs_tenths_sub_le _,
    calculateChange_error current previous⟩

theorem MozAccountingDashboard.sub_110_100 : Float64.sub 110 100 = 10 := by
  unfold Float64.sub
  have : (110 : ℚ) - 100 = ((10 : ℤ) : ℚ) := by norm_num
  rw [this, Float64.round_intCast 10 (by norm_num [abs_of_pos])]
  norm_num

theorem MozAccountingDashboard.div_10_100_ge : (1 : ℚ) / 16 ≤ Float64.div 10 100 := by
  unfold Float64.div
  refine Float64.le_round_of_le _ _ 1 (-4) (by norm_num) ?_ (by norm_num)
  refine (Float64.ulpExp_le _ 0 (by norm_num [abs_of_pos])).trans (by norm_num)

/-- From 100 to 110: no intermediate result underflows, and the binary64 value of the
percentage is within the stated fraction of the exact percentage 10. -/
theorem MozAccountingDashboard.calculateChange_spec_witness :
    (100 : ℚ) ≠ 0
      ∧ Float64.IsNormalOrZero ((110 : ℚ) - 100)
      ∧ Float64.IsNormalOrZero (Float64.sub 110 100 / 100)
      ∧ Float64.IsNormalOrZero (Float64.div (Float64.sub 110 100) 100 * 100)
      ∧ |Float64.mul (Float64.div (Float64.sub 110 100) 100) 100 - exactChange 110 100| ≤
          ((1 + 2 ^ (-53 : ℤ)) ^ 3 - 1) * |exactChange 110 100| := by
  have h0 : (100 : ℚ) ≠ 0 := by norm_num
  have h1 : Float64.IsNormalOrZero ((110 : ℚ) - 100) := Or.inr (by norm_num [abs_of_pos])
  have h2 : Float64.IsNormalOrZero (Float64.sub 110 100 / 100) := by
    rw [sub_110_100]
    exact Or.inr (by norm_num [abs_of_pos])
  have h3 : Float64.IsNormalOrZero (Float64.div (Float64.sub 110 100) 100 * 100) := by
    rw [sub_110_100]
    refine Or.inr ?_
    have hge := div_10_100_ge
    rw [abs_of_pos (by linarith)]
    have : (2 : ℚ) ^ (-1022 : ℤ) ≤ 1 := zpow_le_one_of_nonpos₀ (by norm_num) (by norm_num)
    linarith
  exact ⟨h0, h1, h2, h3, (calculateChange_spec 110 100).2.2.2 h0 h1 h2 h3⟩

/-- C13 fails from 80 to 103: the exact percentage is 28.75, which rounded to one decimal
place is 28.8, but the binary64 value of the expression lies just below 28.75 and
`calculateChange` returns the string `28.7`. -/
theorem MozAccountingDashboard.calculateChange_103_80 :
    exactChange 103 80 = 115 / 4
      ∧ roundedChange 103 80 = .str "28.8"
      ∧ calculateChange 103 80 = .str "28.7"
      ∧ calculateChange 103 80 ≠ roundedChange 103 80 := by
  have hE : exactChange 103 80 = 115 / 4 := by norm_num [exactChange]
  have hr : roundedChange 103 80 = .str "28.8" := by
    rw [roundedChange, hE, toFixed1_of_tenths (115 / 4) 288 (by norm_num)
      (by
        unfold Float64.tenths
        rw [Int.floor_eq_iff]
        norm_num [abs_of_pos])]
    rfl
  have hc : calculateChange 103 80 = .str "28.7" := by
    rw [calculateChange, if_neg (by norm_num), calculateChange_steps_103_80,
      toFixed1_of_tenths _ 287 (by norm_num)
        (by
          unfold Float64.tenths
          rw [Int.floor_eq_iff]
          norm_num [abs_of_pos])]
    rfl
  refine ⟨hE, hr, hc, ?_⟩
  rw [hc, hr]
  intro h
  injection h with h
  exact absurd h (by decide)

/-! ## The previous period of the profit-and-loss comparison -/

namespace JsDate

/-- The position of a day in its period of 400 years. -/
theorem era_split (doe : Int) (h0 : 0 ≤ doe) (h1 : doe ≤ 146096) :
    ∃ century quad year doy : Int,
      century = min (doe / 36524) 3
        ∧ quad = (doe - century * 36524) / 1461
        ∧ year = min ((doe - century * 36524 - quad * 1461) / 365) 3
        ∧ doy = doe - century * 36524 - quad * 1461 - year * 365
        ∧ 0 ≤ century ∧ century ≤ 3 ∧ 0 ≤ quad ∧ quad ≤ 24 ∧ 0 ≤ year ∧ year ≤ 3
        ∧ 0 ≤ doy ∧ doy ≤ 365
        ∧ (doy = 365 → year = 3 ∧ (quad ≠ 24 ∨ century = 3)) := by
  refine ⟨_, _, _, _, rfl, rfl, rfl, rfl, ?_⟩
  omega

theorem month_day (doy : Int) (h0 : 0 ≤ doy) (h1 : doy ≤ 365) :
    0 ≤ (5 * doy + 2) / 153 ∧ (5 * doy + 2) / 153 ≤ 11
      ∧ 1 ≤ doy - (153 * ((5 * doy + 2) / 153) + 2) / 5 + 1
      ∧ doy - (153 * ((5 * doy + 2) / 153) + 2) / 5 + 1 ≤ 31 := by
  omega

theorem civilFromDay_spec (day : Int) :
    ∃ y1 mp doy : Int,
      civilFromDay day =
          (if (if mp < 10 then mp + 3 else mp - 9) ≤ 2 then y1 + 1 else y1,
            if mp < 10 then mp + 3 else mp - 9, doy - (153 * mp + 2) / 5 + 1)
        ∧ mp = (5 * doy + 2) / 153
        ∧ 0 ≤ doy ∧ doy ≤ 365
        ∧ 365 * y1 + y1 / 4 - y1 / 100 + y1 / 400 + doy = day + 719468
        ∧ (doy = 365 → (y1 + 1) % 4 = 0 ∧ ((y1 + 1) % 100 ≠ 0 ∨ (y1 + 1) % 400 = 0)) := by
  obtain ⟨era, hera⟩ : ∃ era, era = (day + 719468) / 146097 := ⟨_, rfl⟩
  obtain ⟨doe, hdoe⟩ : ∃ doe, doe = (day + 719468) % 146097 := ⟨_, rfl⟩
  have h0 : 0 ≤ doe := by omega
  have h1 : doe ≤ 146096 := by omega
  have hz : day + 719468 = era * 146097 + doe := by omega
  obtain ⟨century, quad, year, doy, hc, hq, hy, hd, hc0, hc3, hq0, hq24, hy0, hy3, hd0, hd365,
    hleap⟩ := era_split doe h0 h1
  have e4 : (era * 400 + century * 100 + quad * 4 + year) / 4 =
      era * 100 + century * 25 + quad := by omega
  have e100 : (era * 400 + century * 100 + quad * 4 + year) / 100 = era * 4 + century := by
    omega
  have e400 : (era * 400 + century * 100 + quad * 4 + year) / 400 = era := by omega
  refine ⟨era * 400 + century * 100 + quad * 4 + year, (5 * doy + 2) / 153, doy, ?_, rfl, hd0,
    hd365, ?_, ?_⟩
  · subst hd hy hq hc hdoe hera
    rfl
  · rw [e4, e100, e400]
    omega
  · intro h
    obtain ⟨h3, h24⟩ := hleap h
    omega

theorem isLeapYear_iff (y : Int) :
    isLeapYear y = true ↔ y % 4 = 0 ∧ (y % 100 ≠ 0 ∨ y % 400 = 0) := by
  simp [isLeapYear]

theorem civilFromDay_valid (day : Int) :
    1 ≤ (civilFromDay day).2.2
      ∧ (civilFromDay day).2.2 ≤ daysInMonth (civilFromDay day).1 (civilFromDay day).2.1
      ∧ dayFromCivil (civilFromDay day).1 (civilFromDay day).2.1 (civilFromDay day).2.2 = day := by
  obtain ⟨y1, mp, doy, hciv, hmp, hd0, hd365, hday, hleap⟩ := civilFromDay_spec day
  rw [hciv]
  have hmp0 : 0 ≤ mp := by omega
  have hmp11 : mp ≤ 11 := by omega
  have hl := isLeapYear_iff (y1 + 1)
  clear hciv
  interval_cases mp <;> simp only [daysInMonth, dayFromCivil] <;> norm_num <;>
    first
    | omega
    | (by_cases hly : isLeapYear (y1 + 1) = true
       · simp only [hly, if_true]
         omega
       · have hne : doy ≠ 365 := fun h => hly (hl.mpr (hleap h))
         simp only [hly, if_false]
         omega)

theorem digit_digitChar (k : Nat) (h : k < 10) : digit (Nat.digitChar k) = some (k : Int) := by
  interval_cases k <;> decide

theorem timeValue_digits (y m d : Nat) (hy : y ≤ 9999) (hm : m ≤ 99) (hd : d ≤ 99) :
    timeValue (String.mk (digits 4 y) ++ "-" ++ String.mk (digits 2 m) ++ "-"
        ++ String.mk (digits 2 d)) =
      if 1 ≤ (d : Int) ∧ (d : Int) ≤ daysInMonth y m then
        some (dayFromCivil y m d * msPerDay)
      else none := by
  have hdata : (String.mk (digits 4 y) ++ "-" ++ String.mk (digits 2 m) ++ "-"
      ++ String.mk (digits 2 d)).data =
      [Nat.digitChar (y / 10 / 10 / 10 % 10), Nat.digitChar (y / 10 / 10 % 10),
        Nat.digitChar (y / 10 % 10), Nat.digitChar (y % 10), '-',
        Nat.digitChar (m / 10 % 10), Nat.digitChar (m % 10), '-',
        Nat.digitChar (d / 10 % 10), Nat.digitChar (d % 10)] := by
    simp [String.data_append, digits]
  unfold timeValue
  rw [hdata]
  simp only [digit_digitChar _ (Nat.mod_lt _ (by norm_num : 0 < 10))]
  have e1 : (((y / 10 / 10 / 10 % 10 : Nat) : Int) * 1000
      + ((y / 10 / 10 % 10 : Nat) : Int) * 100
      + ((y / 10 % 10 : Nat) : Int) * 10 + ((y % 10 : Nat) : Int)) = (y : Int) := by omega
  have e2 : (((m / 10 % 10 : Nat) : Int) * 10 + ((m % 10 : Nat) : Int)) = (m : Int) := by omega
  have e3 : (((d / 10 % 10 : Nat) : Int) * 10 + ((d % 10 : Nat) : Int)) = (d : Int) := by omega
  rw [e1, e2, e3]

theorem civilFromDay_month (day : Int) :
    1 ≤ (civilFromDay day).2.1 ∧ (civilFromDay day).2.1 ≤ 12 ∧ (civilFromDay day).2.2 ≤ 31 := by
  obtain ⟨y1, mp, doy, hciv, hmp, hd0, hd365, -, -⟩ := civilFromDay_spec day
  rw [hciv]
  simp only []
  split_ifs <;> omega

theorem civilFromDay_year (day : Int) (h0 : -719528 ≤ day) (h1 : day ≤ 2932896) :
    0 ≤ (civilFromDay day).1 ∧ (civilFromDay day).1 ≤ 9999 := by
  obtain ⟨y1, mp, doy, hciv, hmp, hd0, hd365, hday, -⟩ := civilFromDay_spec day
  rw [hciv]
  simp only []
  have hcase : y1 ≤ -2 ∨ y1 = -1 ∨ (0 ≤ y1 ∧ y1 ≤ 9998) ∨ y1 = 9999 ∨ 10000 ≤ y1 := by omega
  rcases hcase with h | h | h | h | h
  · split_ifs <;> omega
  · subst h
    split_ifs <;> omega
  · split_ifs <;> omega
  · subst h
    split_ifs <;> omega
  · split_ifs <;> omega

theorem daysInMonth_le (y m : Int) :
    daysInMonth y m ≤ 31 ∧ (1 ≤ daysInMonth y m → 1 ≤ m ∧ m ≤ 12) := by
  unfold daysInMonth
  split_ifs <;> omega

theorem dayFromCivil_range (y m d : Int) (hy0 : 0 ≤ y) (hy1 : y ≤ 9999) (hm0 : 1 ≤ m)
    (hm1 : m ≤ 12) (hd0 : 1 ≤ d) (hd1 : d ≤ daysInMonth y m) :
    -719528 ≤ dayFromCivil y m d ∧ dayFromCivil y m d ≤ 2932896 := by
  have hd31 := (daysInMonth_le y m).1
  unfold dayFromCivil
  simp only []
  split_ifs <;> omega

theorem timeValue_isoDate (t : Int) (h0 : -719528 * msPerDay ≤ t)
    (h1 : t < 2932897 * msPerDay) :
    timeValue (isoDate t) = some (t / msPerDay * msPerDay) := by
  have hd0 : -719528 ≤ t / msPerDay := by
    unfold msPerDay at *
    omega
  have hd1 : t / msPerDay ≤ 2932896 := by
    unfold msPerDay at *
    omega
  obtain ⟨hy0, hy1⟩ := civilFromDay_year (t / msPerDay) hd0 hd1
  obtain ⟨hm0, hm1, hd31⟩ := civilFromDay_month (t / msPerDay)
  obtain ⟨hdd0, hdd1, hround⟩ := civilFromDay_valid (t / msPerDay)
  unfold isoDate
  rcases hciv : civilFromDay (t / msPerDay) with ⟨y, m, d⟩
  rw [hciv] at hy0 hy1 hm0 hm1 hd31 hdd0 hdd1 hround
  simp only [] at hy0 hy1 hm0 hm1 hd31 hdd0 hdd1 hround ⊢
  rw [if_pos ⟨hy0, hy1⟩,
    timeValue_digits y.toNat m.toNat d.toNat (by omega) (by omega) (by omega),
    Int.toNat_of_nonneg hy0, Int.toNat_of_nonneg (by omega : 0 ≤ m),
    Int.toNat_of_nonneg (by omega : 0 ≤ d), if_pos ⟨hdd0, hdd1⟩, hround]

theorem timeValue_range (text : String) (t : Int) (h : timeValue text = some t) :
    ∃ day : Int, t = day * msPerDay ∧ -719528 ≤ day ∧ day ≤ 2932896 := by
  have hdigit : ∀ (c : Char) (k : Int), digit c = some k → 0 ≤ k ∧ k ≤ 9 := by
    intro c k hk
    unfold digit at hk
    split at hk
    · rename_i hc
      have hk2 := (Option.some.inj hk).symm
      simp only [Char.isDigit, Bool.and_eq_true, decide_eq_true_eq] at hc
      have h1 : 48 ≤ c.toNat := by
        have := hc.1
        simpa [Char.toNat] using this
      have h2 : c.toNat ≤ 57 := by
        have := hc.2
        simpa [Char.toNat] using this
      omega
    · exact absurd hk (by simp)
  unfold timeValue at h
  split at h
  · split at h
    · rename_i a b c e f g hh i ha hb hc he hf hg hhh hi
      simp only [] at h
      split at h
      · rename_i hvalid
        have := hdigit _ _ ha
        have := hdigit _ _ hb
        have := hdigit _ _ hc
        have := hdigit _ _ he
        have hm := (daysInMonth_le (a * 1000 + b * 100 + c * 10 + e) (f * 10 + g)).2
          (by omega)
        obtain ⟨r0, r1⟩ := dayFromCivil_range _ _ _ (by omega) (by omega) hm.1 hm.2
          hvalid.1 hvalid.2
        exact ⟨_, (Option.some.inj h).symm, r0, r1⟩
      · exact absurd h (by simp)
    · exact absurd h (by simp)
  · exact absurd h (by simp)

end JsDate

theorem JsDate.dayNumber_previous (tFrom tTo : Int)
    (hFrom : ∃ day : Int, tFrom = day * JsDate.msPerDay)
    (hTo : ∃ day : Int, tTo = day * JsDate.msPerDay) :
    JsDate.dayNumber (tFrom - 1) = JsDate.dayNumber tFrom - 1
      ∧ JsDate.dayNumber (tFrom - (tTo - tFrom)) =
        JsDate.dayNumber tFrom - (JsDate.dayNumber tTo - JsDate.dayNumber tFrom) := by
  obtain ⟨f, rfl⟩ := hFrom
  obtain ⟨t, rfl⟩ := hTo
  unfold JsDate.dayNumber JsDate.msPerDay
  constructor <;> omega

theorem profitLoss_load_keeps_comparison (s : ProfitLossReport.State) (user : UserContext)
    (reply : Reply (Option ReportResult)) :
    (ProfitLossReport.loadProfitLossData s user reply).1.comparison = s.comparison
      ∧ (ProfitLossReport.loadProfitLossData s user reply).1.comparisonMode = s.comparisonMode
      ∧ (ProfitLossReport.loadProfitLossData s user reply).1.comparisonDateFrom =
        s.comparisonDateFrom
      ∧ (ProfitLossReport.loadProfitLossData s user reply).1.comparisonDateTo =
        s.comparisonDateTo := by
  unfold ProfitLossReport.loadProfitLossData ProfitLossReport.applyResult
  cases reply with
  | threw e => exact ⟨rfl, rfl, rfl, rfl⟩
  | returned result =>
    cases result with
    | none => exact ⟨rfl, rfl, rfl, rfl⟩
    | some r =>
      simp only
      cases hs : r.success.truthy
      · simp
      · simp only [if_true]
        cases hd : r.data with
        | none => exact ⟨rfl, rfl, rfl, rfl⟩
        | some d =>
          simp only
          cases hl : d.lines <;> exact ⟨rfl, rfl, rfl, rfl⟩

/-- C21 fails in the length of the comparison period. For every state whose `date_from` and
`date_to` are the texts of calendar dates, `setComparisonMode('previous')` completes with
`comparison` true, `comparisonDateTo` the text of the day immediately before `date_from` and
`comparisonDateFrom` the text of the day that lies before `date_from` by the difference of the
two days; the comparison period, both days included, therefore has one day less than the
period from `date_from` to `date_to`. Read back as dates (from 1 January of year 0 on), the
two texts are the midnights of those days. -/
theorem ProfitLossReport.setComparisonMode_previous (sameDayLastYear : JsVal → Option JsVal)
    (s : ProfitLossReport.State) (user : UserContext) (reply : Reply (Option ReportResult))
    (dateFrom dateTo : String) (tFrom tTo : Int)
    (hfrom : s.date_from = .str dateFrom) (hto : s.date_to = .str dateTo)
    (hFrom : JsDate.timeValue dateFrom = some tFrom)
    (hTo : JsDate.timeValue dateTo = some tTo) :
    ∃ final trace,
      ProfitLossReport.setComparisonMode sameDayLastYear s (.str "previous") user reply =
          some (final, trace)
        ∧ final.comparison = true
        ∧ final.comparisonMode = .str "previous"
        ∧ final.comparisonDateTo = .str (JsDate.isoDate (tFrom - 1))
        ∧ final.comparisonDateFrom = .str (JsDate.isoDate (tFrom - (tTo - tFrom)))
        ∧ JsDate.dayNumber (tFrom - 1) = JsDate.dayNumber tFrom - 1
        ∧ JsDate.dayNumber (tFrom - (tTo - tFrom)) =
            JsDate.dayNumber tFrom - (JsDate.dayNumber tTo - JsDate.dayNumber tFrom)
        ∧ JsDate.periodDays (tFrom - (tTo - tFrom)) (tFrom - 1) =
            JsDate.periodDays tFrom tTo - 1
        ∧ (JsDate.dayFromCivil 0 1 1 * JsDate.msPerDay ≤ tFrom - 1 →
            JsDate.timeValue (JsDate.isoDate (tFrom - 1)) = some (tFrom - JsDate.msPerDay))
        ∧ (tFrom ≤ tTo →
            JsDate.dayFromCivil 0 1 1 * JsDate.msPerDay ≤ tFrom - (tTo - tFrom) →
            JsDate.timeValue (JsDate.isoDate (tFrom - (tTo - tFrom))) =
              some (tFrom - (tTo - tFrom))) := by
  have happly : ProfitLossReport.applyComparisonMode sameDayLastYear s (.str "previous") =
      some { s with
        comparisonMode := .str "previous", comparison := true,
        comparisonDateFrom := .str (JsDate.isoDate (tFrom - (tTo - tFrom))),
        comparisonDateTo := .str (JsDate.isoDate (tFrom - 1)) } := by
    unfold ProfitLossReport.applyComparisonMode
    simp only [JsVal.isStr, hfrom, hto, JsDate.ofJs, hFrom, hTo]
    rfl
  obtain ⟨dayF, hdayF, hF0, hF1⟩ := JsDate.timeValue_range dateFrom tFrom hFrom
  obtain ⟨dayT, hdayT, hT0, hT1⟩ := JsDate.timeValue_range dateTo tTo hTo
  obtain ⟨hd1, hd2⟩ := JsDate.dayNumber_previous tFrom tTo ⟨dayF, hdayF⟩ ⟨dayT, hdayT⟩
  obtain ⟨hc, hm, hcf, hct⟩ := profitLoss_load_keeps_comparison
    { s with
      comparisonMode := .str "previous", comparison := true,
      comparisonDateFrom := .str (JsDate.isoDate (tFrom - (tTo - tFrom))),
      comparisonDateTo := .str (JsDate.isoDate (tFrom - 1)) } user reply
  have hfirst : JsDate.dayFromCivil 0 1 1 = -719528 := by decide
  refine ⟨_, _, by rw [ProfitLossReport.setComparisonMode, happly], hc, hm, hct, hcf, hd1, hd2,
    ?_, ?_, ?_⟩
  · unfold JsDate.periodDays
    rw [hd1, hd2]
    ring
  · intro hlow
    rw [hfirst] at hlow
    rw [JsDate.timeValue_isoDate (tFrom - 1) hlow
      (by subst hdayF; unfold JsDate.msPerDay; omega)]
    congr 1
    subst hdayF
    unfold JsDate.msPerDay
    omega
  · intro hle hlow
    rw [hfirst] at hlow
    rw [JsDate.timeValue_isoDate (tFrom - (tTo - tFrom)) hlow
      (by subst hdayF hdayT; unfold JsDate.msPerDay at *; omega)]
    congr 1
    subst hdayF hdayT
    unfold JsDate.msPerDay
    omega

/-- The period 1 to 31 January 2025 has 31 days; the comparison period computed for it runs
from 2 to 31 December 2024 and has 30 days. -/
theorem ProfitLossReport.setComparisonMode_previous_witness :
    ProfitLossReport.sampleStateJanuary.date_from = .str "2025-01-01"
      ∧ ProfitLossReport.sampleStateJanuary.date_to = .str "2025-01-31"
      ∧ JsDate.timeValue "2025-01-01" = some 1735689600000
      ∧ JsDate.timeValue "2025-01-31" = some 1738281600000
      ∧ JsDate.periodDays 1735689600000 1738281600000 = 31
      ∧ ∃ final trace,
          ProfitLossReport.setComparisonMode (fun _ => none) ProfitLossReport.sampleStateJanuary
              (.str "previous") sampleUser (.returned none) = some (final, trace)
            ∧ final.comparison = true
            ∧ final.comparisonDateFrom = .str "2024-12-02"
            ∧ final.comparisonDateTo = .str "2024-12-31"
            ∧ JsDate.periodDays (1735689600000 - (1738281600000 - 1735689600000))
                (1735689600000 - 1) = 30 := by
  have hFrom : JsDate.timeValue "2025-01-01" = some 1735689600000 := by decide
  have hTo : JsDate.timeValue "2025-01-31" = some 1738281600000 := by decide
  have hdays : JsDate.periodDays 1735689600000 1738281600000 = 31 := by decide
  obtain ⟨final, trace, h, hc, -, hct, hcf, -, -, hp, -, -⟩ :=
    ProfitLossReport.setComparisonMode_previous (fun _ => none)
      ProfitLossReport.sampleStateJanuary sampleUser (.returned none) "2025-01-01" "2025-01-31"
      1735689600000 1738281600000 rfl rfl hFrom hTo
  have h1 : JsDate.isoDate (1735689600000 - (1738281600000 - 1735689600000)) = "2024-12-02" := by
    decide
  have h2 : JsDate.isoDate (1735689600000 - 1) = "2024-12-31" := by decide
  rw [h1] at hcf
  rw [h2] at hct
  rw [hdays] at hp
  exact ⟨rfl, rfl, hFrom, hTo, hdays, final, trace, h, hc, hcf, hct, hp⟩

/-! ## The year-range filter of the executive summary and of the journal audit -/

theorem splitDash_ne_nil : ∀ cs : List Char, splitDash cs ≠ []
  | [] => by simp [splitDash]
  | c :: cs => by
    have ih := splitDash_ne_nil cs
    rw [splitDash]
    split
    · simp
    · split
      · simp
      · simp

theorem splitDash_eq_singleton : ∀ (cs a : List Char),
    splitDash cs = [a] ↔ cs = a ∧ '-' ∉ a
  | [], a => by
    simp only [splitDash, List.cons.injEq, and_true]
    constructor
    · rintro rfl
      exact ⟨rfl, by simp⟩
    · rintro ⟨h, -⟩
      exact h
  | c :: cs, a => by
    rw [splitDash]
    by_cases hc : c = '-'
    · rw [if_pos hc]
      constructor
      · intro h
        have h2 : splitDash cs = [] := (List.cons.inj h).2
        exact absurd h2 (splitDash_ne_nil cs)
      · rintro ⟨rfl, h⟩
        exact absurd (List.mem_cons.mpr (Or.inl hc.symm)) h
    · rw [if_neg hc]
      cases hs : splitDash cs with
      | nil => exact absurd hs (splitDash_ne_nil cs)
      | cons p ps =>
        simp only [List.cons.injEq]
        constructor
        · rintro ⟨rfl, rfl⟩
          obtain ⟨h1, h2⟩ := (splitDash_eq_singleton cs p).mp hs
          subst h1
          exact ⟨rfl, by
            intro hm
            rcases List.mem_cons.mp hm with h | h
            · exact hc h.symm
            · exact h2 h⟩
        · rintro ⟨rfl, h⟩
          have := (splitDash_eq_singleton cs cs).mpr
            ⟨rfl, fun hm => h (List.mem_cons_of_mem _ hm)⟩
          rw [hs] at this
          obtain ⟨h1, h2⟩ := List.cons.inj this
          exact ⟨by rw [h1], h2⟩

theorem splitDash_eq_pair : ∀ (cs a b : List Char),
    splitDash cs = [a, b] ↔ cs = a ++ '-' :: b ∧ '-' ∉ a ∧ '-' ∉ b
  | [], a, b => by
    simp [splitDash]
  | c :: cs, a, b => by
    rw [splitDash]
    by_cases hc : c = '-'
    · rw [if_pos hc]
      simp only [List.cons.injEq]
      constructor
      · rintro ⟨rfl, h⟩
        obtain ⟨h1, h2⟩ := (splitDash_eq_singleton cs b).mp h
        exact ⟨by rw [hc, h1]; rfl, by simp, h2⟩
      · rintro ⟨h, ha, hb⟩
        cases a with
        | nil =>
          simp only [List.nil_append, List.cons.injEq] at h
          exact ⟨rfl, (splitDash_eq_singleton cs b).mpr ⟨h.2, hb⟩⟩
        | cons x xs =>
          simp only [List.cons_append, List.cons.injEq] at h
          exact absurd (List.mem_cons.mpr (Or.inl (hc ▸ h.1))) ha
    · rw [if_neg hc]
      cases hs : splitDash cs with
      | nil => exact absurd hs (splitDash_ne_nil cs)
      | cons p ps =>
        simp only [List.cons.injEq]
        constructor
        · rintro ⟨rfl, rfl⟩
          obtain ⟨h1, h2, h3⟩ := (splitDash_eq_pair cs p b).mp hs
          refine ⟨by rw [h1]; rfl, ?_, h3⟩
          intro hm
          rcases List.mem_cons.mp hm with h | h
          · exact hc h.symm
          · exact h2 h
        · rintro ⟨h, ha, hb⟩
          cases a with
          | nil =>
            simp only [List.nil_append, List.cons.injEq] at h
            exact absurd h.1 hc
          | cons x xs =>
            simp only [List.cons_append, List.cons.injEq] at h
            obtain ⟨rfl, h⟩ := h
            have := (splitDash_eq_pair cs xs b).mpr
              ⟨h, fun hm => ha (List.mem_cons_of_mem _ hm), hb⟩
            rw [hs] at this
            obtain ⟨h1, h2⟩ := List.cons.inj this
            exact ⟨by rw [h1], h2⟩

theorem splitDash_length : ∀ cs : List Char, (splitDash cs).length = cs.count '-' + 1
  | [] => by simp [splitDash]
  | c :: cs => by
    have ih := splitDash_length cs
    rw [splitDash]
    by_cases hc : c = '-'
    · rw [if_pos hc, List.length_cons, ih, hc, List.count_cons_self]
    · rw [if_neg hc, List.count_cons_of_ne (fun h => hc h.symm)]
      cases hs : splitDash cs with
      | nil => exact absurd hs (splitDash_ne_nil cs)
      | cons p ps =>
        rw [hs] at ih
        simpa using ih

theorem yearRange_of_pair (filter : String) (a b : List Char)
    (h : filter.data = a ++ '-' :: b) (ha : '-' ∉ a) (hb : '-' ∉ b) :
    yearRange (.str filter) =
      .ok (.str (String.mk a ++ "-01-01"), .str (String.mk b ++ "-12-31")) := by
  have hne : filter ≠ "" := by
    intro h0
    rw [h0] at h
    cases a <;> simp at h
  have hs := (splitDash_eq_pair filter.data a b).mpr ⟨h, ha, hb⟩
  simp [yearRange, JsVal.truthy, hne, hs]

theorem yearRange_of_not_pair (filter : String)
    (h : filter = "" ∨ filter.data.count '-' ≠ 1) :
    yearRange (.str filter) = .ok (.null, .null) := by
  by_cases hne : filter = ""
  · simp [yearRange, JsVal.truthy, hne]
  · have hcount : filter.data.count '-' ≠ 1 := h.resolve_left hne
    have hlen : (splitDash filter.data).length ≠ 2 := by
      rw [splitDash_length]
      omega
    simp only [yearRange, JsVal.truthy, bne_iff_ne, ne_eq, hne, not_false_eq_true, decide_True,
      if_true]
    split
    · rename_i a b hs
      rw [hs] at hlen
      exact absurd rfl hlen
    · rfl

theorem yearRange_of_falsy (filter : JsVal) (h : filter.truthy = false) :
    yearRange filter = .ok (.null, .null) := by
  simp [yearRange, h]

theorem executiveSummary_load_head (s : ExecutiveSummaryReport.State) (user : UserContext)
    (reply : Reply (Option ExecutiveSummaryReport.Result)) (dates : JsVal × JsVal)
    (h : yearRange s.filters.date_to = .ok dates) :
    (ExecutiveSummaryReport.loadReport s user reply).2.head? =
      some (ExecutiveSummaryReport.request s user dates) := by
  unfold ExecutiveSummaryReport.loadReport
  simp only [h]
  cases awaitChecked ExecutiveSummaryReport.Result.error reply <;> rfl

theorem journalAudit_load_head (s : JournalAuditReport.State) (user : UserContext)
    (reply : Reply (Option JournalAuditReport.Result)) (dates : JsVal × JsVal)
    (h : yearRange s.filters.date_from = .ok dates) :
    (JournalAuditReport.loadReport s user reply).2.head? =
      some (JournalAuditReport.request s user dates) := by
  unfold JournalAuditReport.loadReport
  simp only [h]
  cases awaitChecked JournalAuditReport.Result.error reply <;> rfl

/-- C22: for every year-range filter string that splits on `-` into exactly two parts `a` and
`b` (it is `a`, a `-`, `b`, with no `-` in `a` or `b`), the first thing
`ExecutiveSummaryReport.loadReport` does with that string in `filters.date_to`, and
`JournalAuditReport.loadReport` with it in `filters.date_from`, is the remote call with
`date_from` = `a` followed by `-01-01` and `date_to` = `b` followed by `-12-31`; for an empty
filter (the empty string, `null`, any falsy value) and for every string that does not split
into exactly two parts (the number of `-` in it is not 1) both requested dates are `null`. -/
theorem loadReport_requests_year_range (user : UserContext) (filter : String) :
    (∀ a b : List Char, filter.data = a ++ '-' :: b → '-' ∉ a → '-' ∉ b →
        (∀ (s : ExecutiveSummaryReport.State)
            (reply : Reply (Option ExecutiveSummaryReport.Result)),
            s.filters.date_to = .str filter →
            (ExecutiveSummaryReport.loadReport s user reply).2.head? =
              some (ExecutiveSummaryReport.request s user
                (.str (String.mk a ++ "-01-01"), .str (String.mk b ++ "-12-31"))))
          ∧ (∀ (s : JournalAuditReport.State)
              (reply : Reply (Option JournalAuditReport.Result)),
            s.filters.date_from = .str filter →
            (JournalAuditReport.loadReport s user reply).2.head? =
              some (JournalAuditReport.request s user
                (.str (String.mk a ++ "-01-01"), .str (String.mk b ++ "-12-31")))))
      ∧ (filter = "" ∨ filter.data.count '-' ≠ 1 →
        (∀ (s : ExecutiveSummaryReport.State)
            (reply : Reply (Option ExecutiveSummaryReport.Result)),
            s.filters.date_to = .str filter →
            (ExecutiveSummaryReport.loadReport s user reply).2.head? =
              some (ExecutiveSummaryReport.request s user (.null, .null)))
          ∧ (∀ (s : JournalAuditReport.State)
              (reply : Reply (Option JournalAuditReport.Result)),
            s.filters.date_from = .str filter →
            (JournalAuditReport.loadReport s user reply).2.head? =
              some (JournalAuditReport.request s user (.null, .null))))
      ∧ (∀ (s : ExecutiveSummaryReport.State)
          (reply : Reply (Option ExecutiveSummaryReport.Result)),
          s.filters.date_to.truthy = false →
          (ExecutiveSummaryReport.loadReport s user reply).2.head? =
            some (ExecutiveSummaryReport.request s user (.null, .null)))
      ∧ (∀ (s : JournalAuditReport.State)
          (reply : Reply (Option JournalAuditReport.Result)),
          s.filters.date_from.truthy = false →
          (JournalAuditReport.loadReport s user reply).2.head? =
            some (JournalAuditReport.request s user (.null, .null)))
      ∧ (∀ (s : ExecutiveSummaryReport.State) (dateFrom dateTo : JsVal),
          ∃ route params, ExecutiveSummaryReport.request s user (dateFrom, dateTo) =
              .rpc route params
            ∧ (params.field "kwargs").field "date_from" = dateFrom
            ∧ (params.field "kwargs").field "date_to" = dateTo)
      ∧ (∀ (s : JournalAuditReport.State) (dateFrom dateTo : JsVal),
          ∃ route params, JournalAuditReport.request s user (dateFrom, dateTo) =
              .rpc route params
            ∧ (params.field "kwargs").field "date_from" = dateFrom
            ∧ (params.field "kwargs").field "date_to" = dateTo) := by
  refine ⟨fun a b h ha hb => ⟨fun s reply hs => ?_, fun s reply hs => ?_⟩,
    fun h => ⟨fun s reply hs => ?_, fun s reply hs => ?_⟩,
    fun s reply hs => ?_, fun s reply hs => ?_,
    fun s dateFrom dateTo => ⟨_, _, rfl, rfl, rfl⟩,
    fun s dateFrom dateTo => ⟨_, _, rfl, rfl, rfl⟩⟩
  · exact executiveSummary_load_head s user reply _
      (by rw [hs]; exact yearRange_of_pair filter a b h ha hb)
  · exact journalAudit_load_head s user reply _
      (by rw [hs]; exact yearRange_of_pair filter a b h ha hb)
  · exact executiveSummary_load_head s user reply _
      (by rw [hs]; exact yearRange_of_not_pair filter h)
  · exact journalAudit_load_head s user reply _
      (by rw [hs]; exact yearRange_of_not_pair filter h)
  · exact executiveSummary_load_head s user reply _ (yearRange_of_falsy _ hs)
  · exact journalAudit_load_head s user reply _ (yearRange_of_falsy _ hs)

/-- The filter `2024-2025` splits into `2024` and `2025`: the executive summary requests the
dates `2024-01-01` and `2025-12-31`. -/
theorem loadReport_requests_year_range_witness :
    ("2024-2025" : String).data = "2024".data ++ '-' :: "2025".data
      ∧ '-' ∉ "2024".data ∧ '-' ∉ "2025".data
      ∧ ∀ (s : ExecutiveSummaryReport.State)
          (reply : Reply (Option ExecutiveSummaryReport.Result)),
          s.filters.date_to = .str "2024-2025" →
          (ExecutiveSummaryReport.loadReport s sampleUser reply).2.head? =
            some (ExecutiveSummaryReport.request s sampleUser
              (.str "2024-01-01", .str "2025-12-31")) :=
  ⟨by decide, by decide, by decide,
    ((loadReport_requests_year_range sampleUser "2024-2025").1 "2024".data "2025".data
      (by decide) (by decide) (by decide)).1⟩

/-! ## Registrations -/

/-- C23 fails for the graph widget: the pair (`fields`, `mz_dashboard_graph`) is registered
twice, by `account_dashboard.js` and by `dashboard_graph_field.js` of `mz_accounting_dashboard`,
so the registered (category, name) pairs are not free of duplicates. It is the only pair
registered more than once: the other fifteen registrations have pairwise different keys, and
the two kanban views are registered under the different names `mz_account_dashboard_kanban` and
`mz_account_dashboard_kanban_simple`. -/
theorem registrations_not_unique :
    ¬ (registrations.map Registration.key).Nodup
      ∧ registrations.length = 17
      ∧ (registrations.filter Registration.isGraphWidget).map Registration.file =
        ["custom-addons/ubuntu_server/mz_accounting_dashboard/static/src/js/account_dashboard.js",
          "custom-addons/ubuntu_server/mz_accounting_dashboard/static/src/js/dashboard_graph_field.js"]
      ∧ ((registrations.filter (fun r => !r.isGraphWidget)).map Registration.key).Nodup
      ∧ ((registrations.filter (fun r => r.category == "views")).map Registration.name) =
        ["mz_account_dashboard_kanban", "mz_account_dashboard_kanban_simple"] := by
  refine ⟨by decide, rfl, by decide, by decide, by decide⟩
